import Mathlib

/-!
# Platypus storefront: pricing, promotions, phone rules and wishlist

A shallow embedding of the pricing and state core of the storefront:

* `src/pages/Checkout.jsx`  : delivery options, delivery fee, charged total;
* `src/pages/Cart.jsx`      : promo registry, promo application, cart totals;
* `src/utils/helpers.js`    : `calculateDeliveryFee`, `validateKenyanPhone`,
  `formatPhoneNumber`;
* `src/context/WishlistContext.jsx` : the wishlist store (add, remove, clear, move to
  cart, sort, filter, statistics, the load effect);
* `src/pages/Checkout.jsx`  : the form, `validateStep`, the step handlers and
  `handlePlaceOrder`, the age-verification effect and the navigation buttons;
* `src/data/products.js`    : the catalogue, with the comparison `x > 0` of a
  property with a number;
* `src/services/apiService.js` : `handleApiError` and `OrdersService.create`.

Conventions of the embedding.

* JavaScript numbers that carry money are exact rationals (`Amount`) wherever the
  amounts and the operations keep them exact (sums and comparisons of whole amounts);
  the cart totals, which multiply and divide, are also given in double precision
  (`JsNumber`, `Cart.Binary64`), with every result rounded to binary64.
* `toUpperCase` / `toLowerCase` map the ASCII letters themselves and take the case
  mappings of all other characters from a table that is a parameter (`UnicodeCase`);
  texts are compared by their UTF-16 code units.
* React state setters are explicit state passing; toasts are collected in a
  list, in the order in which they are emitted.
* A sequence of calls or events is sequential: each one runs on the state that the
  one before left.
* What comes from outside the source files (the cart, the clock, `JSON.parse`, the
  time value of a date, the answers of the order and payment services) is a parameter.
-/

namespace Platypus

/-- Amounts of money in KES. -/
abbrev Amount := ℚ

/-- A notification emitted through `react-hot-toast`. -/
inductive Toast where
  | success (msg : String)
  | error (msg : String)
  deriving DecidableEq, Repr

/-! ## JavaScript string primitives -/

/-- The characters removed by `String.prototype.trim`: the WhiteSpace and
LineTerminator code points of ECMAScript. -/
def isJsWhiteSpace (c : Char) : Bool :=
  let n := c.toNat
  n = 0x9 || n = 0xA || n = 0xB || n = 0xC || n = 0xD || n = 0x20 || n = 0xA0
    || n = 0x1680 || (0x2000 ≤ n && n ≤ 0x200A) || n = 0x2028 || n = 0x2029
    || n = 0x202F || n = 0x205F || n = 0x3000 || n = 0xFEFF

/-- The Unicode case mappings of the characters outside ASCII. They are not part of
the source: `toUpperCase` and `toLowerCase` take them from the tables of the engine, so
the embedding takes them as a parameter, and what is proved holds for every table.
`upper c` is the full upper-case mapping of `c` (one or more characters: "S" for
U+017F, "SS" for U+00DF). `lower before c after` is the lower-case mapping of `c` in a
text where `before` stands in front of it and `after` behind it (U+03A3 is mapped by
what surrounds it). Two facts of the Unicode tables are recorded with the mappings: no
upper-case mapping yields one of the letters a-z, and a white-space character is its
own upper-case mapping. -/
structure UnicodeCase where
  upper : Char → List Char
  lower : List Char → Char → List Char → List Char
  upper_not_lower : ∀ c d, d ∈ upper c → ¬ (97 ≤ d.toNat ∧ d.toNat ≤ 122)
  upper_whiteSpace : ∀ c, isJsWhiteSpace c = true → upper c = [c]

/-- The method `String.prototype.toUpperCase`: every character is replaced by its
upper-case mapping, which for an ASCII character is the letter A-Z of a letter a-z and
the character itself otherwise. -/
def toUpperCase (u : UnicodeCase) (s : String) : String :=
  String.mk (s.data.flatMap (fun c => if c.toNat < 128 then [c.toUpper] else u.upper c))

/-- The lower-case mappings of the characters of `rest`, which stand behind `before`. -/
def lowerFrom (u : UnicodeCase) : List Char → List Char → List Char
  | _, [] => []
  | before, c :: after =>
    (if c.toNat < 128 then [c.toLower] else u.lower before c after)
      ++ lowerFrom u (before ++ [c]) after

/-- The method `String.prototype.toLowerCase`: every character is replaced by its
lower-case mapping, which for an ASCII character is the letter a-z of a letter A-Z and
the character itself otherwise. -/
def toLowerCase (u : UnicodeCase) (s : String) : String :=
  String.mk (lowerFrom u [] s.data)

/-- A table with the mappings of a few characters, for the examples: U+017F (long s)
to "S", U+00E9 to U+00C9, U+00DF to "SS"; in lower case U+00C9 to U+00E9 and U+212A
(Kelvin sign) to "k"; every other character to itself. -/
def sampleCase : UnicodeCase where
  upper c :=
    if c = Char.ofNat 0x17F then ['S']
    else if c = Char.ofNat 0xE9 then [Char.ofNat 0xC9]
    else if c = Char.ofNat 0xDF then ['S', 'S']
    else if 97 ≤ c.toNat ∧ c.toNat ≤ 122 then []
    else [c]
  lower _ c _ :=
    if c = Char.ofNat 0xC9 then [Char.ofNat 0xE9]
    else if c = Char.ofNat 0x212A then ['k']
    else [c]
  upper_not_lower := by
    intro c d hd
    simp only [] at hd
    split_ifs at hd with h1 h2 h3 h4
    · simp only [List.mem_singleton] at hd; subst hd; decide
    · simp only [List.mem_singleton] at hd; subst hd; decide
    · simp only [List.mem_cons, List.mem_singleton, List.mem_nil_iff, or_false, or_self] at hd
      subst hd; decide
    · simp at hd
    · simp only [List.mem_singleton] at hd; subst hd; exact h4
  upper_whiteSpace := by
    intro c hc
    have h1 : c ≠ Char.ofNat 0x17F := by rintro rfl; revert hc; decide
    have h2 : c ≠ Char.ofNat 0xE9 := by rintro rfl; revert hc; decide
    have h3 : c ≠ Char.ofNat 0xDF := by rintro rfl; revert hc; decide
    have h4 : ¬ (97 ≤ c.toNat ∧ c.toNat ≤ 122) := by
      simp only [isJsWhiteSpace, Bool.or_eq_true, decide_eq_true_eq, Bool.and_eq_true] at hc
      omega
    simp only [if_neg h1, if_neg h2, if_neg h3, if_neg h4]

/-- The UTF-16 code units of a character: one unit below U+10000, a surrogate pair
from there on. -/
def utf16Units (c : Char) : List Nat :=
  if c.toNat < 0x10000 then [c.toNat]
  else [0xD800 + (c.toNat - 0x10000) / 0x400, 0xDC00 + (c.toNat - 0x10000) % 0x400]

/-- The code units of a text. The operators `<` and `>` compare two texts by them,
unit by unit, a text that is the beginning of another being the smaller. -/
def codeUnits (s : String) : List Nat :=
  s.data.flatMap utf16Units

/-- The method `String.prototype.trim`. -/
def jsTrim (s : String) : String :=
  String.mk (((s.data.dropWhile isJsWhiteSpace).reverse.dropWhile isJsWhiteSpace).reverse)

/-- The method `String.prototype.startsWith`. -/
def startsWith (s pre : String) : Bool :=
  pre.data.isPrefixOf s.data

/-- The call `s.replace(/\D/g, '')`: every character other than 0-9 is removed. -/
def stripNonDigits (s : String) : String :=
  String.mk (s.data.filter Char.isDigit)

/-- The call `s.slice(1)`. -/
def slice1 (s : String) : String :=
  String.mk (s.data.drop 1)

/-- The names every object literal inherits from `Object.prototype`; a bracket
lookup `obj[key]` with one of these keys finds the inherited member when `obj`
has no own property of that name. -/
def objectPrototypeKeys : List String :=
  [ "constructor", "__proto__", "hasOwnProperty", "isPrototypeOf",
    "propertyIsEnumerable", "toLocaleString", "toString", "valueOf",
    "__defineGetter__", "__defineSetter__", "__lookupGetter__", "__lookupSetter__" ]

/-! ## Checkout page (`src/pages/Checkout.jsx`) -/

namespace Checkout

/-- One entry of the `deliveryOptions` array (the icon is presentation only). -/
structure DeliveryOption where
  id : String
  name : String
  description : String
  price : Amount
  deriving DecidableEq, Repr

/-- The `deliveryOptions` array, lines 56-78. -/
def deliveryOptions : List DeliveryOption :=
  [ { id := "standard", name := "Standard Delivery",
      description := "2-3 business days", price := 200 },
    { id := "express", name := "Express Delivery",
      description := "Next business day", price := 500 },
    { id := "same-day", name := "Same-Day Delivery",
      description := "Within 4-6 hours (Nairobi only)", price := 800 } ]

/-- The lookup `deliveryOptions.find(option => option.id === formData.deliveryOption)`. -/
def selectedDelivery (deliveryOption : String) : Option DeliveryOption :=
  deliveryOptions.find? (fun option => decide (option.id = deliveryOption))

/-- The expression `selectedDelivery?.price || 0`: the price of the option found,
and 0 when there is none or when the price is the falsy number 0. -/
def priceOrZero (selected : Option DeliveryOption) : Amount :=
  match selected with
  | some option => if option.price = 0 then 0 else option.price
  | none => 0

/-- The fee of line 87:
`subtotal >= 3000 && formData.deliveryOption === 'standard' ? 0 : selectedDelivery?.price || 0`. -/
def deliveryFee (subtotal : Amount) (deliveryOption : String) : Amount :=
  if subtotal ≥ 3000 ∧ deliveryOption = "standard" then 0
  else priceOrZero (selectedDelivery deliveryOption)

/-- The total of line 88: `subtotal + deliveryFee`. It is the `totalAmount` of the
order data and the `amount` of the payment request. -/
def totalAmount (subtotal : Amount) (deliveryOption : String) : Amount :=
  subtotal + deliveryFee subtotal deliveryOption

end Checkout

/-! ## Cart page (`src/pages/Cart.jsx`) -/

namespace Cart

/-- A value of the `promoCodes` registry. -/
structure PromoEntry where
  discount : Amount
  description : String
  deriving DecidableEq, Repr

/-- The active promotion `{ ...promo, code }` held in the `appliedPromo` state. -/
structure AppliedPromo where
  discount : Amount
  description : String
  code : String
  deriving DecidableEq, Repr

/-- The constant `deliveryThreshold`, line 32. -/
def deliveryThreshold : Amount := 3000

/-- The constant `deliveryFee`, line 33. -/
def deliveryFee : Amount := 200

/-- The test `subtotal >= deliveryThreshold`, line 35. -/
def isEligibleForFreeDelivery (subtotal : Amount) : Bool :=
  decide (subtotal ≥ deliveryThreshold)

/-- The fee `isEligibleForFreeDelivery ? 0 : deliveryFee`, line 36. -/
def finalDeliveryFee (subtotal : Amount) : Amount :=
  if isEligibleForFreeDelivery subtotal then 0 else deliveryFee

/-- The discount `appliedPromo ? subtotal * (appliedPromo.discount / 100) : 0`, line 37,
as the exact value of the expression. The page computes it in double precision, which
rounds the quotient and the product: that is `Cart.Binary64.promoDiscount`. -/
def promoDiscount (appliedPromo : Option AppliedPromo) (subtotal : Amount) : Amount :=
  match appliedPromo with
  | some promo => subtotal * (promo.discount / 100)
  | none => 0

/-- The total `subtotal - promoDiscount + finalDeliveryFee`, line 38, as the exact
value of the expression; in double precision it is `Cart.Binary64.totalPrice`. -/
def totalPrice (appliedPromo : Option AppliedPromo) (subtotal : Amount) : Amount :=
  subtotal - promoDiscount appliedPromo subtotal + finalDeliveryFee subtotal

/-- The registry `promoCodes`, lines 40-44, read as `promoCodes[key]`. The key is
always an upper-cased string, which is never the name of a member inherited from
`Object.prototype` (lemma `toUpperCase_not_mem_objectPrototypeKeys`), so only the own
properties are listed. -/
def promoCodes (key : String) : Option PromoEntry :=
  if key = "WELCOME10" then
    some { discount := 10, description := "10% off your first order" }
  else if key = "PLATYPUS15" then
    some { discount := 15, description := "15% off for loyal customers" }
  else if key = "WEEKEND20" then
    some { discount := 20, description := "20% off weekend special" }
  else none

/-- The three `useState` cells of the cart page that the promo handlers touch. -/
structure State where
  promoCode : String
  appliedPromo : Option AppliedPromo
  isApplyingPromo : Bool
  deriving DecidableEq, Repr

/-- The synchronous part of `handleApplyPromo`, lines 59-66: the blank-input guard,
then `setIsApplyingPromo(true)` and the scheduling of the timer callback. The third
component is the `promoCode` captured by the scheduled callback, if one is scheduled. -/
def handleApplyPromo (s : State) : State × List Toast × Option String :=
  if jsTrim s.promoCode = "" then
    (s, [Toast.error "Please enter a promo code"], none)
  else
    ({ s with isApplyingPromo := true }, [], some s.promoCode)

/-- The callback given to `setTimeout`, lines 68-79, run on the state `s` that the
page is in when the timer fires; `promoCode` is the value captured at scheduling. -/
def promoTimeout (u : UnicodeCase) (promoCode : String) (s : State) :
    State × List Toast :=
  match promoCodes (toUpperCase u promoCode) with
  | some promo =>
    ({ s with
        appliedPromo := some { discount := promo.discount,
                               description := promo.description,
                               code := toUpperCase u promoCode },
        isApplyingPromo := false },
      [Toast.success ("Promo code applied! " ++ promo.description)])
  | none =>
    ({ s with isApplyingPromo := false }, [Toast.error "Invalid promo code"])

/-- One whole promo attempt: `handleApplyPromo` and then its timer callback, with no
other event in between. -/
def applyPromo (u : UnicodeCase) (s : State) : State × List Toast :=
  match handleApplyPromo s with
  | (s1, toasts, some captured) =>
    ((promoTimeout u captured s1).1, toasts ++ (promoTimeout u captured s1).2)
  | (s1, toasts, none) => (s1, toasts)

/-- The handler `handleRemovePromo`, lines 82-86. -/
def handleRemovePromo (s : State) : State × List Toast :=
  ({ s with appliedPromo := none, promoCode := "" }, [Toast.success "Promo code removed"])

end Cart

/-! ## Helpers (`src/utils/helpers.js`) -/

namespace Helpers

/-- What a bracket lookup in the `deliveryFees` object literal yields. -/
inductive FeeLookup where
  | own (fee : Amount)
  | inherited (key : String)
  | undefined
  deriving DecidableEq, Repr

/-- The object literal `deliveryFees`, lines 146-153, read as `deliveryFees[key]`:
an own property, else a member inherited from `Object.prototype`, else `undefined`. -/
def deliveryFees (key : String) : FeeLookup :=
  if key = "nakuru" then .own 200
  else if key = "nairobi" then .own 300
  else if key = "mombasa" then .own 400
  else if key = "kisumu" then .own 350
  else if key = "eldoret" then .own 300
  else if key = "default" then .own 250
  else if key ∈ objectPrototypeKeys then .inherited key
  else .undefined

/-- The value returned by `calculateDeliveryFee`: a number, or the member of
`Object.prototype` (a function or an object, hence truthy) that the lookup found. -/
inductive FeeResult where
  | number (fee : Amount)
  | inheritedMember (key : String)
  deriving DecidableEq, Repr

/-- The function `calculateDeliveryFee(subtotal, location = 'nakuru')`, lines 139-156;
`none` is an omitted location. -/
def calculateDeliveryFee (u : UnicodeCase) (subtotal : Amount) (location : Option String) :
    FeeResult :=
  let location := location.getD "nakuru"
  if toLowerCase u location = "nakuru" ∧ subtotal ≥ 2500 then .number 0
  else
    match deliveryFees (toLowerCase u location) with
    | .own fee => if fee = 0 then .number 250 else .number fee
    | .inherited key => .inheritedMember key
    | .undefined => .number 250

/-- The function `validateKenyanPhone`, lines 81-91; `none` is a missing phone
(`null` or `undefined`). -/
def validateKenyanPhone (phone : Option String) : Bool :=
  match phone with
  | none => false
  | some phone =>
    if phone = "" then false
    else
      let cleaned := stripNonDigits phone
      (startsWith cleaned "254" && cleaned.length == 12)
        || (startsWith cleaned "0" && cleaned.length == 10)
        || cleaned.length == 9

/-- The function `formatPhoneNumber`, lines 56-78; `none` is a missing phone. -/
def formatPhoneNumber (phone : Option String) : String :=
  match phone with
  | none => ""
  | some phone =>
    if phone = "" then ""
    else
      let cleaned := stripNonDigits phone
      if startsWith cleaned "254" then "+" ++ cleaned
      else if startsWith cleaned "0" then "+254" ++ slice1 cleaned
      else if cleaned.length = 9 then "+254" ++ cleaned
      else phone

end Helpers

/-! ## Wishlist store (`src/context/WishlistContext.jsx`) -/

namespace Wishlist

/-- An entry of `wishlistItems`, as built by `addToWishlist`, lines 47-57. -/
structure WishlistItem where
  id : String
  name : String
  price : Amount
  originalPrice : Option Amount
  image : String
  category : String
  brand : String
  inStock : Bool
  dateAdded : String
  deriving DecidableEq, Repr

/-- What a store operation leaves behind: its boolean result, the wishlist after
it, and the toasts it emitted. -/
structure Outcome where
  result : Bool
  wishlistItems : List WishlistItem
  toasts : List Toast
  deriving DecidableEq, Repr

/-- The function `removeFromWishlist`, lines 71-90. -/
def removeFromWishlist (wishlistItems : List WishlistItem) (productId : String) : Outcome :=
  let itemToRemove := wishlistItems.find? (fun item => decide (item.id = productId))
  { result := true,
    wishlistItems := wishlistItems.filter (fun item => decide (item.id ≠ productId)),
    toasts :=
      match itemToRemove with
      | some item => [Toast.success (item.name ++ " removed from wishlist")]
      | none => [] }

/-- How the awaited cart-insertion callback ends: it resolves with a value that is
truthy (`true`) or falsy (`false`), or it rejects or throws. -/
inductive CallbackOutcome where
  | resolved (success : Bool)
  | rejected
  deriving DecidableEq, Repr

/-- What `moveToCart` leaves behind: the outcome of the store operation and the list
of the calls `addToCart(item, quantity)` it made. -/
structure MoveOutcome where
  result : Bool
  wishlistItems : List WishlistItem
  toasts : List Toast
  calls : List (WishlistItem × Nat)
  deriving DecidableEq, Repr

/-- The function `moveToCart`, lines 116-146. -/
def moveToCart (wishlistItems : List WishlistItem) (productId : String)
    (addToCart : WishlistItem → Nat → CallbackOutcome) : MoveOutcome :=
  match wishlistItems.find? (fun item => decide (item.id = productId)) with
  | none =>
    { result := false, wishlistItems := wishlistItems,
      toasts := [Toast.error "Item not found in wishlist"], calls := [] }
  | some item =>
    if !item.inStock then
      { result := false, wishlistItems := wishlistItems,
        toasts := [Toast.error "Item is currently out of stock"], calls := [] }
    else
      match addToCart item 1 with
      | .resolved true =>
        let removed := removeFromWishlist wishlistItems productId
        { result := true, wishlistItems := removed.wishlistItems,
          toasts := removed.toasts ++ [Toast.success (item.name ++ " moved to cart!")],
          calls := [(item, 1)] }
      | .resolved false =>
        { result := false, wishlistItems := wishlistItems, toasts := [],
          calls := [(item, 1)] }
      | .rejected =>
        { result := false, wishlistItems := wishlistItems,
          toasts := [Toast.error "Failed to move item to cart"], calls := [(item, 1)] }

end Wishlist

/-! ## Wishlist store: the other operations -/

namespace Wishlist

/-- The fields of a product that `addToWishlist` reads. -/
structure Product where
  id : String
  name : String
  price : Amount
  originalPrice : Option Amount
  image : String
  category : String
  brand : String
  inStock : Bool
  deriving DecidableEq, Repr

/-- The entry built by `addToWishlist`, lines 47-57; `now` is the text of
`new Date().toISOString()`. -/
def wishlistItemOf (product : Product) (now : String) : WishlistItem :=
  { id := product.id, name := product.name, price := product.price,
    originalPrice := product.originalPrice, image := product.image,
    category := product.category, brand := product.brand, inStock := product.inStock,
    dateAdded := now }

/-- The function `addToWishlist`, lines 35-69. -/
def addToWishlist (wishlistItems : List WishlistItem) (product : Product) (now : String) :
    Outcome :=
  match wishlistItems.find? (fun item => decide (item.id = product.id)) with
  | some _ =>
    { result := false, wishlistItems := wishlistItems,
      toasts := [Toast.error "Item is already in your wishlist"] }
  | none =>
    { result := true, wishlistItems := wishlistItems ++ [wishlistItemOf product now],
      toasts := [Toast.success (product.name ++ " added to wishlist!")] }

/-- The function `clearWishlist`, lines 92-106. -/
def clearWishlist (_wishlistItems : List WishlistItem) : Outcome :=
  { result := true, wishlistItems := [],
    toasts := [Toast.success "Wishlist cleared successfully"] }

/-- The call `array.sort(compareFn)`: a comparison sort, in which `a` is put before
`b` when `compareFn(a, b)` is not positive. The comparator of `sortWishlist` never
returns 0, so the order among entries of equal key is the engine's choice; nothing is
claimed about it. -/
def jsSort {α : Type} (compareFn : α → α → Int) (items : List α) : List α :=
  List.insertionSort (fun a b => compareFn a b ≤ 0) items

/-- The last lines of the comparator, lines 195-199: for `asc` it is
`aValue > bValue ? 1 : -1`, for any other order `aValue < bValue ? 1 : -1`. -/
def compareValues {β : Type} [LT β] [DecidableRel (fun a b : β => a < b)]
    (order : String) (aValue bValue : β) : Int :=
  if order = "asc" then (if aValue > bValue then 1 else -1)
  else (if aValue < bValue then 1 else -1)

/-- The comparator of `sortWishlist`, lines 170-200. `timeValue` gives the time value
of `new Date(dateAdded)`; the lower-cased texts are compared by their UTF-16 code
units, as `>` and `<` compare two strings. -/
def compareItems (u : UnicodeCase) (timeValue : String → Int) (sortBy order : String)
    (a b : WishlistItem) : Int :=
  if sortBy = "name" then
    compareValues order (codeUnits (toLowerCase u a.name)) (codeUnits (toLowerCase u b.name))
  else if sortBy = "price" then compareValues order a.price b.price
  else if sortBy = "dateAdded" then
    compareValues order (timeValue a.dateAdded) (timeValue b.dateAdded)
  else if sortBy = "category" then
    compareValues order (codeUnits (toLowerCase u a.category))
      (codeUnits (toLowerCase u b.category))
  else compareValues order (timeValue a.dateAdded) (timeValue b.dateAdded)

/-- The function `sortWishlist`, lines 169-203: the list it stores with
`setWishlistItems(sorted)`. An omitted `sortBy` is `dateAdded`, an omitted `order`
is `desc`. -/
def sortWishlist (u : UnicodeCase) (timeValue : String → Int)
    (wishlistItems : List WishlistItem) (sortBy order : Option String) : List WishlistItem :=
  jsSort (compareItems u timeValue (sortBy.getD "dateAdded") (order.getD "desc"))
    wishlistItems

/-- The argument of `filterWishlist`; `none` is a dimension that is `undefined`. -/
structure Filters where
  category : Option String
  inStock : Option Bool
  priceRange : Option (Amount × Amount)
  search : Option String
  deriving DecidableEq, Repr

/-- The method `String.prototype.includes`: the searched text occurs at some position.
A text is a sequence of characters here and one of UTF-16 code units in the source; for
texts without unpaired surrogates, the only ones that `String` holds, an occurrence in
code units starts and ends at a character boundary, so the two agree. -/
def includes (s searchString : String) : Bool :=
  s.data.tails.any (fun t => searchString.data.isPrefixOf t)

/-- The function `filterWishlist`, lines 205-231. -/
def filterWishlist (u : UnicodeCase) (wishlistItems : List WishlistItem)
    (filters : Filters) : List WishlistItem :=
  let filtered := wishlistItems
  let filtered :=
    match filters.category with
    | some category =>
      if category ≠ "" ∧ category ≠ "all" then
        filtered.filter (fun item => decide (item.category = category))
      else filtered
    | none => filtered
  let filtered :=
    match filters.inStock with
    | some inStock => filtered.filter (fun item => decide (item.inStock = inStock))
    | none => filtered
  let filtered :=
    match filters.priceRange with
    | some (min, max) =>
      filtered.filter (fun item => decide (item.price ≥ min) && decide (item.price ≤ max))
    | none => filtered
  let filtered :=
    match filters.search with
    | some search =>
      if search ≠ "" then
        let searchTerm := toLowerCase u search
        filtered.filter (fun item =>
          includes (toLowerCase u item.name) searchTerm
            || includes (toLowerCase u item.brand) searchTerm
            || includes (toLowerCase u item.category) searchTerm)
      else filtered
    | none => filtered
  filtered

/-- A value of the `categories` object built by `getWishlistStats`: a count, or the
text that `+ 1` makes of a member inherited from `Object.prototype` (the text of that
member followed by `ones` characters "1"). -/
inductive CategoryValue where
  | count (n : Nat)
  | text (ones : Nat)
  deriving DecidableEq, Repr

/-- The own properties of the `categories` object. -/
abbrev Categories := List (String × CategoryValue)

/-- The assignment `acc[key] = value` for a key that is an own property of `acc`. -/
def setOwn (acc : Categories) (key : String) (value : CategoryValue) : Categories :=
  acc.map (fun entry => if entry.1 = key then (key, value) else entry)

/-- The reducer of lines 154-157: `acc[item.category] = (acc[item.category] || 0) + 1`
on an accumulator that starts as the object literal `{}`. A key that `acc` has not
yet as an own property is looked up in `Object.prototype`: a member found there is
truthy and `+ 1` turns it into text; the assignment to `__proto__` goes to the
inherited setter, which ignores a text. -/
def countCategory (acc : Categories) (category : String) : Categories :=
  match acc.lookup category with
  | some (.count n) => setOwn acc category (.count ((if n = 0 then 0 else n) + 1))
  | some (.text ones) => setOwn acc category (.text (ones + 1))
  | none =>
    if category = "__proto__" then acc
    else if category ∈ objectPrototypeKeys then acc ++ [(category, .text 1)]
    else acc ++ [(category, .count 1)]

/-- The object returned by `getWishlistStats`. -/
structure Stats where
  totalItems : Nat
  inStockItems : Nat
  outOfStockItems : Nat
  totalValue : Amount
  categories : Categories
  isEmpty : Bool
  deriving DecidableEq, Repr

/-- The function `getWishlistStats`, lines 148-167. -/
def getWishlistStats (wishlistItems : List WishlistItem) : Stats :=
  let totalItems := wishlistItems.length
  let inStockItems := (wishlistItems.filter (fun item => item.inStock)).length
  { totalItems := totalItems,
    inStockItems := inStockItems,
    outOfStockItems := totalItems - inStockItems,
    totalValue := wishlistItems.foldl (fun sum item => sum + item.price) 0,
    categories := wishlistItems.foldl (fun acc item => countCategory acc item.category) [],
    isEmpty := decide (totalItems = 0) }

/-- A value that `JSON.parse` can return. -/
inductive JsonValue where
  | null
  | bool (b : Bool)
  | number (n : Amount)
  | string (s : String)
  | array (items : List JsonValue)
  | object (fields : List (String × JsonValue))

/-- What the call `JSON.parse(text)` does: it throws a SyntaxError or returns a value. -/
inductive ParseResult where
  | syntaxError
  | value (v : JsonValue)

/-- The load effect of lines 19-28, run on the initial state `[]`: the value held in
`wishlistItems` afterwards. `savedWishlist` is what `localStorage.getItem` returned
(`none` for `null`) and `jsonParse` is `JSON.parse`. -/
def loadWishlist (jsonParse : String → ParseResult) (savedWishlist : Option String) :
    JsonValue :=
  match savedWishlist with
  | none => .array []
  | some text =>
    if text = "" then .array []
    else
      match jsonParse text with
      | .value v => v
      | .syntaxError => .array []

/-- One call on the store, with what the call is given from outside. -/
inductive Op where
  | add (product : Product) (now : String)
  | remove (productId : String)
  | clear
  | sort (sortBy order : Option String)
  | move (productId : String) (addToCart : WishlistItem → Nat → CallbackOutcome)

/-- The wishlist after one call. -/
def applyOp (u : UnicodeCase) (timeValue : String → Int)
    (wishlistItems : List WishlistItem) : Op → List WishlistItem
  | .add product now => (addToWishlist wishlistItems product now).wishlistItems
  | .remove productId => (removeFromWishlist wishlistItems productId).wishlistItems
  | .clear => (clearWishlist wishlistItems).wishlistItems
  | .sort sortBy order => sortWishlist u timeValue wishlistItems sortBy order
  | .move productId addToCart => (moveToCart wishlistItems productId addToCart).wishlistItems

/-- The wishlist after a sequence of calls, each made by a render that has seen the
state the call before left (one call per render), from the wishlist `start`. -/
def runOps (u : UnicodeCase) (timeValue : String → Int) (start : List WishlistItem)
    (ops : List Op) : List WishlistItem :=
  ops.foldl (applyOp u timeValue) start

/-- One call made by a render that captured the list `captured`, while the list that
React holds is `current`: the list held afterwards. `addToWishlist` and `moveToCart`
look the entry up in the captured `wishlistItems` (lines 40 and 117) and change the list
through `setWishlistItems(prev => ...)`, which runs on the current one (lines 59 and
77); `clearWishlist` stores `[]`; `sortWishlist` stores a sorted copy of the captured
list (lines 170 and 202). -/
def applyOpFrom (u : UnicodeCase) (timeValue : String → Int)
    (captured current : List WishlistItem) : Op → List WishlistItem
  | .add product now =>
    match captured.find? (fun item => decide (item.id = product.id)) with
    | some _ => current
    | none => current ++ [wishlistItemOf product now]
  | .remove productId => current.filter (fun item => decide (item.id ≠ productId))
  | .clear => []
  | .sort sortBy order => sortWishlist u timeValue captured sortBy order
  | .move productId addToCart =>
    match captured.find? (fun item => decide (item.id = productId)) with
    | none => current
    | some item =>
      if !item.inStock then current
      else
        match addToCart item 1 with
        | .resolved true => current.filter (fun item => decide (item.id ≠ productId))
        | .resolved false => current
        | .rejected => current

/-- The calls that one render makes, in their order: every one of them captured the
list `captured` that the render saw. -/
def runRender (u : UnicodeCase) (timeValue : String → Int) (captured : List WishlistItem)
    (ops : List Op) : List WishlistItem :=
  ops.foldl (applyOpFrom u timeValue captured) captured

/-- A sequence of renders, each of which sees the list that the calls of the render
before left. -/
def runRenders (u : UnicodeCase) (timeValue : String → Int) (start : List WishlistItem)
    (renders : List (List Op)) : List WishlistItem :=
  renders.foldl (runRender u timeValue) start

end Wishlist


/-! ## Checkout page: the form, its validation and the submission -/

namespace Checkout

/-- The `formData` state, lines 30-51. -/
structure FormData where
  firstName : String
  lastName : String
  email : String
  phone : String
  address : String
  city : String
  county : String
  deliveryInstructions : String
  mpesaPhone : String
  ageVerified : Bool
  deliveryOption : String
  deriving DecidableEq, Repr

/-- The field names that the page passes to `handleInputChange`, and under which
`validateStep` records errors. -/
inductive Field where
  | firstName
  | lastName
  | email
  | phone
  | address
  | city
  | county
  | deliveryInstructions
  | mpesaPhone
  | deliveryOption
  deriving DecidableEq, Repr

/-- The own properties of the `errors` object, in the order in which they were set. -/
abbrev Errors := List (Field × String)

/-- The test `/\S+@\S+\.\S+/.test(email)`: somewhere in the text there is an '@' with
a non-white-space character directly before it, then one or more non-white-space
characters, then a '.', then a non-white-space character. Here `i` is the position of
that '@' and `j` the position of that '.'. -/
def emailPattern (email : String) : Bool :=
  let cs := email.data
  (List.range cs.length).any (fun i =>
    (List.range cs.length).any (fun j =>
      decide (1 ≤ i) && decide (i + 2 ≤ j) && decide (j + 1 < cs.length)
        && decide (cs.get? i = some '@') && decide (cs.get? j = some '.')
        && ((cs.drop (i - 1)).take (j + 2 - (i - 1))).all (fun c => !isJsWhiteSpace c)))

/-- The step-1 checks of `validateStep`, lines 107-120. -/
def validateStep1 (formData : FormData) : Errors :=
  (if jsTrim formData.firstName = "" then [(Field.firstName, "First name is required")]
    else [])
  ++ (if jsTrim formData.lastName = "" then [(Field.lastName, "Last name is required")]
    else [])
  ++ (if jsTrim formData.email = "" then [(Field.email, "Email is required")]
    else if !emailPattern formData.email then [(Field.email, "Email is invalid")]
    else [])
  ++ (if jsTrim formData.phone = "" then [(Field.phone, "Phone number is required")]
    else if !Helpers.validateKenyanPhone (some formData.phone) then
      [(Field.phone, "Please enter a valid Kenyan phone number")]
    else [])

/-- The step-2 checks of `validateStep`, lines 122-125. -/
def validateStep2 (formData : FormData) : Errors :=
  (if jsTrim formData.address = "" then [(Field.address, "Address is required")] else [])
  ++ (if jsTrim formData.city = "" then [(Field.city, "City is required")] else [])

/-- The step-3 checks of `validateStep`, lines 127-135. -/
def validateStep3 (formData : FormData) (paymentMethod : String) : Errors :=
  if paymentMethod = "mpesa" then
    if jsTrim formData.mpesaPhone = "" then
      [(Field.mpesaPhone, "M-Pesa phone number is required")]
    else if !Helpers.validateKenyanPhone (some formData.mpesaPhone) then
      [(Field.mpesaPhone, "Please enter a valid M-Pesa phone number")]
    else []
  else []

/-- The object `newErrors` that `validateStep(step)` builds and stores with
`setErrors`, lines 104-137. -/
def validateStep (formData : FormData) (paymentMethod : String) (step : Nat) : Errors :=
  (if step = 1 then validateStep1 formData else [])
  ++ (if step = 2 then validateStep2 formData else [])
  ++ (if step = 3 then validateStep3 formData paymentMethod else [])

/-- The value returned by `validateStep(step)`, line 138:
`Object.keys(newErrors).length === 0`. -/
def stepIsValid (formData : FormData) (paymentMethod : String) (step : Nat) : Bool :=
  decide ((validateStep formData paymentMethod step).length = 0)

/-- The state cells of the page, lines 27-54. -/
structure State where
  currentStep : Nat
  isProcessing : Bool
  paymentMethod : String
  formData : FormData
  errors : Errors
  ageVerificationStep : Bool
  deriving DecidableEq, Repr

/-- The state at mount; the four arguments are `user?.firstName || ''` and so on
(`mpesaPhone` starts as the user's phone). -/
def initialState (firstName lastName email phone : String) : State :=
  { currentStep := 1, isProcessing := false, paymentMethod := "mpesa",
    formData :=
      { firstName := firstName, lastName := lastName, email := email, phone := phone,
        address := "", city := "Nairobi", county := "Nairobi", deliveryInstructions := "",
        mpesaPhone := phone, ageVerified := false, deliveryOption := "standard" },
    errors := [], ageVerificationStep := false }

/-- The update `{ ...prev, [field]: value }` of the form data. -/
def setField (formData : FormData) (field : Field) (value : String) : FormData :=
  match field with
  | .firstName => { formData with firstName := value }
  | .lastName => { formData with lastName := value }
  | .email => { formData with email := value }
  | .phone => { formData with phone := value }
  | .address => { formData with address := value }
  | .city => { formData with city := value }
  | .county => { formData with county := value }
  | .deliveryInstructions => { formData with deliveryInstructions := value }
  | .mpesaPhone => { formData with mpesaPhone := value }
  | .deliveryOption => { formData with deliveryOption := value }

/-- The update `{ ...prev, [field]: '' }` of the errors, done when `errors[field]`
is a non-empty text. -/
def clearError (errors : Errors) (field : Field) : Errors :=
  match errors.lookup field with
  | some message =>
    if message = "" then errors
    else errors.map (fun entry => if entry.1 = field then (field, "") else entry)
  | none => errors

/-- The handler `handleInputChange`, lines 141-146. -/
def handleInputChange (s : State) (field : Field) (value : String) : State :=
  { s with formData := setField s.formData field value,
           errors := clearError s.errors field }

/-- The handler `handleNextStep`, lines 148-154. -/
def handleNextStep (s : State) : State :=
  let newErrors := validateStep s.formData s.paymentMethod s.currentStep
  if stepIsValid s.formData s.paymentMethod s.currentStep then
    if s.currentStep < 4 then { s with errors := newErrors, currentStep := s.currentStep + 1 }
    else { s with errors := newErrors }
  else { s with errors := newErrors }

/-- The handler `handlePrevStep`, lines 156-160. -/
def handlePrevStep (s : State) : State :=
  if s.currentStep > 1 then { s with currentStep := s.currentStep - 1 } else s

/-- The controls for which the page renders an input on a step, lines 326-598. -/
def fieldsOfStep (step : Nat) : List Field :=
  if step = 1 then [.firstName, .lastName, .email, .phone]
  else if step = 2 then [.deliveryOption, .address, .city, .county, .deliveryInstructions]
  else if step = 3 then [.mpesaPhone]
  else []

end Checkout


namespace Checkout

/-- The handler `handleAgeVerification`, lines 162-169: the new state, the toasts and
the route navigated to, if any. -/
def handleAgeVerification (s : State) (isVerified : Bool) :
    State × List Toast × Option String :=
  let s1 := { s with formData := { s.formData with ageVerified := isVerified },
                     ageVerificationStep := false }
  if !isVerified then
    (s1, [Toast.error "Age verification is required to purchase alcoholic beverages"],
      some "/cart")
  else (s1, [], none)

/-- The `customer` part of the order data. -/
structure Customer where
  firstName : String
  lastName : String
  email : String
  phone : String
  deriving DecidableEq, Repr

/-- The `delivery` part of the order data. -/
structure Delivery where
  address : String
  city : String
  county : String
  instructions : String
  option : String
  deriving DecidableEq, Repr

/-- The `payment` part of the order data. -/
structure Payment where
  method : String
  phone : String
  amount : Amount
  deriving DecidableEq, Repr

/-- The object `orderData`, lines 178-201; `Item` is the type of a cart line. -/
structure OrderData (Item : Type) where
  items : List Item
  customer : Customer
  delivery : Delivery
  payment : Payment
  subtotal : Amount
  deliveryFee : Amount
  totalAmount : Amount
  deriving DecidableEq, Repr

/-- A value written to `localStorage` for the receipt page. -/
inductive Stored (Item : Type) where
  | amount (value : Amount)
  | items (value : List Item)
  | text (value : String)
  deriving DecidableEq, Repr

/-- The things `handlePlaceOrder` does to the outside, in the order it does them. -/
inductive Effect (Item : Type) where
  | toast (t : Toast)
  | createOrder (orderData : OrderData Item)
  | initiateMpesa (orderId : String) (phone : String) (amount : Amount)
  | checkMpesaStatus (checkoutId : String)
  | setItem (key : String) (value : Stored Item)
  | clearCart
  | navigate (url : String)
  deriving DecidableEq, Repr

/-- How an awaited service call ends, as seen by `handlePlaceOrder`: it rejects with
an error of that message (the empty text when it has none), it resolves with
`undefined`, or it resolves with a response whose `data` is missing (`none`) or
present. -/
inductive ServiceResult (α : Type) where
  | rejected (message : String)
  | resolvedUndefined
  | resolved (data : Option α)
  deriving DecidableEq, Repr

/-- The `data` of the response of `OrdersService.create`. -/
structure CreatedOrder where
  id : String
  deriving DecidableEq, Repr

/-- The `data` of the response of `PaymentsService.initiateMpesa`; `checkoutId` is
`none` when the property is missing. -/
structure InitiateData where
  checkoutId : Option String
  deriving DecidableEq, Repr

/-- The `data` of the response of `PaymentsService.checkMpesaStatus`. -/
structure StatusData where
  status : String
  deriving DecidableEq, Repr

/-- What a submission is given from outside: the cart (`cartItems`, `getTotalPrice()`),
the clock read for the payment id, and the answers of the two services. -/
structure Env (Item : Type) where
  cartItems : List Item
  subtotal : Amount
  now : Nat
  createOrder : OrderData Item → ServiceResult CreatedOrder
  initiateMpesa : String → String → Amount → ServiceResult InitiateData
  checkMpesaStatus : String → ServiceResult StatusData

/-- The message of the TypeError thrown when a property is read from `undefined`. -/
def typeErrorMessage (property : String) : String :=
  "Cannot read properties of undefined (reading '" ++ property ++ "')"

/-- The object `orderData` built at lines 178-201. -/
def orderDataOf {Item : Type} (env : Env Item) (s : State) : OrderData Item :=
  { items := env.cartItems,
    customer := { firstName := s.formData.firstName, lastName := s.formData.lastName,
                  email := s.formData.email, phone := s.formData.phone },
    delivery := { address := s.formData.address, city := s.formData.city,
                  county := s.formData.county,
                  instructions := s.formData.deliveryInstructions,
                  option := s.formData.deliveryOption },
    payment := { method := s.paymentMethod, phone := s.formData.mpesaPhone,
                 amount := totalAmount env.subtotal s.formData.deliveryOption },
    subtotal := env.subtotal,
    deliveryFee := deliveryFee env.subtotal s.formData.deliveryOption,
    totalAmount := totalAmount env.subtotal s.formData.deliveryOption }

/-- The M-Pesa part of the `try` block, lines 213-232: what it does and the message
of the error it throws, if it throws. -/
def processPayment {Item : Type} (env : Env Item) (s : State) (createdOrder : CreatedOrder) :
    List (Effect Item) × Option String :=
  if s.paymentMethod = "mpesa" then
    let request : List (Effect Item) :=
      [ .toast (Toast.success "M-Pesa payment request sent to your phone!"),
        .initiateMpesa createdOrder.id s.formData.mpesaPhone
          (totalAmount env.subtotal s.formData.deliveryOption) ]
    match env.initiateMpesa createdOrder.id s.formData.mpesaPhone
        (totalAmount env.subtotal s.formData.deliveryOption) with
    | .rejected message => (request, some message)
    | .resolvedUndefined => (request, some (typeErrorMessage "data"))
    | .resolved none => (request, some (typeErrorMessage "checkoutId"))
    | .resolved (some payment) =>
      match payment.checkoutId with
      | none => (request, none)
      | some checkoutId =>
        if checkoutId = "" then (request, none)
        else
          match env.checkMpesaStatus checkoutId with
          | .rejected message => (request ++ [.checkMpesaStatus checkoutId], some message)
          | .resolvedUndefined =>
            (request ++ [.checkMpesaStatus checkoutId], some (typeErrorMessage "data"))
          | .resolved none =>
            (request ++ [.checkMpesaStatus checkoutId], some (typeErrorMessage "status"))
          | .resolved (some statusData) =>
            if statusData.status ≠ "completed" then
              (request ++ [.checkMpesaStatus checkoutId], some "Payment was not completed")
            else (request ++ [.checkMpesaStatus checkoutId], none)
  else ([], none)

/-- The end of the `try` block, lines 234-255: the hand-off to the receipt page. -/
def completeOrder {Item : Type} (env : Env Item) (s : State) (createdOrder : CreatedOrder) :
    List (Effect Item) :=
  [ .setItem "orderTotal" (.amount (totalAmount env.subtotal s.formData.deliveryOption)),
    .setItem "orderSubtotal" (.amount env.subtotal),
    .setItem "deliveryFee" (.amount (deliveryFee env.subtotal s.formData.deliveryOption)),
    .setItem "orderItems" (.items env.cartItems),
    .setItem "deliveryAddress" (.text s.formData.address),
    .setItem "deliveryCity" (.text s.formData.city),
    .setItem "deliveryInstructions" (.text s.formData.deliveryInstructions),
    .setItem "deliveryTimeSlot" (.text
      (match selectedDelivery s.formData.deliveryOption with
        | some option => if option.description = "" then "2-3 business days"
                         else option.description
        | none => "2-3 business days")),
    .clearCart,
    .navigate ("/order-success?orderId=" ++ createdOrder.id ++ "&paymentId=MP"
      ++ toString env.now ++ "&email=" ++ s.formData.email ++ "&phone=" ++ s.formData.phone),
    .toast (Toast.success "Order placed successfully!") ]

/-- The `try` block of `handlePlaceOrder`, lines 176-256: what it does and the
message of the error that reaches `catch`, if one is thrown. -/
def submitOrder {Item : Type} (env : Env Item) (s : State) :
    List (Effect Item) × Option String :=
  match env.createOrder (orderDataOf env s) with
  | .rejected message => ([.createOrder (orderDataOf env s)], some message)
  | .resolvedUndefined => ([.createOrder (orderDataOf env s)], some (typeErrorMessage "data"))
  | .resolved none => ([.createOrder (orderDataOf env s)], some "Failed to create order")
  | .resolved (some createdOrder) =>
    match processPayment env s createdOrder with
    | (effects, some message) => (.createOrder (orderDataOf env s) :: effects, some message)
    | (effects, none) =>
      (.createOrder (orderDataOf env s) :: effects ++ completeOrder env s createdOrder, none)

/-- The handler `handlePlaceOrder`, lines 171-262, run to its end: the state it
leaves and what it did. The guard of line 172 runs `validateStep(3)`, which stores
its errors; `catch` shows `error.message || 'Failed to process order. Please try
again.'`; `finally` resets `isProcessing`. -/
def handlePlaceOrder {Item : Type} (env : Env Item) (s : State) :
    State × List (Effect Item) :=
  let s1 := { s with errors := validateStep s.formData s.paymentMethod 3 }
  if !stepIsValid s.formData s.paymentMethod 3 || !s.formData.ageVerified then (s1, [])
  else
    match submitOrder env s1 with
    | (effects, some message) =>
      ({ s1 with isProcessing := false },
        effects ++ [.toast (Toast.error
          (if message = "" then "Failed to process order. Please try again." else message))])
    | (effects, none) => ({ s1 with isProcessing := false }, effects)

/-- What the user can do on the page. -/
inductive Event (Item : Type) where
  | input (field : Field) (value : String)
  | next
  | prev
  | selectMpesa
  | ageVerification (isVerified : Bool)
  | placeOrder (env : Env Item)

/-- The state after one event. An input changes a field only when the shown step
renders a control for it; the one payment radio with a handler is the M-Pesa one
(the card radio is `disabled` and has no `onChange`). -/
def step {Item : Type} (s : State) : Event Item → State
  | .input field value =>
    if field ∈ fieldsOfStep s.currentStep then handleInputChange s field value else s
  | .next => handleNextStep s
  | .prev => handlePrevStep s
  | .selectMpesa => { s with paymentMethod := "mpesa" }
  | .ageVerification isVerified => (handleAgeVerification s isVerified).1
  | .placeOrder env => (handlePlaceOrder env s).1

/-- The state after a sequence of events. -/
def run {Item : Type} (s : State) (events : List (Event Item)) : State :=
  events.foldl step s

end Checkout


/-! ## JavaScript numbers -/

/-- A JavaScript number (IEEE 754 binary64): NaN, an infinity, or a finite value.
The arithmetic below rounds every result to binary64 (`ofRat`); the sign of zero is
not modelled: a zero is +0. -/
inductive JsNumber where
  | nan
  | negInfinity
  | finite (value : Amount)
  | posInfinity
  deriving DecidableEq, Repr

namespace JsNumber

/-- The unary minus. -/
def negate : JsNumber → JsNumber
  | nan => nan
  | negInfinity => posInfinity
  | finite value => finite (-value)
  | posInfinity => negInfinity

/-- The comparison `x > 0`; it is false for NaN. -/
def isPositive : JsNumber → Bool
  | finite value => decide (0 < value)
  | posInfinity => true
  | _ => false

/-- The power of two with exponent `k`. -/
def pow2 (k : Int) : Amount :=
  if 0 ≤ k then ((2 ^ k.toNat : Nat) : Amount) else 1 / ((2 ^ (-k).toNat : Nat) : Amount)

/-- The integer nearest to `q`, and the even one of the two when `q` lies half-way
between two integers. -/
def roundHalfEven (q : Amount) : Int :=
  if q - ⌊q⌋ < 1 / 2 then ⌊q⌋
  else if 1 / 2 < q - ⌊q⌋ then ⌊q⌋ + 1
  else if ⌊q⌋ % 2 = 0 then ⌊q⌋
  else ⌊q⌋ + 1

/-- The number of binary digits of `n`, counted in at most `fuel` steps. -/
def bitLengthAux : Nat → Nat → Nat
  | 0, _ => 0
  | fuel + 1, n => if n = 0 then 0 else bitLengthAux fuel (n / 2) + 1

/-- The number of binary digits of `n`; it is 0 for 0. -/
def bitLength (n : Nat) : Nat :=
  bitLengthAux n n

/-- The binary exponent of a rational that is not zero: the `e` with
2^e <= |q| < 2^(e+1). The difference of the bit lengths of numerator and denominator is
`e` or `e + 1`. -/
def exponentOf (q : Amount) : Int :=
  let k : Int := (bitLength q.num.natAbs : Int) - (bitLength q.den : Int)
  if pow2 k ≤ |q| then k else k - 1

/-- The binary64 value of the real number `q`: the nearest value with 53 significant
bits, ties to the even one (round to nearest, ties to even). Below 2^-1022 the values
are the multiples of 2^-1074; a result of magnitude 2^1024 or more is an infinity. -/
def ofRat (q : Amount) : JsNumber :=
  if q = 0 then finite 0
  else
    let e := max (exponentOf q) (-1022)
    let quantum := pow2 (e - 52)
    let r := (roundHalfEven (q / quantum) : Amount) * quantum
    if pow2 1024 ≤ r then posInfinity
    else if r ≤ -pow2 1024 then negInfinity
    else finite r

/-- The sign of a number: -1, 0 or 1; 0 also for NaN. -/
def sign : JsNumber → Int
  | nan => 0
  | negInfinity => -1
  | finite value => if 0 < value then 1 else if value < 0 then -1 else 0
  | posInfinity => 1

/-- The product `x * y`. -/
def mul (x y : JsNumber) : JsNumber :=
  match x, y with
  | nan, _ => nan
  | _, nan => nan
  | finite a, finite b => ofRat (a * b)
  | _, _ =>
    if sign x * sign y = 0 then nan
    else if 0 < sign x * sign y then posInfinity
    else negInfinity

/-- The quotient `x / y`. -/
def div (x y : JsNumber) : JsNumber :=
  match x, y with
  | nan, _ => nan
  | _, nan => nan
  | finite a, finite b =>
    if b = 0 then (if a = 0 then nan else if 0 < a then posInfinity else negInfinity)
    else ofRat (a / b)
  | finite _, _ => finite 0
  | _, finite b =>
    if 0 ≤ sign x * (if b < 0 then -1 else 1) then posInfinity else negInfinity
  | _, _ => nan

/-- The sum `x + y`. -/
def add (x y : JsNumber) : JsNumber :=
  match x, y with
  | nan, _ => nan
  | _, nan => nan
  | finite a, finite b => ofRat (a + b)
  | posInfinity, negInfinity => nan
  | negInfinity, posInfinity => nan
  | posInfinity, _ => posInfinity
  | _, posInfinity => posInfinity
  | negInfinity, _ => negInfinity
  | _, negInfinity => negInfinity

/-- The difference `x - y`. -/
def sub (x y : JsNumber) : JsNumber :=
  add x (negate y)

/-- The comparison `x >= y`; it is false when one of the two is NaN. -/
def ge (x y : JsNumber) : Bool :=
  match x, y with
  | nan, _ => false
  | _, nan => false
  | finite a, finite b => decide (b ≤ a)
  | posInfinity, _ => true
  | _, negInfinity => true
  | _, _ => false

end JsNumber

/-! ## Cart page: the totals in double precision -/

namespace Cart

namespace Binary64

/-- The test `subtotal >= deliveryThreshold`, line 35, with the threshold 3000 of
line 32. -/
def isEligibleForFreeDelivery (subtotal : JsNumber) : Bool :=
  subtotal.ge (.finite 3000)

/-- The fee `isEligibleForFreeDelivery ? 0 : deliveryFee`, line 36, with the fee 200 of
line 33. -/
def finalDeliveryFee (subtotal : JsNumber) : JsNumber :=
  if isEligibleForFreeDelivery subtotal then .finite 0 else .finite 200

/-- The discount `appliedPromo ? subtotal * (appliedPromo.discount / 100) : 0`, line 37:
the quotient is rounded, then the product is. -/
def promoDiscount (appliedPromo : Option AppliedPromo) (subtotal : JsNumber) : JsNumber :=
  match appliedPromo with
  | some promo => subtotal.mul ((JsNumber.ofRat promo.discount).div (.finite 100))
  | none => .finite 0

/-- The total `subtotal - promoDiscount + finalDeliveryFee`, line 38: the difference is
rounded, then the sum is. -/
def totalPrice (appliedPromo : Option AppliedPromo) (subtotal : JsNumber) : JsNumber :=
  (subtotal.sub (promoDiscount appliedPromo subtotal)).add (finalDeliveryFee subtotal)

end Binary64

end Cart

/-- The value of a digit character in a radix up to 16 (16 for any other character). -/
def digitValue (c : Char) : Nat :=
  if c.isDigit then c.toNat - 48
  else if 97 ≤ c.toNat ∧ c.toNat ≤ 102 then c.toNat - 87
  else if 65 ≤ c.toNat ∧ c.toNat ≤ 70 then c.toNat - 55
  else 16

/-- The number written by a run of digits in a radix. -/
def digitsToNat (radix : Nat) (digits : List Char) : Nat :=
  digits.foldl (fun n c => radix * n + digitValue c) 0

/-- The ExponentPart of a decimal literal (`e`, an optional sign, digits), or nothing. -/
def parseExponent : List Char → Option Int
  | [] => some 0
  | c :: rest =>
    if c = 'e' ∨ c = 'E' then
      match rest with
      | '+' :: digits =>
        if digits ≠ [] ∧ digits.all Char.isDigit then some (digitsToNat 10 digits) else none
      | '-' :: digits =>
        if digits ≠ [] ∧ digits.all Char.isDigit then some (-(digitsToNat 10 digits : Int))
        else none
      | digits =>
        if digits ≠ [] ∧ digits.all Char.isDigit then some (digitsToNat 10 digits) else none
    else none

/-- The StrUnsignedDecimalLiteral of ECMAScript: `Infinity`, or digits with an optional
fraction and an optional exponent (at least one digit before or after the point). -/
def parseUnsignedDecimal (cs : List Char) : JsNumber :=
  if cs = "Infinity".data then .posInfinity
  else
    let intPart := cs.takeWhile Char.isDigit
    let afterInt := cs.dropWhile Char.isDigit
    let hasPoint := decide (afterInt.head? = some '.')
    let fracPart := if hasPoint then (afterInt.drop 1).takeWhile Char.isDigit else []
    let afterFrac := if hasPoint then (afterInt.drop 1).dropWhile Char.isDigit else afterInt
    if intPart = [] ∧ fracPart = [] then .nan
    else
      match parseExponent afterFrac with
      | none => .nan
      | some e =>
        JsNumber.ofRat (((digitsToNat 10 intPart : Amount)
          + (digitsToNat 10 fracPart : Amount) / (10 : Amount) ^ fracPart.length)
          * (10 : Amount) ^ e)

/-- A literal in radix 16, 8 or 2 after its prefix. -/
def parseRadix (radix : Nat) (digits : List Char) : JsNumber :=
  if digits ≠ [] ∧ digits.all (fun c => decide (digitValue c < radix)) then
    JsNumber.ofRat (digitsToNat radix digits)
  else .nan

/-- The conversion of a text to a number (StringToNumber of ECMAScript), as done by
`text > 0`: white space around is dropped, the empty text is 0, a numeric literal is
its value rounded to binary64, and every other text is NaN. -/
def stringToNumber (s : String) : JsNumber :=
  match (jsTrim s).data with
  | [] => .finite 0
  | '+' :: rest => parseUnsignedDecimal rest
  | '-' :: rest => (parseUnsignedDecimal rest).negate
  | '0' :: p :: rest =>
    if p = 'x' ∨ p = 'X' then parseRadix 16 rest
    else if p = 'o' ∨ p = 'O' then parseRadix 8 rest
    else if p = 'b' ∨ p = 'B' then parseRadix 2 rest
    else parseUnsignedDecimal ('0' :: p :: rest)
  | cs => parseUnsignedDecimal cs

/-- A property as the alcohol test reads it: missing, a number or a text. -/
inductive PropertyValue where
  | undefined
  | number (value : Amount)
  | text (value : String)
  deriving DecidableEq, Repr

/-- The comparison `value > 0` of JavaScript. -/
def greaterThanZero : PropertyValue → Bool
  | .undefined => false
  | .number value => decide (0 < value)
  | .text value => (stringToNumber value).isPositive

/-! ## Catalogue (`src/data/products.js`) -/

namespace Catalogue

/-- The fields of an entry of `products` that the store logic reads. -/
structure Product where
  id : String
  name : String
  category : String
  brand : String
  price : Amount
  originalPrice : Amount
  image : String
  alcoholContent : String
  inStock : Bool
  deriving DecidableEq, Repr

/-- The array `products`, lines 2-250. -/
def products : List Product :=
  [ ⟨"gin-beefeater", "Beefeater London Dry Gin", "gin", "Beefeater", 1850, 2100,
      "/images/products/beefeater-gin.jpg", "40%", true⟩,
    ⟨"gin-gordons", "Gordon's London Dry Gin", "gin", "Gordon's", 1650, 1850,
      "/images/products/gordons-gin.jpg", "37.5%", true⟩,
    ⟨"gin-tanqueray", "Tanqueray London Dry Gin", "gin", "Tanqueray", 2150, 2400,
      "/images/products/tanqueray-gin.jpg", "43.1%", true⟩,
    ⟨"whisky-jameson", "Jameson Irish Whiskey", "whisky", "Jameson", 2850, 3200,
      "/images/products/jameson-whiskey.jpg", "40%", true⟩,
    ⟨"whisky-johnnie-walker-red", "Johnnie Walker Red Label", "whisky", "Johnnie Walker",
      2450, 2750, "/images/products/johnnie-walker-red.jpg", "40%", true⟩,
    ⟨"whisky-johnnie-walker-black", "Johnnie Walker Black Label", "whisky", "Johnnie Walker",
      3850, 4200, "/images/products/johnnie-walker-black.jpg", "40%", true⟩,
    ⟨"wine-kiwara-red", "Kiwara Red Wine", "wine", "Kiwara", 1250, 1450,
      "/images/products/kiwara-red.jpg", "12.5%", true⟩,
    ⟨"wine-nederburg-cabernet", "Nederburg Cabernet Sauvignon", "wine", "Nederburg", 1850,
      2100, "/images/products/nederburg-cabernet.jpg", "14%", true⟩,
    ⟨"vodka-smirnoff", "Smirnoff Vodka", "spirits", "Smirnoff", 1950, 2200,
      "/images/products/smirnoff-vodka.jpg", "40%", true⟩,
    ⟨"rum-captain-morgan", "Captain Morgan Spiced Rum", "spirits", "Captain Morgan", 2150,
      2450, "/images/products/captain-morgan.jpg", "35%", true⟩ ]

end Catalogue

/-! ## Checkout page: the age-verification effect and the controls -/

namespace Checkout

/-- Modelled from the spec: a line of the cart, which holds a product reference and a
quantity (the cart store `CartContext.jsx` is not among the source files). The page
reads `item.alcoholContent`, so the line carries that property of the product. -/
structure CartItem where
  id : String
  name : String
  price : Amount
  quantity : Nat
  image : String
  brand : String
  alcoholContent : PropertyValue
  deriving DecidableEq, Repr

/-- Modelled from the spec: the cart line built from a catalogue product, with the
product's properties unchanged. -/
def lineItemOf (product : Catalogue.Product) (quantity : Nat) : CartItem :=
  { id := product.id, name := product.name, price := product.price, quantity := quantity,
    image := product.image, brand := product.brand,
    alcoholContent := .text product.alcoholContent }

/-- The test of line 98: `cartItems.some(item => item.alcoholContent > 0)`. -/
def requiresAgeVerification (cartItems : List CartItem) : Bool :=
  cartItems.any (fun item => greaterThanZero item.alcoholContent)

/-- The effect of lines 96-102, run for a cart and a state. -/
def ageVerificationEffect (cartItems : List CartItem) (s : State) : State :=
  if requiresAgeVerification cartItems && !s.formData.ageVerified then
    { s with ageVerificationStep := true }
  else s

/-- The state in which `handlePlaceOrder` waits for the services: after the guard of
line 172 and `setIsProcessing(true)`, line 174; `none` when the guard returns. -/
def beginPlaceOrder (s : State) : Option State :=
  if !stepIsValid s.formData s.paymentMethod 3 || !s.formData.ageVerified then none
  else some { s with errors := validateStep s.formData s.paymentMethod 3,
                     isProcessing := true }

/-- The `disabled` of the Previous button, line 666: `currentStep === 1`. -/
def previousDisabled (s : State) : Bool :=
  decide (s.currentStep = 1)

/-- Whether the Next button is rendered, line 672: `currentStep < 4`. -/
def nextRendered (s : State) : Bool :=
  decide (s.currentStep < 4)

/-- The `disabled` of the Place Order button, line 682: `isProcessing`. -/
def placeOrderDisabled (s : State) : Bool :=
  s.isProcessing

end Checkout


/-! ## Order service (`src/services/apiService.js`) -/

namespace ApiService

/-- What the error handler reads of the error of a failed request: `error.code`,
`error.response?.status`, `error.response?.data?.message` and `error.message`. -/
structure ApiError where
  code : Option String
  status : Option Nat
  dataMessage : Option String
  message : String
  deriving DecidableEq, Repr

/-- The function `handleApiError(error, fallbackData = null)`, lines 22-39: the toasts
it shows, and whether it returns the fallback data (`ok`) or throws the error again
(`error`). -/
def handleApiError {α : Type} (error : ApiError) (fallbackData : Option α) :
    List Toast × Except ApiError (Option α) :=
  if error.code = some "NETWORK_ERROR" ∨ error.code = some "ECONNABORTED" then
    ([Toast.error "Connection error. Using offline data."], .ok fallbackData)
  else if error.status = some 500 then
    ([Toast.error "Server error. Please try again later."], .error error)
  else if error.status = some 404 then
    ([Toast.error "Resource not found."], .error error)
  else
    ([Toast.error
        (match error.dataMessage with
          | some message => if message = "" then "Something went wrong." else message
          | none => "Something went wrong.")],
      .error error)

/-- How the request `ordersAPI.create(orderData)` ends: with a response, whose `data`
may be missing, or with an error. -/
inductive HttpResult (α : Type) where
  | response (data : Option α)
  | failure (error : ApiError)
  deriving DecidableEq, Repr

/-- The function `OrdersService.create` with the HTTP-backed service (`USE_MOCK_DATA`
false), lines 236-240: the toasts shown inside it and how the call ends for its
caller. In the `catch` the value of `handleApiError(error)` is not returned, so when
the handler returns instead of throwing, the call resolves with `undefined`. -/
def ordersServiceCreate {Item : Type}
    (ordersApiCreate : Checkout.OrderData Item → HttpResult Checkout.CreatedOrder)
    (orderData : Checkout.OrderData Item) :
    List Toast × Checkout.ServiceResult Checkout.CreatedOrder :=
  match ordersApiCreate orderData with
  | .response data => ([], .resolved data)
  | .failure error =>
    match handleApiError error (none : Option Checkout.CreatedOrder) with
    | (toasts, .ok _) => (toasts, .resolvedUndefined)
    | (toasts, .error thrown) => (toasts, .rejected thrown.message)

end ApiService

namespace Checkout

/-- The error toasts among the effects of a submission. -/
def errorToasts {Item : Type} (effects : List (Effect Item)) : List Toast :=
  effects.filterMap (fun effect =>
    match effect with
    | .toast (Toast.error message) => some (Toast.error message)
    | _ => none)

/-- The error toasts of one run of `handlePlaceOrder` whose order service is
`OrdersService.create` over HTTP: those shown inside the service call, which is made
when the guard of line 172 lets the run pass, and those shown by `handlePlaceOrder`. -/
def errorToastsOfAttempt {Item : Type}
    (ordersApiCreate : OrderData Item → ApiService.HttpResult CreatedOrder)
    (env : Env Item) (s : State) : List Toast :=
  (if stepIsValid s.formData s.paymentMethod 3 && s.formData.ageVerified then
      (ApiService.ordersServiceCreate ordersApiCreate (orderDataOf env s)).1
    else [])
    ++ errorToasts (handlePlaceOrder
        { env with createOrder := fun orderData =>
            (ApiService.ordersServiceCreate ordersApiCreate orderData).2 } s).2

end Checkout


/-! ## Theorems -/

/-! ### Characters and strings -/

/-- No character produced by `Char.toUpper` is a lower-case ASCII letter. -/
theorem toUpper_not_lower (c : Char) :
    ¬ (97 ≤ (Char.toUpper c).toNat ∧ (Char.toUpper c).toNat ≤ 122) := by
  unfold Char.toUpper
  simp only []
  split
  · rename_i h
    obtain ⟨h1, h2⟩ := h
    have hv : (c.toNat - 32).isValidChar := by
      left; omega
    have hnat : (Char.ofNat (c.toNat - 32)).toNat = c.toNat - 32 := by
      unfold Char.ofNat
      rw [dif_pos hv]
      simp [Char.ofNatAux, Char.toNat, UInt32.toNat]
    rw [hnat]; omega
  · rename_i h
    exact h

/-- An upper-cased string holds no lower-case ASCII letter. -/
theorem toUpperCase_no_lower (u : UnicodeCase) (s : String) (c : Char) (hc : c ∈ (toUpperCase u s).data) :
    ¬ (97 ≤ c.toNat ∧ c.toNat ≤ 122) := by
  simp only [toUpperCase, List.mem_flatMap] at hc
  obtain ⟨c0, _, hc0⟩ := hc
  split_ifs at hc0
  · simp only [List.mem_singleton] at hc0
    subst hc0
    exact toUpper_not_lower c0
  · exact u.upper_not_lower c0 c hc0

/-- An upper-cased string is never the name of a member of `Object.prototype`. -/
theorem toUpperCase_not_mem_objectPrototypeKeys (u : UnicodeCase) (s : String) :
    toUpperCase u s ∉ objectPrototypeKeys := by
  intro h
  have hall : ∀ k ∈ objectPrototypeKeys, ∃ c ∈ k.data, 97 ≤ c.toNat ∧ c.toNat ≤ 122 := by
    decide
  obtain ⟨c, hc, hl⟩ := hall _ h
  exact toUpperCase_no_lower u s c hc hl

/-- Upper-casing leaves a white-space character alone. -/
theorem toUpper_of_isJsWhiteSpace (c : Char) (h : isJsWhiteSpace c = true) :
    Char.toUpper c = c := by
  unfold Char.toUpper
  simp only [isJsWhiteSpace, Bool.or_eq_true, decide_eq_true_eq, Bool.and_eq_true] at h
  simp only []
  rw [if_neg]
  omega

/-- A string that trims to the empty string consists of white space only. -/
theorem all_isJsWhiteSpace_of_jsTrim (s : String) (h : jsTrim s = "") :
    ∀ c ∈ s.data, isJsWhiteSpace c = true := by
  have hdata := congrArg String.data h
  simp only [jsTrim] at hdata
  have hrev : (s.data.dropWhile isJsWhiteSpace).reverse.dropWhile isJsWhiteSpace = [] := by
    have := congrArg List.reverse hdata
    simpa using this
  rw [List.dropWhile_eq_nil_iff] at hrev
  have hnil : s.data.dropWhile isJsWhiteSpace = [] := by
    by_contra hne
    have hhead := List.head_dropWhile_not isJsWhiteSpace s.data hne
    have hmem : (s.data.dropWhile isJsWhiteSpace).head hne
        ∈ (s.data.dropWhile isJsWhiteSpace).reverse :=
      List.mem_reverse.mpr (List.head_mem hne)
    have := hrev _ hmem
    simp [this] at hhead
  rw [List.dropWhile_eq_nil_iff] at hnil
  exact hnil

/-- Upper-casing leaves a blank string alone. -/
theorem toUpperCase_of_blank (u : UnicodeCase) (s : String) (h : jsTrim s = "") : toUpperCase u s = s := by
  have hall := all_isJsWhiteSpace_of_jsTrim s h
  have hmap : ∀ l : List Char, (∀ c ∈ l, isJsWhiteSpace c = true) →
      l.flatMap (fun c => if c.toNat < 128 then [c.toUpper] else u.upper c) = l := by
    intro l
    induction l with
    | nil => intro _; rfl
    | cons c l ih =>
      intro hl
      have hc := hl c (List.mem_cons_self _ _)
      rw [List.flatMap_cons, ih (fun d hd => hl d (List.mem_cons_of_mem _ hd))]
      split_ifs
      · rw [toUpper_of_isJsWhiteSpace c hc]; rfl
      · rw [u.upper_whiteSpace c hc]; rfl
  simp only [toUpperCase, hmap s.data hall]

/-! ### Promo registry -/

/-- The registry has exactly the three keys WELCOME10, PLATYPUS15 and WEEKEND20. -/
theorem promoCodes_eq_some (key : String) (entry : Cart.PromoEntry)
    (h : Cart.promoCodes key = some entry) :
    (key = "WELCOME10" ∧ entry = ⟨10, "10% off your first order"⟩)
      ∨ (key = "PLATYPUS15" ∧ entry = ⟨15, "15% off for loyal customers"⟩)
      ∨ (key = "WEEKEND20" ∧ entry = ⟨20, "20% off weekend special"⟩) := by
  unfold Cart.promoCodes at h
  split_ifs at h with h1 h2 h3
  · left; exact ⟨h1, (Option.some.inj h).symm⟩
  · right; left; exact ⟨h2, (Option.some.inj h).symm⟩
  · right; right; exact ⟨h3, (Option.some.inj h).symm⟩

/-- A code that upper-cases to a registry key is not blank. -/
theorem not_blank_of_promoCodes (u : UnicodeCase) (code : String) (entry : Cart.PromoEntry)
    (h : Cart.promoCodes (toUpperCase u code) = some entry) : jsTrim code ≠ "" := by
  intro hblank
  rw [toUpperCase_of_blank u code hblank] at h
  rcases promoCodes_eq_some code entry h with ⟨hk, _⟩ | ⟨hk, _⟩ | ⟨hk, _⟩ <;>
    · rw [hk] at hblank
      revert hblank
      decide

/-- A promo attempt with a code that is not blank is the timer callback run on the
state in which `isApplyingPromo` has been set. -/
theorem applyPromo_of_not_blank (u : UnicodeCase) (s : Cart.State) (h : jsTrim s.promoCode ≠ "") :
    Cart.applyPromo u s
      = ((Cart.promoTimeout u s.promoCode { s with isApplyingPromo := true }).1,
         (Cart.promoTimeout u s.promoCode { s with isApplyingPromo := true }).2) := by
  simp [Cart.applyPromo, Cart.handleApplyPromo, h]

/-- A promo attempt with a blank code changes nothing and asks for a code. -/
theorem applyPromo_of_blank (u : UnicodeCase) (s : Cart.State) (h : jsTrim s.promoCode = "") :
    Cart.applyPromo u s = (s, [Toast.error "Please enter a promo code"]) := by
  simp [Cart.applyPromo, Cart.handleApplyPromo, h]

/-! ### Claims -/


/-- C1: on the checkout page the delivery fee of a selected option is that option's
price (standard 200, express 500, same-day 800), except that standard delivery is
free from a subtotal of 3000; express and same-day are never free. -/
theorem checkout_deliveryFee_selected (subtotal : Amount) :
    Checkout.deliveryOptions.map (fun o => (o.id, o.price))
        = [("standard", 200), ("express", 500), ("same-day", 800)]
      ∧ (∀ o ∈ Checkout.deliveryOptions,
          Checkout.deliveryFee subtotal o.id
            = if o.id = "standard" ∧ subtotal ≥ 3000 then 0 else o.price)
      ∧ Checkout.deliveryFee subtotal "standard" = (if subtotal ≥ 3000 then 0 else 200)
      ∧ Checkout.deliveryFee subtotal "express" = 500
      ∧ Checkout.deliveryFee subtotal "same-day" = 800 := by
  have hstd : Checkout.deliveryFee subtotal "standard"
      = (if subtotal ≥ 3000 then 0 else 200) := by
    by_cases h : subtotal ≥ 3000
    · simp [Checkout.deliveryFee, h]
    · simp [Checkout.deliveryFee, h, Checkout.selectedDelivery, Checkout.deliveryOptions,
        Checkout.priceOrZero]
  have hexp : Checkout.deliveryFee subtotal "express" = 500 := by
    simp [Checkout.deliveryFee, Checkout.selectedDelivery, Checkout.deliveryOptions,
      Checkout.priceOrZero]
  have hsame : Checkout.deliveryFee subtotal "same-day" = 800 := by
    simp [Checkout.deliveryFee, Checkout.selectedDelivery, Checkout.deliveryOptions,
      Checkout.priceOrZero]
  refine ⟨by simp [Checkout.deliveryOptions], ?_, hstd, hexp, hsame⟩
  intro o ho
  simp only [Checkout.deliveryOptions, List.mem_cons, List.mem_singleton,
    List.not_mem_nil, or_false] at ho
  rcases ho with rfl | rfl | rfl
  · simp only [hstd, true_and]
  · simp only [hexp]; simp
  · simp only [hsame]; simp

/-- The checkout total of the example: with subtotal 1000 and standard delivery the
total charged by the checkout is 1200; it is not subtotal - discount + deliveryFee
= 1100 for the 10% promotion WELCOME10, and it is not below subtotal + deliveryFee. -/
theorem checkout_totalAmount_discount_counterexample :
    Checkout.totalAmount 1000 "standard" = 1200
      ∧ Checkout.totalAmount 1000 "standard"
          ≠ 1000 - Cart.promoDiscount (some ⟨10, "10% off your first order", "WELCOME10"⟩) 1000
              + Checkout.deliveryFee 1000 "standard"
      ∧ ¬ (Checkout.totalAmount 1000 "standard"
            < 1000 + Checkout.deliveryFee 1000 "standard") := by
  have hfee : Checkout.deliveryFee 1000 "standard" = 200 := by
    have h : ¬ ((1000 : Amount) ≥ 3000) := by norm_num
    simp [Checkout.deliveryFee, Checkout.selectedDelivery, Checkout.deliveryOptions,
      Checkout.priceOrZero]
    norm_num
  refine ⟨?_, ?_, ?_⟩
  · rw [Checkout.totalAmount, hfee]; norm_num
  · rw [Checkout.totalAmount, hfee, Cart.promoDiscount]; norm_num
  · rw [Checkout.totalAmount, hfee]; norm_num

/-- The checkout total holds no discount: it is subtotal + deliveryFee whatever
promotion is active on the cart page, and for a positive subtotal and a positive
percentage it exceeds subtotal - discount + deliveryFee by the discount. -/
theorem checkout_totalAmount_no_discount (subtotal : Amount) (deliveryOption : String)
    (promo : Cart.AppliedPromo) (hsub : 0 < subtotal) (hpct : 0 < promo.discount) :
    Checkout.totalAmount subtotal deliveryOption
        = subtotal + Checkout.deliveryFee subtotal deliveryOption
      ∧ Checkout.totalAmount subtotal deliveryOption
          = (subtotal - Cart.promoDiscount (some promo) subtotal
              + Checkout.deliveryFee subtotal deliveryOption)
            + Cart.promoDiscount (some promo) subtotal
      ∧ subtotal - Cart.promoDiscount (some promo) subtotal
            + Checkout.deliveryFee subtotal deliveryOption
          < Checkout.totalAmount subtotal deliveryOption := by
  have hpos : 0 < Cart.promoDiscount (some promo) subtotal := by
    simp only [Cart.promoDiscount]
    positivity
  refine ⟨rfl, ?_, ?_⟩
  · simp only [Checkout.totalAmount]; ring
  · simp only [Checkout.totalAmount]; linarith

/-- An instance of the lemma before: subtotal 1000, standard delivery, WELCOME10. -/
theorem checkout_totalAmount_no_discount_witness :
    Checkout.totalAmount 1000 "standard"
        = 1000 + Checkout.deliveryFee 1000 "standard"
      ∧ Checkout.totalAmount 1000 "standard"
          = (1000 - Cart.promoDiscount (some ⟨10, "10% off your first order", "WELCOME10"⟩) 1000
              + Checkout.deliveryFee 1000 "standard")
            + Cart.promoDiscount (some ⟨10, "10% off your first order", "WELCOME10"⟩) 1000
      ∧ 1000 - Cart.promoDiscount (some ⟨10, "10% off your first order", "WELCOME10"⟩) 1000
            + Checkout.deliveryFee 1000 "standard"
          < Checkout.totalAmount 1000 "standard" :=
  checkout_totalAmount_no_discount 1000 "standard"
    ⟨10, "10% off your first order", "WELCOME10"⟩ (by norm_num) (by norm_num)

/-- C3 (as stated, refuted): with subtotal 1001 and WELCOME10 (10 percent) the
discount that the cart page computes, 1001 * (10 / 100) in double precision, is
100.10000000000001 (7043911292184167 / 2^46). It is not the number 1001 * 10 / 100,
and it is not the double nearest to that number either, which is what
1001 * 10 / 100 gives in double precision (3521955646092083 / 2^45). -/
theorem promoDiscount_rounding_counterexample :
    Cart.Binary64.promoDiscount (some ⟨10, "10% off your first order", "WELCOME10"⟩)
        (.finite 1001)
      = .finite (7043911292184167 / 70368744177664)
      ∧ (7043911292184167 / 70368744177664 : Amount) ≠ 1001 * 10 / 100
      ∧ ((JsNumber.finite 1001).mul (.finite 10)).div (.finite 100)
          = .finite (3521955646092083 / 35184372088832)
      ∧ JsNumber.ofRat (1001 * 10 / 100) = .finite (3521955646092083 / 35184372088832)
      ∧ Cart.Binary64.promoDiscount (some ⟨10, "10% off your first order", "WELCOME10"⟩)
          (.finite 1001)
        ≠ ((JsNumber.finite 1001).mul (.finite 10)).div (.finite 100) := by
  decide!

/-- C3 (amended): on the cart page the discount of an applied promotion of percentage
p is the product subtotal * (p / 100) of double-precision arithmetic, in which the
quotient is rounded and then the product; the total is (subtotal - discount) + delivery
fee in the same arithmetic; the delivery fee is decided by the undiscounted subtotal
alone (0 from 3000, else 200) and is the same with and without the promotion; with
subtotal 1000 and WELCOME10 the discount is 100 and subtotal - discount is 900. -/
theorem cart_totalPrice_binary64 (u : UnicodeCase) (subtotal : JsNumber)
    (promo : Cart.AppliedPromo) :
    Cart.Binary64.promoDiscount (some promo) subtotal
        = subtotal.mul ((JsNumber.ofRat promo.discount).div (.finite 100))
      ∧ Cart.Binary64.totalPrice (some promo) subtotal
          = (subtotal.sub (subtotal.mul ((JsNumber.ofRat promo.discount).div (.finite 100)))).add
              (Cart.Binary64.finalDeliveryFee subtotal)
      ∧ Cart.Binary64.finalDeliveryFee subtotal
          = (if subtotal.ge (.finite 3000) then .finite 0 else .finite 200)
      ∧ Cart.Binary64.totalPrice none subtotal
          = (subtotal.sub (.finite 0)).add (Cart.Binary64.finalDeliveryFee subtotal)
      ∧ (∀ value : Amount, 3000 ≤ value →
          Cart.Binary64.finalDeliveryFee (.finite value) = .finite 0)
      ∧ (∀ value : Amount, value < 3000 →
          Cart.Binary64.finalDeliveryFee (.finite value) = .finite 200)
      ∧ (Cart.applyPromo u ⟨"WELCOME10", none, false⟩).1.appliedPromo
          = some ⟨10, "10% off your first order", "WELCOME10"⟩
      ∧ Cart.Binary64.promoDiscount
            (Cart.applyPromo u ⟨"WELCOME10", none, false⟩).1.appliedPromo (.finite 1000)
          = .finite 100
      ∧ (JsNumber.finite 1000).sub
            (Cart.Binary64.promoDiscount
              (Cart.applyPromo u ⟨"WELCOME10", none, false⟩).1.appliedPromo (.finite 1000))
          = .finite 900 := by
  have happ : (Cart.applyPromo u ⟨"WELCOME10", none, false⟩).1.appliedPromo
      = some ⟨10, "10% off your first order", "WELCOME10"⟩ := by
    rfl
  have hdisc : Cart.Binary64.promoDiscount
      (some ⟨10, "10% off your first order", "WELCOME10"⟩) (.finite 1000) = .finite 100 := by
    decide!
  have hrest : (JsNumber.finite 1000).sub (.finite 100) = .finite 900 := by
    decide!
  refine ⟨rfl, rfl, rfl, rfl, ?_, ?_, happ, ?_, ?_⟩
  · intro value hv
    simp [Cart.Binary64.finalDeliveryFee, Cart.Binary64.isEligibleForFreeDelivery,
      JsNumber.ge, hv]
  · intro value hv
    simp [Cart.Binary64.finalDeliveryFee, Cart.Binary64.isEligibleForFreeDelivery,
      JsNumber.ge, hv]
  · rw [happ]; exact hdisc
  · rw [happ, hdisc]; exact hrest

/-- C4 (as stated, refuted): on the cart page a subtotal of 2500 is charged the
delivery fee 200, not 0. -/
theorem cart_threshold_2500_counterexample :
    (2500 : Amount) ≥ 2500 ∧ Cart.finalDeliveryFee 2500 = 200
      ∧ Cart.finalDeliveryFee 2500 ≠ 0 := by
  have h : Cart.finalDeliveryFee 2500 = 200 := by
    simp [Cart.finalDeliveryFee, Cart.isEligibleForFreeDelivery, Cart.deliveryThreshold,
      Cart.deliveryFee]
    norm_num
  refine ⟨le_refl _, h, ?_⟩
  rw [h]; norm_num

/-- C4 (amended): the free-delivery threshold is 3000 on the cart page as on the
checkout page: the cart fee is 0 from a subtotal of 3000 and 200 below it, and
standard delivery at checkout is free from 3000 and costs 200 below it. -/
theorem free_delivery_threshold_3000 (subtotal : Amount) :
    Cart.deliveryThreshold = 3000
      ∧ Cart.finalDeliveryFee subtotal = (if subtotal ≥ 3000 then 0 else 200)
      ∧ (Cart.finalDeliveryFee subtotal = 0 ↔ subtotal ≥ 3000)
      ∧ Checkout.deliveryFee subtotal "standard" = (if subtotal ≥ 3000 then 0 else 200)
      ∧ (Checkout.deliveryFee subtotal "standard" = 0 ↔ subtotal ≥ 3000) := by
  have hcart : Cart.finalDeliveryFee subtotal = (if subtotal ≥ 3000 then 0 else 200) := by
    simp [Cart.finalDeliveryFee, Cart.isEligibleForFreeDelivery, Cart.deliveryThreshold,
      Cart.deliveryFee]
  have hco : Checkout.deliveryFee subtotal "standard"
      = (if subtotal ≥ 3000 then 0 else 200) := by
    by_cases h : subtotal ≥ 3000
    · simp [Checkout.deliveryFee, h]
    · simp [Checkout.deliveryFee, h, Checkout.selectedDelivery, Checkout.deliveryOptions,
        Checkout.priceOrZero]
  refine ⟨rfl, hcart, ?_, hco, ?_⟩
  · rw [hcart]; by_cases h : subtotal ≥ 3000 <;> simp [h]
  · rw [hco]; by_cases h : subtotal ≥ 3000 <;> simp [h]

/-- The part of C5 that holds, Nakuru: for a location that lower-cases to nakuru, and
for an omitted location, the fee is 0 from a subtotal of 2500 and 200 below it. -/
theorem calculateDeliveryFee_nakuru (u : UnicodeCase) (subtotal : Amount) (location : Option String)
    (h : toLowerCase u (location.getD "nakuru") = "nakuru") :
    Helpers.calculateDeliveryFee u subtotal location
      = .number (if subtotal ≥ 2500 then 0 else 200) := by
  by_cases hs : subtotal ≥ 2500
  · simp [Helpers.calculateDeliveryFee, h, hs]
  · simp [Helpers.calculateDeliveryFee, h, hs, Helpers.deliveryFees]

/-- The part of C5 that holds, other locations: when the lower-cased location is
not nakuru and is not the name of a member of `Object.prototype`, the fee is the
table fee, 250 outside the table, whatever the subtotal. -/
theorem calculateDeliveryFee_table (u : UnicodeCase) (subtotal : Amount) (location : String)
    (hn : toLowerCase u location ≠ "nakuru")
    (hp : toLowerCase u location ∉ objectPrototypeKeys) :
    Helpers.calculateDeliveryFee u subtotal (some location)
      = .number (if toLowerCase u location = "nairobi" then 300
          else if toLowerCase u location = "mombasa" then 400
          else if toLowerCase u location = "kisumu" then 350
          else if toLowerCase u location = "eldoret" then 300
          else 250) := by
  simp only [Helpers.calculateDeliveryFee, Option.getD_some, hn, false_and, if_false,
    Helpers.deliveryFees, hp]
  split_ifs <;> simp

/-- C5 (failing input): for the location "constructor", which is not in the fee
table, `calculateDeliveryFee` does not return 250: the lookup finds the member
`constructor` inherited from `Object.prototype`, which is truthy, and returns it,
for a subtotal of 0 as for one of 5000, and in any letter case. -/
theorem calculateDeliveryFee_constructor :
    Helpers.calculateDeliveryFee sampleCase 0 (some "constructor") = .inheritedMember "constructor"
      ∧ Helpers.calculateDeliveryFee sampleCase 5000 (some "Constructor")
          = .inheritedMember "constructor"
      ∧ Helpers.calculateDeliveryFee sampleCase 0 (some "constructor") ≠ .number 250
      ∧ Helpers.calculateDeliveryFee sampleCase 0 (some "__proto__") = .inheritedMember "__proto__" := by
  decide

/-- C6: a code that upper-cases to a registry key (WELCOME10 10%, PLATYPUS15 15%,
WEEKEND20 20%) sets the active promotion to that registry entry with the upper-cased
code, whatever the state before and whatever state the page is in when the timer
fires; a second application of the same code leaves the active promotion and the
discount as after the first. -/
theorem applyPromo_valid_replaces (u : UnicodeCase) (s : Cart.State) (entry : Cart.PromoEntry)
    (h : Cart.promoCodes (toUpperCase u s.promoCode) = some entry) :
    (Cart.applyPromo u s).1.appliedPromo
        = some ⟨entry.discount, entry.description, toUpperCase u s.promoCode⟩
      ∧ (∀ s' : Cart.State, (Cart.promoTimeout u s.promoCode s').1.appliedPromo
          = some ⟨entry.discount, entry.description, toUpperCase u s.promoCode⟩)
      ∧ (Cart.applyPromo u (Cart.applyPromo u s).1).1.appliedPromo
          = (Cart.applyPromo u s).1.appliedPromo
      ∧ (∀ subtotal : Amount,
          Cart.promoDiscount (Cart.applyPromo u (Cart.applyPromo u s).1).1.appliedPromo subtotal
            = Cart.promoDiscount (Cart.applyPromo u s).1.appliedPromo subtotal)
      ∧ ((toUpperCase u s.promoCode = "WELCOME10" ∧ entry.discount = 10)
          ∨ (toUpperCase u s.promoCode = "PLATYPUS15" ∧ entry.discount = 15)
          ∨ (toUpperCase u s.promoCode = "WEEKEND20" ∧ entry.discount = 20)) := by
  have hnb : jsTrim s.promoCode ≠ "" := not_blank_of_promoCodes u s.promoCode entry h
  have hto : ∀ s' : Cart.State, (Cart.promoTimeout u s.promoCode s').1.appliedPromo
      = some ⟨entry.discount, entry.description, toUpperCase u s.promoCode⟩ := by
    intro s'
    simp [Cart.promoTimeout, h]
  have hcode : ∀ s' : Cart.State, (Cart.promoTimeout u s.promoCode s').1.promoCode
      = s'.promoCode := by
    intro s'
    simp [Cart.promoTimeout, h]
  have h1 : (Cart.applyPromo u s).1
      = (Cart.promoTimeout u s.promoCode { s with isApplyingPromo := true }).1 := by
    rw [applyPromo_of_not_blank u s hnb]
  have hkeep : (Cart.applyPromo u s).1.promoCode = s.promoCode := by
    rw [h1, hcode]
  have h2 : (Cart.applyPromo u (Cart.applyPromo u s).1).1.appliedPromo
      = some ⟨entry.discount, entry.description, toUpperCase u s.promoCode⟩ := by
    have hnb2 : jsTrim (Cart.applyPromo u s).1.promoCode ≠ "" := by rw [hkeep]; exact hnb
    rw [applyPromo_of_not_blank u _ hnb2]
    simp only []
    rw [hkeep]
    exact hto _
  have hfirst : (Cart.applyPromo u s).1.appliedPromo
      = some ⟨entry.discount, entry.description, toUpperCase u s.promoCode⟩ := by
    rw [h1]; exact hto _
  refine ⟨hfirst, hto, ?_, ?_, ?_⟩
  · rw [h2, hfirst]
  · intro subtotal; rw [h2, hfirst]
  · rcases promoCodes_eq_some _ entry h with ⟨hk, he⟩ | ⟨hk, he⟩ | ⟨hk, he⟩
    · left; exact ⟨hk, by rw [he]⟩
    · right; left; exact ⟨hk, by rw [he]⟩
    · right; right; exact ⟨hk, by rw [he]⟩

/-- Witness of C6: the code "welcome10", typed in lower case, applied while
WEEKEND20 is the active promotion. -/
theorem applyPromo_valid_replaces_witness :
    (Cart.applyPromo sampleCase ⟨"welcome10", some ⟨20, "20% off weekend special", "WEEKEND20"⟩,
        false⟩).1.appliedPromo
      = some ⟨10, "10% off your first order", "WELCOME10"⟩ :=
  (applyPromo_valid_replaces sampleCase
    ⟨"welcome10", some ⟨20, "20% off weekend special", "WEEKEND20"⟩, false⟩
    ⟨10, "10% off your first order"⟩ (by decide)).1

/-- C7 (as stated, refuted): the empty code is not in the registry, yet applying it
does not fail with "Invalid promo code": the message is "Please enter a promo code". -/
theorem applyPromo_blank_counterexample :
    Cart.promoCodes (toUpperCase sampleCase "") = none
      ∧ (Cart.applyPromo sampleCase ⟨"", none, false⟩).2 = [Toast.error "Please enter a promo code"]
      ∧ (Cart.applyPromo sampleCase ⟨"", none, false⟩).2 ≠ [Toast.error "Invalid promo code"] := by
  decide

/-- C7 (amended): a code that is not in the registry after upper-casing, for every
table of case mappings, leaves the active promotion as it was, so the discount and the
total are unchanged (as exact values and in double precision), also when the timer
fires in a later state; the attempt fails with "Invalid promo code" when the code is
not blank and with "Please enter a promo code" when it is blank. -/
theorem applyPromo_invalid_keeps_promotion (u : UnicodeCase) (s : Cart.State)
    (h : Cart.promoCodes (toUpperCase u s.promoCode) = none) :
    (Cart.applyPromo u s).1.appliedPromo = s.appliedPromo
      ∧ (∀ subtotal : Amount,
          Cart.promoDiscount (Cart.applyPromo u s).1.appliedPromo subtotal
              = Cart.promoDiscount s.appliedPromo subtotal
            ∧ Cart.totalPrice (Cart.applyPromo u s).1.appliedPromo subtotal
              = Cart.totalPrice s.appliedPromo subtotal)
      ∧ (∀ subtotal : JsNumber,
          Cart.Binary64.promoDiscount (Cart.applyPromo u s).1.appliedPromo subtotal
              = Cart.Binary64.promoDiscount s.appliedPromo subtotal
            ∧ Cart.Binary64.totalPrice (Cart.applyPromo u s).1.appliedPromo subtotal
              = Cart.Binary64.totalPrice s.appliedPromo subtotal)
      ∧ (∀ s' : Cart.State,
          (Cart.promoTimeout u s.promoCode s').1.appliedPromo = s'.appliedPromo)
      ∧ (Cart.applyPromo u s).2
          = [Toast.error (if jsTrim s.promoCode = "" then "Please enter a promo code"
              else "Invalid promo code")] := by
  have hto : ∀ s' : Cart.State,
      (Cart.promoTimeout u s.promoCode s').1.appliedPromo = s'.appliedPromo := by
    intro s'
    simp [Cart.promoTimeout, h]
  have hkeep : (Cart.applyPromo u s).1.appliedPromo = s.appliedPromo := by
    by_cases hb : jsTrim s.promoCode = ""
    · rw [applyPromo_of_blank u s hb]
    · rw [applyPromo_of_not_blank u s hb]
      simp only []
      rw [hto]
  refine ⟨hkeep, ?_, ?_, hto, ?_⟩
  · intro subtotal
    rw [hkeep]
    exact ⟨rfl, rfl⟩
  · intro subtotal
    rw [hkeep]
    exact ⟨rfl, rfl⟩
  · by_cases hb : jsTrim s.promoCode = ""
    · rw [applyPromo_of_blank u s hb]; simp [hb]
    · rw [applyPromo_of_not_blank u s hb]; simp [hb, Cart.promoTimeout, h]

/-- Witness of C7 (amended): the unknown code "SUMMER50" applied while WELCOME10 is
the active promotion. -/
theorem applyPromo_invalid_keeps_promotion_witness :
    (Cart.applyPromo sampleCase ⟨"SUMMER50", some ⟨10, "10% off your first order", "WELCOME10"⟩,
        false⟩).1.appliedPromo
      = some ⟨10, "10% off your first order", "WELCOME10"⟩ :=
  (applyPromo_invalid_keeps_promotion sampleCase
    ⟨"SUMMER50", some ⟨10, "10% off your first order", "WELCOME10"⟩, false⟩
    (by decide)).1

/-- The digits `Char.isDigit` accepts are the ten characters 0 to 9. -/
theorem isDigit_iff_mem (c : Char) : c.isDigit = true ↔ c ∈ "0123456789".data := by
  constructor
  · intro h
    simp only [Char.isDigit, Bool.and_eq_true, decide_eq_true_eq] at h
    have h1 : 48 ≤ c.toNat := h.1
    have h2 : c.toNat ≤ 57 := h.2
    have hc : c = Char.ofNat c.toNat := (Char.ofNat_toNat c).symm
    rw [hc]
    interval_cases c.toNat <;> decide
  · intro h
    simp only [List.mem_cons, List.mem_singleton, List.not_mem_nil, or_false] at h
    rcases h with rfl | rfl | rfl | rfl | rfl | rfl | rfl | rfl | rfl | rfl <;> decide

/-- The test of `validateKenyanPhone` on the digits of a phone: "254" and nine more,
or "0" and nine more, or nine in all. -/
theorem validateKenyanPhone_digits (phone : String) :
    Helpers.validateKenyanPhone (some phone) = true ↔
      ((∃ rest, (stripNonDigits phone).data = '2' :: '5' :: '4' :: rest ∧ rest.length = 9)
        ∨ (∃ rest, (stripNonDigits phone).data = '0' :: rest ∧ rest.length = 9)
        ∨ (stripNonDigits phone).data.length = 9) := by
  by_cases he : phone = ""
  · subst he
    constructor
    · intro h; exact absurd h (by decide)
    · intro h
      have hnil : (stripNonDigits "").data = [] := by decide
      rw [hnil] at h
      simp at h
  · simp only [Helpers.validateKenyanPhone, he, if_false, startsWith, String.length,
      Bool.or_eq_true, Bool.and_eq_true, beq_iff_eq]
    generalize (stripNonDigits phone).data = ds
    constructor
    · rintro ((⟨hp, hl⟩ | ⟨hp, hl⟩) | hl)
      · left
        match ds, hp, hl with
        | a :: b :: c :: rest, hp, hl =>
          have hp2 : "254".data.isPrefixOf (a :: b :: c :: rest) = true := hp
          simp only [List.isPrefixOf, Bool.and_eq_true, beq_iff_eq] at hp2
          obtain ⟨h2, h5, h4, _⟩ := hp2
          refine ⟨rest, ?_, ?_⟩
          · rw [← h2, ← h5, ← h4]
          · simp only [List.length_cons] at hl; omega
      · right; left
        match ds, hp, hl with
        | a :: rest, hp, hl =>
          have hp2 : "0".data.isPrefixOf (a :: rest) = true := hp
          simp only [List.isPrefixOf, Bool.and_eq_true, beq_iff_eq] at hp2
          obtain ⟨h0, _⟩ := hp2
          refine ⟨rest, ?_, ?_⟩
          · rw [← h0]
          · simp only [List.length_cons] at hl; omega
      · right; right; exact hl
    · rintro (⟨rest, rfl, hl⟩ | ⟨rest, rfl, hl⟩ | hl)
      · left; left
        refine ⟨?_, by simp [hl]⟩
        show "254".data.isPrefixOf ('2' :: '5' :: '4' :: rest) = true
        simp [List.isPrefixOf]
      · left; right
        refine ⟨?_, by simp [hl]⟩
        show "0".data.isPrefixOf ('0' :: rest) = true
        simp [List.isPrefixOf]
      · right; exact hl

/-- C8: `validateKenyanPhone` is true exactly when the digits left after removing
every character other than 0-9 are "254" followed by nine more, or "0" followed by
nine more, or nine in all; it is false for a missing and for an empty phone;
"0712345678", "712345678" and "+254712345678" are valid and "12345" is not. -/
theorem validateKenyanPhone_iff (phone : String) :
    (stripNonDigits phone).data = phone.data.filter (fun c => decide (c ∈ "0123456789".data))
      ∧ (Helpers.validateKenyanPhone (some phone) = true ↔
          ((∃ rest, (stripNonDigits phone).data = '2' :: '5' :: '4' :: rest ∧ rest.length = 9)
            ∨ (∃ rest, (stripNonDigits phone).data = '0' :: rest ∧ rest.length = 9)
            ∨ (stripNonDigits phone).data.length = 9))
      ∧ Helpers.validateKenyanPhone none = false
      ∧ Helpers.validateKenyanPhone (some "") = false
      ∧ Helpers.validateKenyanPhone (some "0712345678") = true
      ∧ Helpers.validateKenyanPhone (some "712345678") = true
      ∧ Helpers.validateKenyanPhone (some "+254712345678") = true
      ∧ stripNonDigits "+254712345678" = "254712345678"
      ∧ Helpers.validateKenyanPhone (some "12345") = false := by
  refine ⟨?_, ?_, rfl, rfl, by decide, by decide, by decide, by decide, by decide⟩
  · simp only [stripNonDigits]
    apply List.filter_congr
    intro c _
    by_cases hd : c.isDigit = true
    · rw [hd]; exact (decide_eq_true ((isDigit_iff_mem c).mp hd)).symm
    · have hm : c ∉ "0123456789".data := fun hm => hd ((isDigit_iff_mem c).mpr hm)
      rw [Bool.not_eq_true] at hd
      rw [hd]; exact (decide_eq_false hm).symm
  · exact validateKenyanPhone_digits phone

/-- C9 (failing input): "012345678" and "254712345" are accepted by
`validateKenyanPhone` (nine digits), yet `formatPhoneNumber` gives "+25412345678" and
"+254712345": "+254" followed by eight and by six digits, not by nine. -/
theorem formatPhoneNumber_accepted_not_normalized :
    Helpers.validateKenyanPhone (some "012345678") = true
      ∧ Helpers.formatPhoneNumber (some "012345678") = "+25412345678"
      ∧ (¬ ∃ ds : List Char, ds.length = 9 ∧ (∀ c ∈ ds, c.isDigit = true)
          ∧ Helpers.formatPhoneNumber (some "012345678") = String.mk ("+254".data ++ ds))
      ∧ Helpers.validateKenyanPhone (some "254712345") = true
      ∧ Helpers.formatPhoneNumber (some "254712345") = "+254712345"
      ∧ (¬ ∃ ds : List Char, ds.length = 9 ∧ (∀ c ∈ ds, c.isDigit = true)
          ∧ Helpers.formatPhoneNumber (some "254712345") = String.mk ("+254".data ++ ds)) := by
  have h1 : Helpers.formatPhoneNumber (some "012345678") = "+25412345678" := by decide
  have h2 : Helpers.formatPhoneNumber (some "254712345") = "+254712345" := by decide
  refine ⟨by decide, h1, ?_, by decide, h2, ?_⟩
  · rintro ⟨ds, hl, _, he⟩
    rw [h1] at he
    have hlen := congrArg String.length he
    simp only [String.length, List.length_append, hl] at hlen
    revert hlen
    decide
  · rintro ⟨ds, hl, _, he⟩
    rw [h2] at he
    have hlen := congrArg String.length he
    simp only [String.length, List.length_append, hl] at hlen
    revert hlen
    decide

/-- The part of C9 that holds: an accepted phone whose digits are not nine digits
beginning with "254" or with "0" is formatted as "+254" followed by nine digits. -/
theorem formatPhoneNumber_normalized (phone : String)
    (hv : Helpers.validateKenyanPhone (some phone) = true)
    (h9 : (stripNonDigits phone).length = 9 →
      startsWith (stripNonDigits phone) "254" = false
        ∧ startsWith (stripNonDigits phone) "0" = false) :
    ∃ ds : List Char, ds.length = 9 ∧ (∀ c ∈ ds, c.isDigit = true)
      ∧ Helpers.formatPhoneNumber (some phone) = String.mk ("+254".data ++ ds) := by
  have hdig : ∀ c ∈ (stripNonDigits phone).data, c.isDigit = true := by
    intro c hc
    simp only [stripNonDigits, List.mem_filter] at hc
    exact hc.2
  have he : phone ≠ "" := by
    intro he
    rw [he] at hv
    exact absurd hv (by decide)
  rcases (validateKenyanPhone_digits phone).mp hv with ⟨rest, hr, hl⟩ | ⟨rest, hr, hl⟩ | hl
  · refine ⟨rest, hl, ?_, ?_⟩
    · intro c hc
      exact hdig c (by rw [hr]; simp [hc])
    · have hsw : startsWith (stripNonDigits phone) "254" = true := by
        show "254".data.isPrefixOf (stripNonDigits phone).data = true
        rw [hr]; simp [List.isPrefixOf]
      have hs : stripNonDigits phone = String.mk ('2' :: '5' :: '4' :: rest) := by
        rw [← hr]
      simp only [Helpers.formatPhoneNumber, he, if_false, hsw, if_true]
      rw [hs]
      rfl
  · have h254 : startsWith (stripNonDigits phone) "254" = false := by
      show "254".data.isPrefixOf (stripNonDigits phone).data = false
      rw [hr]; simp [List.isPrefixOf]
    have h0 : startsWith (stripNonDigits phone) "0" = true := by
      show "0".data.isPrefixOf (stripNonDigits phone).data = true
      rw [hr]; simp [List.isPrefixOf]
    refine ⟨rest, hl, ?_, ?_⟩
    · intro c hc
      exact hdig c (by rw [hr]; simp [hc])
    · have hs : stripNonDigits phone = String.mk ('0' :: rest) := by
        rw [← hr]
      simp only [Helpers.formatPhoneNumber, he, if_false, h254, h0, if_true]
      rw [hs]
      rfl
  · have hlen : (stripNonDigits phone).length = 9 := hl
    obtain ⟨h254, h0⟩ := h9 hlen
    refine ⟨(stripNonDigits phone).data, hl, hdig, ?_⟩
    simp only [Helpers.formatPhoneNumber, he, if_false, h254, h0, hlen, if_true]
    rfl

/-- C10: `moveToCart` returns true exactly when the entry is present, in stock and
the callback resolved with success, and then the wishlist is the old one without
the entries of that id; in every other case it returns false and the wishlist is
unchanged; the callback is called once with the entry and quantity 1 when the entry
is present and in stock, and not at all when it is absent or out of stock. -/
theorem moveToCart_spec (wishlistItems : List Wishlist.WishlistItem) (productId : String)
    (addToCart : Wishlist.WishlistItem → Nat → Wishlist.CallbackOutcome) :
    ((Wishlist.moveToCart wishlistItems productId addToCart).result = true ↔
        ∃ item, wishlistItems.find? (fun i => decide (i.id = productId)) = some item
          ∧ item.inStock = true ∧ addToCart item 1 = .resolved true)
      ∧ ((Wishlist.moveToCart wishlistItems productId addToCart).result = true →
          (Wishlist.moveToCart wishlistItems productId addToCart).wishlistItems
              = wishlistItems.filter (fun i => decide (i.id ≠ productId))
            ∧ ∀ i ∈ (Wishlist.moveToCart wishlistItems productId addToCart).wishlistItems,
                i.id ≠ productId)
      ∧ ((Wishlist.moveToCart wishlistItems productId addToCart).result = false →
          (Wishlist.moveToCart wishlistItems productId addToCart).wishlistItems
            = wishlistItems)
      ∧ ((∀ i ∈ wishlistItems, i.id ≠ productId) →
          (Wishlist.moveToCart wishlistItems productId addToCart).result = false
            ∧ (Wishlist.moveToCart wishlistItems productId addToCart).calls = [])
      ∧ (∀ item, wishlistItems.find? (fun i => decide (i.id = productId)) = some item →
          item.inStock = false →
          (Wishlist.moveToCart wishlistItems productId addToCart).result = false
            ∧ (Wishlist.moveToCart wishlistItems productId addToCart).calls = [])
      ∧ (∀ item, wishlistItems.find? (fun i => decide (i.id = productId)) = some item →
          item.inStock = true → addToCart item 1 ≠ .resolved true →
          (Wishlist.moveToCart wishlistItems productId addToCart).result = false
            ∧ (Wishlist.moveToCart wishlistItems productId addToCart).calls = [(item, 1)]) := by
  cases hf : wishlistItems.find? (fun i => decide (i.id = productId)) with
  | none =>
    have habs : ∀ i ∈ wishlistItems, i.id ≠ productId := by
      intro i hi
      have := List.find?_eq_none.mp hf i hi
      simpa using this
    simp [Wishlist.moveToCart, hf]
  | some item =>
    have hmem : item ∈ wishlistItems := List.mem_of_find?_eq_some hf
    have hid : item.id = productId := by
      have := List.find?_some hf
      simpa using this
    have hnotabs : ¬ ∀ i ∈ wishlistItems, i.id ≠ productId := fun h => h item hmem hid
    cases hs : item.inStock with
    | false => simp [Wishlist.moveToCart, hf, hs, hnotabs]
    | true =>
      cases hc : addToCart item 1 with
      | rejected => simp [Wishlist.moveToCart, hf, hs, hc, hnotabs]
      | resolved success =>
        cases success with
        | false => simp [Wishlist.moveToCart, hf, hs, hc, hnotabs]
        | true =>
          simp [Wishlist.moveToCart, hf, hs, hc, hnotabs, Wishlist.removeFromWishlist]

/-! ### Wishlist store -/

/-- The lookup by id finds nothing exactly when no entry has the id. -/
theorem find_id_eq_none (wishlistItems : List Wishlist.WishlistItem) (productId : String) :
    wishlistItems.find? (fun item => decide (item.id = productId)) = none
      ↔ ∀ item ∈ wishlistItems, item.id ≠ productId := by
  rw [List.find?_eq_none]
  constructor
  · intro h item hi
    simpa using h item hi
  · intro h item hi
    simpa using h item hi

/-- Removing by id keeps the ids distinct. -/
theorem nodup_ids_filter (wishlistItems : List Wishlist.WishlistItem) (productId : String)
    (h : (wishlistItems.map (fun item => item.id)).Nodup) :
    ((wishlistItems.filter (fun item => decide (item.id ≠ productId))).map
      (fun item => item.id)).Nodup :=
  h.sublist ((List.filter_sublist _).map _)

/-- Every call on the store keeps the ids of the wishlist distinct. -/
theorem nodup_ids_applyOp (u : UnicodeCase) (timeValue : String → Int)
    (wishlistItems : List Wishlist.WishlistItem) (op : Wishlist.Op)
    (h : (wishlistItems.map (fun item => item.id)).Nodup) :
    ((Wishlist.applyOp u timeValue wishlistItems op).map (fun item => item.id)).Nodup := by
  cases op with
  | add product now =>
    simp only [Wishlist.applyOp, Wishlist.addToWishlist]
    cases hf : wishlistItems.find? (fun item => decide (item.id = product.id)) with
    | some found => exact h
    | none =>
      have habs := (find_id_eq_none wishlistItems product.id).mp hf
      simp only [List.map_append, List.map_cons, List.map_nil]
      rw [List.nodup_append]
      refine ⟨h, List.nodup_singleton _, ?_⟩
      intro a ha hb
      simp only [List.mem_singleton] at hb
      simp only [List.mem_map] at ha
      obtain ⟨item, hi, rfl⟩ := ha
      exact habs item hi hb
  | remove productId =>
    exact nodup_ids_filter wishlistItems productId h
  | clear =>
    simp [Wishlist.applyOp, Wishlist.clearWishlist]
  | sort sortBy order =>
    simp only [Wishlist.applyOp, Wishlist.sortWishlist, Wishlist.jsSort]
    exact ((List.perm_insertionSort _ wishlistItems).map _).nodup_iff.mpr h
  | move productId addToCart =>
    simp only [Wishlist.applyOp, Wishlist.moveToCart]
    cases hf : wishlistItems.find? (fun item => decide (item.id = productId)) with
    | none => exact h
    | some item =>
      simp only []
      cases hs : item.inStock with
      | false => exact h
      | true =>
        simp only [Bool.not_true, Bool.false_eq_true, if_false]
        cases hc : addToCart item 1 with
        | rejected => exact h
        | resolved success =>
          cases success with
          | false => exact h
          | true => exact nodup_ids_filter wishlistItems productId h

/-! ### Claims, continued -/

/-- C11: `addToWishlist` returns false and leaves the wishlist unchanged when an
entry with the product's id is present; otherwise it returns true and the wishlist
is the previous list followed by one new entry that carries the product's id, name,
price, originalPrice, image, category, brand and inStock and the timestamp. -/
theorem addToWishlist_spec (wishlistItems : List Wishlist.WishlistItem)
    (product : Wishlist.Product) (now : String) :
    ((∃ item ∈ wishlistItems, item.id = product.id) →
        (Wishlist.addToWishlist wishlistItems product now).result = false
          ∧ (Wishlist.addToWishlist wishlistItems product now).wishlistItems = wishlistItems)
      ∧ ((∀ item ∈ wishlistItems, item.id ≠ product.id) →
          (Wishlist.addToWishlist wishlistItems product now).result = true
            ∧ ∃ entry : Wishlist.WishlistItem,
                (Wishlist.addToWishlist wishlistItems product now).wishlistItems
                    = wishlistItems ++ [entry]
                  ∧ entry.id = product.id ∧ entry.name = product.name
                  ∧ entry.price = product.price
                  ∧ entry.originalPrice = product.originalPrice
                  ∧ entry.image = product.image ∧ entry.category = product.category
                  ∧ entry.brand = product.brand ∧ entry.inStock = product.inStock
                  ∧ entry.dateAdded = now) := by
  constructor
  · rintro ⟨item, hi, hid⟩
    cases hf : wishlistItems.find? (fun item => decide (item.id = product.id)) with
    | none => exact absurd hid ((find_id_eq_none wishlistItems product.id).mp hf item hi)
    | some found => simp [Wishlist.addToWishlist, hf]
  · intro habs
    have hf := (find_id_eq_none wishlistItems product.id).mpr habs
    refine ⟨by simp [Wishlist.addToWishlist, hf], Wishlist.wishlistItemOf product now, ?_⟩
    simp [Wishlist.addToWishlist, hf, Wishlist.wishlistItemOf]

/-- The part of C12 that holds: from the empty wishlist, after every sequence of
`addToWishlist`, `removeFromWishlist`, `clearWishlist`, `sortWishlist` and `moveToCart`
calls, each made by a render that has seen the state the call before left, no two
entries have the same id. -/
theorem wishlist_ids_nodup (u : UnicodeCase) (timeValue : String → Int)
    (ops : List Wishlist.Op) :
    ((Wishlist.runOps u timeValue [] ops).map (fun item => item.id)).Nodup := by
  have hgen : ∀ (ops : List Wishlist.Op) (start : List Wishlist.WishlistItem),
      (start.map (fun item => item.id)).Nodup →
      ((Wishlist.runOps u timeValue start ops).map (fun item => item.id)).Nodup := by
    intro ops
    induction ops with
    | nil => intro start h; exact h
    | cons op rest ih =>
      intro start h
      simp only [Wishlist.runOps, List.foldl_cons]
      exact ih _ (nodup_ids_applyOp u timeValue start op h)
  exact hgen ops [] List.nodup_nil

/-- A call made by a render that has seen the current list is the call of the
one-call-per-render model. -/
theorem applyOpFrom_settled (u : UnicodeCase) (timeValue : String → Int)
    (wishlistItems : List Wishlist.WishlistItem) (op : Wishlist.Op) :
    Wishlist.applyOpFrom u timeValue wishlistItems wishlistItems op
      = Wishlist.applyOp u timeValue wishlistItems op := by
  cases op with
  | add product now =>
    simp only [Wishlist.applyOpFrom, Wishlist.applyOp, Wishlist.addToWishlist]
    cases wishlistItems.find? (fun item => decide (item.id = product.id)) <;> rfl
  | remove productId => rfl
  | clear => rfl
  | sort sortBy order => rfl
  | move productId addToCart =>
    simp only [Wishlist.applyOpFrom, Wishlist.applyOp, Wishlist.moveToCart]
    cases wishlistItems.find? (fun item => decide (item.id = productId)) with
    | none => rfl
    | some item =>
      simp only []
      cases item.inStock with
      | false => rfl
      | true =>
        simp only [Bool.not_true, Bool.false_eq_true, if_false]
        cases addToCart item 1 with
        | rejected => rfl
        | resolved success => cases success <;> rfl

/-- Renders that make one call each are the one-call-per-render model. -/
theorem runRenders_one_call_each (u : UnicodeCase) (timeValue : String → Int)
    (ops : List Wishlist.Op) (start : List Wishlist.WishlistItem) :
    Wishlist.runRenders u timeValue start (ops.map (fun op => [op]))
      = Wishlist.runOps u timeValue start ops := by
  induction ops generalizing start with
  | nil => rfl
  | cons op rest ih =>
    simp only [Wishlist.runRenders, Wishlist.runOps, List.map_cons, List.foldl_cons,
      Wishlist.runRender, List.foldl_nil, applyOpFrom_settled]
    exact ih _

/-- C12 (failing input): two `addToWishlist` calls for the same product made by one
render of the empty wishlist. Both look the id up in the list that the render captured,
which is empty, and both append to the current list: the wishlist then holds two
entries with the id "gin-beefeater". Made one per render, the same two calls leave one
entry. -/
theorem addToWishlist_twice_in_one_render :
    Wishlist.runRender sampleCase (fun _ => 0) []
        [.add ⟨"gin-beefeater", "Beefeater London Dry Gin", 1850, some 2100,
            "/images/products/beefeater-gin.jpg", "gin", "Beefeater", true⟩
            "2025-01-01T00:00:00.000Z",
          .add ⟨"gin-beefeater", "Beefeater London Dry Gin", 1850, some 2100,
            "/images/products/beefeater-gin.jpg", "gin", "Beefeater", true⟩
            "2025-01-01T00:00:00.001Z"]
      = [⟨"gin-beefeater", "Beefeater London Dry Gin", 1850, some 2100,
            "/images/products/beefeater-gin.jpg", "gin", "Beefeater", true,
            "2025-01-01T00:00:00.000Z"⟩,
          ⟨"gin-beefeater", "Beefeater London Dry Gin", 1850, some 2100,
            "/images/products/beefeater-gin.jpg", "gin", "Beefeater", true,
            "2025-01-01T00:00:00.001Z"⟩]
      ∧ ¬ ((Wishlist.runRender sampleCase (fun _ => 0) []
          [.add ⟨"gin-beefeater", "Beefeater London Dry Gin", 1850, some 2100,
              "/images/products/beefeater-gin.jpg", "gin", "Beefeater", true⟩
              "2025-01-01T00:00:00.000Z",
            .add ⟨"gin-beefeater", "Beefeater London Dry Gin", 1850, some 2100,
              "/images/products/beefeater-gin.jpg", "gin", "Beefeater", true⟩
              "2025-01-01T00:00:00.001Z"]).map (fun item => item.id)).Nodup
      ∧ (Wishlist.runOps sampleCase (fun _ => 0) []
          [.add ⟨"gin-beefeater", "Beefeater London Dry Gin", 1850, some 2100,
              "/images/products/beefeater-gin.jpg", "gin", "Beefeater", true⟩
              "2025-01-01T00:00:00.000Z",
            .add ⟨"gin-beefeater", "Beefeater London Dry Gin", 1850, some 2100,
              "/images/products/beefeater-gin.jpg", "gin", "Beefeater", true⟩
              "2025-01-01T00:00:00.001Z"]).length = 1 := by
  refine ⟨by rfl, by decide, by decide⟩

/-- C13 (as stated, refuted): removing an id from the empty wishlist, in which no
entry has that id, returns true, not false. -/
theorem removeFromWishlist_absent_counterexample :
    (∀ item ∈ ([] : List Wishlist.WishlistItem), item.id ≠ "gin-beefeater")
      ∧ (Wishlist.removeFromWishlist [] "gin-beefeater").result = true
      ∧ (Wishlist.removeFromWishlist [] "gin-beefeater").result ≠ false := by
  decide

/-- C13 (amended): `removeFromWishlist` leaves the wishlist without the entries of
that id, all other entries unchanged and in the same order, and returns true whether
or not an entry was removed; the toast "... removed from wishlist" is emitted exactly
when an entry with that id was in the wishlist. -/
theorem removeFromWishlist_spec (wishlistItems : List Wishlist.WishlistItem)
    (productId : String) :
    (Wishlist.removeFromWishlist wishlistItems productId).result = true
      ∧ (Wishlist.removeFromWishlist wishlistItems productId).wishlistItems
          = wishlistItems.filter (fun item => decide (item.id ≠ productId))
      ∧ (∀ item, item ∈ (Wishlist.removeFromWishlist wishlistItems productId).wishlistItems
          ↔ item ∈ wishlistItems ∧ item.id ≠ productId)
      ∧ ((Wishlist.removeFromWishlist wishlistItems productId).wishlistItems).Sublist
          wishlistItems
      ∧ ((∀ item ∈ wishlistItems, item.id ≠ productId) →
          (Wishlist.removeFromWishlist wishlistItems productId).wishlistItems = wishlistItems
            ∧ (Wishlist.removeFromWishlist wishlistItems productId).toasts = [])
      ∧ ((∃ item ∈ wishlistItems, item.id = productId) →
          ∃ item ∈ wishlistItems, item.id = productId
            ∧ (Wishlist.removeFromWishlist wishlistItems productId).toasts
                = [Toast.success (item.name ++ " removed from wishlist")]) := by
  refine ⟨rfl, rfl, ?_, ?_, ?_, ?_⟩
  · intro item
    simp [Wishlist.removeFromWishlist]
  · exact List.filter_sublist _
  · intro habs
    have hf := (find_id_eq_none wishlistItems productId).mpr habs
    constructor
    · simp only [Wishlist.removeFromWishlist]
      rw [List.filter_eq_self]
      intro item hi
      simpa using habs item hi
    · simp [Wishlist.removeFromWishlist, hf]
  · rintro ⟨item, hi, hid⟩
    cases hf : wishlistItems.find? (fun item => decide (item.id = productId)) with
    | none => exact absurd hid ((find_id_eq_none wishlistItems productId).mp hf item hi)
    | some found =>
      refine ⟨found, List.mem_of_find?_eq_some hf, ?_, ?_⟩
      · have := List.find?_some hf
        simpa using this
      · simp [Wishlist.removeFromWishlist, hf]


/-- On a text of ASCII characters `toLowerCase` is the ASCII lower-casing, whatever the
table. -/
theorem toLowerCase_ascii (u : UnicodeCase) (s : String)
    (h : ∀ c ∈ s.data, c.toNat < 128) :
    toLowerCase u s = String.mk (s.data.map Char.toLower) := by
  have hgen : ∀ (l before : List Char), (∀ c ∈ l, c.toNat < 128) →
      lowerFrom u before l = l.map Char.toLower := by
    intro l
    induction l with
    | nil => intro _ _; rfl
    | cons c l ih =>
      intro before hl
      have hc := hl c (List.mem_cons_self _ _)
      simp only [lowerFrom, if_pos hc, List.map_cons, List.singleton_append]
      rw [ih _ (fun d hd => hl d (List.mem_cons_of_mem _ hd))]
  simp only [toLowerCase, hgen s.data [] h]

/-- The method `includes` holds exactly when the searched text is a run of
consecutive characters of the string. -/
theorem includes_iff (s searchString : String) :
    Wishlist.includes s searchString = true ↔ searchString.data <:+: s.data := by
  simp only [Wishlist.includes, List.any_eq_true, List.mem_tails,
    List.isPrefixOf_iff_prefix, List.infix_iff_prefix_suffix]
  constructor <;> rintro ⟨t, h1, h2⟩ <;> exact ⟨t, h2, h1⟩

/-- C14 (as stated, refuted): with the empty text as category, which is neither
omitted nor 'all', `filterWishlist` returns an entry whose category is "gin", not the
empty text. -/
theorem filterWishlist_empty_category_counterexample :
    Wishlist.filterWishlist sampleCase
        [⟨"gin-beefeater", "Beefeater London Dry Gin", 1850, some 2100,
          "/images/products/beefeater-gin.jpg", "gin", "Beefeater", true,
          "2025-01-01T00:00:00.000Z"⟩]
        ⟨some "", none, none, none⟩
      = [⟨"gin-beefeater", "Beefeater London Dry Gin", 1850, some 2100,
          "/images/products/beefeater-gin.jpg", "gin", "Beefeater", true,
          "2025-01-01T00:00:00.000Z"⟩]
      ∧ ("gin" : String) ≠ "" := by
  decide

/-- C14 (amended): `filterWishlist` returns, in their stored order, exactly the
entries that satisfy every supplied dimension at once: category equal to
filters.category, unless that is omitted, empty or 'all'; inStock equal to
filters.inStock, unless omitted; min <= price <= max, unless the range is omitted;
the lower-cased search term a run of characters of the lower-cased name, brand or
category, unless the term is omitted or empty. Lower-casing is that of `toLowerCase`,
for every table of case mappings; on ASCII text it maps A-Z to a-z, so that the search
"BEEF" finds the name "Beefeater London Dry Gin". -/
theorem filterWishlist_spec (u : UnicodeCase) (wishlistItems : List Wishlist.WishlistItem)
    (filters : Wishlist.Filters) :
    (∃ keep : Wishlist.WishlistItem → Bool,
      Wishlist.filterWishlist u wishlistItems filters = wishlistItems.filter keep
        ∧ ∀ item, keep item = true ↔
            ((∀ category, filters.category = some category → category ≠ "" →
                category ≠ "all" → item.category = category)
              ∧ (∀ inStock, filters.inStock = some inStock → item.inStock = inStock)
              ∧ (∀ min max, filters.priceRange = some (min, max) →
                  min ≤ item.price ∧ item.price ≤ max)
              ∧ (∀ search, filters.search = some search → search ≠ "" →
                  ((toLowerCase u search).data <:+: (toLowerCase u item.name).data
                    ∨ (toLowerCase u search).data <:+: (toLowerCase u item.brand).data
                    ∨ (toLowerCase u search).data <:+: (toLowerCase u item.category).data))))
      ∧ (∀ s : String, (∀ c ∈ s.data, c.toNat < 128) →
          toLowerCase u s = String.mk (s.data.map Char.toLower))
      ∧ Wishlist.filterWishlist u
          [⟨"gin-beefeater", "Beefeater London Dry Gin", 1850, some 2100,
            "/images/products/beefeater-gin.jpg", "gin", "Beefeater", true,
            "2025-01-01T00:00:00.000Z"⟩]
          ⟨none, none, none, some "BEEF"⟩
        = [⟨"gin-beefeater", "Beefeater London Dry Gin", 1850, some 2100,
            "/images/products/beefeater-gin.jpg", "gin", "Beefeater", true,
            "2025-01-01T00:00:00.000Z"⟩] := by
  refine ⟨?_, toLowerCase_ascii u, by rfl⟩
  obtain ⟨category, inStock, priceRange, search⟩ := filters
  refine ⟨fun item =>
    (match category with
      | some c => if c ≠ "" ∧ c ≠ "all" then decide (item.category = c) else true
      | none => true)
    && (match inStock with
      | some b => decide (item.inStock = b)
      | none => true)
    && (match priceRange with
      | some (min, max) => decide (item.price ≥ min) && decide (item.price ≤ max)
      | none => true)
    && (match search with
      | some s =>
        if s ≠ "" then
          Wishlist.includes (toLowerCase u item.name) (toLowerCase u s)
            || Wishlist.includes (toLowerCase u item.brand) (toLowerCase u s)
            || Wishlist.includes (toLowerCase u item.category) (toLowerCase u s)
        else true
      | none => true), ?_, ?_⟩
  · simp only [Wishlist.filterWishlist]
    cases category with
    | none =>
      cases inStock <;> cases priceRange <;> cases search <;>
        simp only [List.filter_filter, Bool.true_and, Bool.and_true] <;>
        (try split_ifs) <;>
        simp [List.filter_filter, Bool.and_comm, Bool.and_assoc, Bool.and_left_comm]
    | some c =>
      by_cases hc : c ≠ "" ∧ c ≠ "all"
      · cases inStock <;> cases priceRange <;> cases search <;>
          simp only [hc, if_true, List.filter_filter, Bool.true_and, Bool.and_true] <;>
          (try split_ifs) <;>
          simp [List.filter_filter, Bool.and_comm, Bool.and_assoc, Bool.and_left_comm]
      · cases inStock <;> cases priceRange <;> cases search <;>
          simp only [hc, if_false, List.filter_filter, Bool.true_and, Bool.and_true] <;>
          (try split_ifs) <;>
          simp [List.filter_filter, Bool.and_comm, Bool.and_assoc, Bool.and_left_comm]
  · intro item
    simp only [Bool.and_eq_true, and_assoc]
    refine and_congr ?_ (and_congr ?_ (and_congr ?_ ?_))
    · cases category with
      | none => simp
      | some c =>
        by_cases hc : c ≠ "" ∧ c ≠ "all"
        · simp only [if_pos hc, decide_eq_true_eq, Option.some.injEq]
          constructor
          · intro h c' hc' _ _
            rw [← hc']; exact h
          · intro h
            exact h c rfl hc.1 hc.2
        · simp only [if_neg hc, Option.some.injEq, true_iff]
          intro c' hc' h1 h2
          rw [← hc'] at h1 h2
          exact absurd ⟨h1, h2⟩ hc
    · cases inStock <;> simp
    · cases priceRange with
      | none => simp
      | some range =>
        obtain ⟨min, max⟩ := range
        simp only [Bool.and_eq_true, decide_eq_true_eq, Option.some.injEq, Prod.mk.injEq]
        constructor
        · rintro ⟨h1, h2⟩ a b ⟨rfl, rfl⟩
          exact ⟨h1, h2⟩
        · intro h
          exact h min max ⟨rfl, rfl⟩
    · cases search with
      | none => simp
      | some s =>
        by_cases hs : s ≠ ""
        · simp only [if_pos hs, Bool.or_eq_true, includes_iff, Option.some.injEq]
          constructor
          · intro h s' hs' _
            rw [← hs']
            rcases h with (h | h) | h
            · exact Or.inl h
            · exact Or.inr (Or.inl h)
            · exact Or.inr (Or.inr h)
          · intro h
            rcases h s rfl hs with h | h | h
            · exact Or.inl (Or.inl h)
            · exact Or.inl (Or.inr h)
            · exact Or.inr h
        · simp only [if_neg hs, Option.some.injEq, true_iff]
          intro s' hs' h1
          rw [← hs'] at h1
          exact absurd h1 hs


/-- The sort puts the keys in the order that the comparator follows, when that order
is total and transitive. -/
theorem sorted_jsSort {α β : Type} (rel : β → β → Prop)
    (htotal : ∀ x y, rel x y ∨ rel y x) (htrans : ∀ x y z, rel x y → rel y z → rel x z)
    (key : α → β) (compareFn : α → α → Int)
    (hcmp : ∀ a b, compareFn a b ≤ 0 ↔ rel (key a) (key b)) (items : List α) :
    ((Wishlist.jsSort compareFn items).map key).Sorted rel := by
  haveI : IsTotal α (fun a b => compareFn a b ≤ 0) :=
    ⟨fun a b => by simp only [hcmp]; exact htotal _ _⟩
  haveI : IsTrans α (fun a b => compareFn a b ≤ 0) :=
    ⟨fun a b c => by simp only [hcmp]; exact htrans _ _ _⟩
  have hs := List.sorted_insertionSort (fun a b => compareFn a b ≤ 0) items
  simp only [List.Sorted, Wishlist.jsSort, List.pairwise_map]
  exact List.Pairwise.imp (fun h => (hcmp _ _).mp h) hs

/-- For `asc` the comparator is not positive exactly when `aValue <= bValue`. -/
theorem compareValues_asc {β : Type} [LinearOrder β]
    [inst : DecidableRel (fun a b : β => a < b)] (x y : β) :
    @Wishlist.compareValues β _ inst "asc" x y ≤ 0 ↔ x ≤ y := by
  simp only [Wishlist.compareValues, if_true]
  by_cases h : x > y
  · simp only [if_pos h]
    constructor
    · intro h1; exact absurd h1 (by decide)
    · intro h1; exact absurd h (not_lt.mpr h1)
  · simp only [if_neg h]
    constructor
    · intro _; exact not_lt.mp h
    · intro _; decide

/-- For `desc` the comparator is not positive exactly when `aValue >= bValue`. -/
theorem compareValues_desc {β : Type} [LinearOrder β]
    [inst : DecidableRel (fun a b : β => a < b)] (x y : β) :
    @Wishlist.compareValues β _ inst "desc" x y ≤ 0 ↔ x ≥ y := by
  have hne : ¬ ("desc" = "asc") := by decide
  simp only [Wishlist.compareValues, if_neg hne]
  by_cases h : x < y
  · simp only [if_pos h]
    constructor
    · intro h1; exact absurd h1 (by decide)
    · intro h1; exact absurd h (not_lt.mpr h1)
  · simp only [if_neg h]
    constructor
    · intro _; exact not_lt.mp h
    · intro _; decide

/-- C15: `sortWishlist` leaves a permutation of the previous entries; for the fields
name, price, dateAdded and category the entries are then in non-decreasing order of
the field for 'asc' and in non-increasing order for 'desc'. Name and category are
compared without regard to case: their keys are the lower-cased texts, compared by
UTF-16 code unit, for every table of case mappings; on ASCII text lower-casing maps
A-Z to a-z, so that "apple" is put before "Zebra" in ascending order. -/
theorem sortWishlist_spec (u : UnicodeCase) (timeValue : String → Int)
    (wishlistItems : List Wishlist.WishlistItem) :
    (∀ sortBy order, (Wishlist.sortWishlist u timeValue wishlistItems sortBy order).Perm
        wishlistItems)
      ∧ ((Wishlist.sortWishlist u timeValue wishlistItems (some "name") (some "asc")).map
          (fun item => codeUnits (toLowerCase u item.name))).Sorted (fun x y => x ≤ y)
      ∧ ((Wishlist.sortWishlist u timeValue wishlistItems (some "name") (some "desc")).map
          (fun item => codeUnits (toLowerCase u item.name))).Sorted (fun x y => x ≥ y)
      ∧ ((Wishlist.sortWishlist u timeValue wishlistItems (some "price") (some "asc")).map
          (fun item => item.price)).Sorted (fun x y => x ≤ y)
      ∧ ((Wishlist.sortWishlist u timeValue wishlistItems (some "price") (some "desc")).map
          (fun item => item.price)).Sorted (fun x y => x ≥ y)
      ∧ ((Wishlist.sortWishlist u timeValue wishlistItems (some "dateAdded")
            (some "asc")).map
          (fun item => timeValue item.dateAdded)).Sorted (fun x y => x ≤ y)
      ∧ ((Wishlist.sortWishlist u timeValue wishlistItems (some "dateAdded")
            (some "desc")).map
          (fun item => timeValue item.dateAdded)).Sorted (fun x y => x ≥ y)
      ∧ ((Wishlist.sortWishlist u timeValue wishlistItems (some "category")
            (some "asc")).map
          (fun item => codeUnits (toLowerCase u item.category))).Sorted (fun x y => x ≤ y)
      ∧ ((Wishlist.sortWishlist u timeValue wishlistItems (some "category")
            (some "desc")).map
          (fun item => codeUnits (toLowerCase u item.category))).Sorted (fun x y => x ≥ y)
      ∧ (∀ s : String, (∀ c ∈ s.data, c.toNat < 128) →
          toLowerCase u s = String.mk (s.data.map Char.toLower))
      ∧ (Wishlist.sortWishlist u timeValue
          [⟨"p1", "Zebra", 10, none, "", "gin", "", true, "2025-01-01T00:00:00.000Z"⟩,
            ⟨"p2", "apple", 20, none, "", "wine", "", true, "2025-01-02T00:00:00.000Z"⟩]
          (some "name") (some "asc")).map (fun item => item.name) = ["apple", "Zebra"] := by
  have hasc : ∀ {β : Type} [LinearOrder β] (key : Wishlist.WishlistItem → β)
      (compareFn : Wishlist.WishlistItem → Wishlist.WishlistItem → Int),
      (∀ a b, compareFn a b ≤ 0 ↔ key a ≤ key b) →
      ((Wishlist.jsSort compareFn wishlistItems).map key).Sorted (fun x y => x ≤ y) :=
    fun key compareFn h =>
      sorted_jsSort (fun x y => x ≤ y) le_total (fun _ _ _ => le_trans) key compareFn h _
  have hdesc : ∀ {β : Type} [LinearOrder β] (key : Wishlist.WishlistItem → β)
      (compareFn : Wishlist.WishlistItem → Wishlist.WishlistItem → Int),
      (∀ a b, compareFn a b ≤ 0 ↔ key a ≥ key b) →
      ((Wishlist.jsSort compareFn wishlistItems).map key).Sorted (fun x y => x ≥ y) :=
    fun key compareFn h =>
      sorted_jsSort (fun x y => x ≥ y) (fun x y => le_total y x)
        (fun _ _ _ h1 h2 => le_trans h2 h1) key compareFn h _
  refine ⟨?_, ?_, ?_, ?_, ?_, ?_, ?_, ?_, ?_, toLowerCase_ascii u, by rfl⟩
  · intro sortBy order
    exact List.perm_insertionSort _ _
  · apply hasc
    intro a b
    simp only [Wishlist.compareItems, Option.getD_some, if_true]
    exact compareValues_asc _ _
  · apply hdesc
    intro a b
    simp only [Wishlist.compareItems, Option.getD_some, if_true]
    exact compareValues_desc _ _
  · apply hasc
    intro a b
    have h1 : ¬ ("price" = "name") := by decide
    simp only [Wishlist.compareItems, Option.getD_some, if_neg h1, if_true]
    exact compareValues_asc _ _
  · apply hdesc
    intro a b
    have h1 : ¬ ("price" = "name") := by decide
    simp only [Wishlist.compareItems, Option.getD_some, if_neg h1, if_true]
    exact compareValues_desc _ _
  · apply hasc
    intro a b
    have h1 : ¬ ("dateAdded" = "name") := by decide
    have h2 : ¬ ("dateAdded" = "price") := by decide
    simp only [Wishlist.compareItems, Option.getD_some, if_neg h1, if_neg h2, if_true]
    exact compareValues_asc _ _
  · apply hdesc
    intro a b
    have h1 : ¬ ("dateAdded" = "name") := by decide
    have h2 : ¬ ("dateAdded" = "price") := by decide
    simp only [Wishlist.compareItems, Option.getD_some, if_neg h1, if_neg h2, if_true]
    exact compareValues_desc _ _
  · apply hasc
    intro a b
    have h1 : ¬ ("category" = "name") := by decide
    have h2 : ¬ ("category" = "price") := by decide
    have h3 : ¬ ("category" = "dateAdded") := by decide
    simp only [Wishlist.compareItems, Option.getD_some, if_neg h1, if_neg h2, if_neg h3,
      if_true]
    exact compareValues_asc _ _
  · apply hdesc
    intro a b
    have h1 : ¬ ("category" = "name") := by decide
    have h2 : ¬ ("category" = "price") := by decide
    have h3 : ¬ ("category" = "dateAdded") := by decide
    simp only [Wishlist.compareItems, Option.getD_some, if_neg h1, if_neg h2, if_neg h3,
      if_true]
    exact compareValues_desc _ _


/-! ### Category counts -/

/-- The assignment `setOwn` on a list with a first entry. -/
theorem setOwn_cons (k : String) (v : Wishlist.CategoryValue) (rest : Wishlist.Categories)
    (key : String) (value : Wishlist.CategoryValue) :
    Wishlist.setOwn ((k, v) :: rest) key value
      = (if k = key then (key, value) else (k, v)) :: Wishlist.setOwn rest key value :=
  rfl

/-- Looking a key up after `setOwn`. -/
theorem lookup_setOwn (acc : Wishlist.Categories) (key : String)
    (value : Wishlist.CategoryValue) (c : String) :
    (Wishlist.setOwn acc key value).lookup c
      = if c = key then (acc.lookup key).map (fun _ => value) else acc.lookup c := by
  induction acc with
  | nil => simp [Wishlist.setOwn]
  | cons entry rest ih =>
    obtain ⟨k, v⟩ := entry
    rw [setOwn_cons]
    by_cases hk : k = key
    · rw [if_pos hk]
      subst hk
      by_cases hc : c = k
      · subst hc
        simp [List.lookup]
      · have hck : (c == k) = false := by simpa using hc
        simp only [List.lookup, hck, if_neg hc]
        rw [ih, if_neg hc]
    · rw [if_neg hk]
      by_cases hc : c = key
      · subst hc
        have hck : (c == k) = false := by
          simpa using fun h => hk h.symm
        simp only [List.lookup, hck, if_true]
        rw [ih, if_pos rfl]
      · simp only [if_neg hc]
        cases hck : (c == k) with
        | true => simp [List.lookup, hck]
        | false =>
          simp only [List.lookup, hck]
          rw [ih, if_neg hc]

/-- Looking a key up after a new property was added at the end. -/
theorem lookup_append_singleton (acc : Wishlist.Categories) (key : String)
    (value : Wishlist.CategoryValue) (c : String) (hnew : acc.lookup key = none) :
    (acc ++ [(key, value)]).lookup c = if c = key then some value else acc.lookup c := by
  induction acc with
  | nil =>
    by_cases hc : c = key
    · subst hc; simp [List.lookup]
    · have hck : (c == key) = false := by simpa using hc
      simp [List.lookup, hck, hc]
  | cons entry rest ih =>
    obtain ⟨k, v⟩ := entry
    have hkk : (key == k) = false := by
      cases h : (key == k) with
      | false => rfl
      | true => simp [List.lookup, h] at hnew
    have hrest : rest.lookup key = none := by
      simpa [List.lookup, hkk] using hnew
    have hne : key ≠ k := by simpa using hkk
    simp only [List.cons_append]
    by_cases hc : c = key
    · subst hc
      simp only [List.lookup, hkk, if_true]
      rw [ih hrest, if_pos rfl]
    · simp only [if_neg hc]
      cases hck : (c == k) with
      | true => simp [List.lookup, hck]
      | false =>
        simp only [List.lookup, hck]
        rw [ih hrest, if_neg hc]

/-- The sum of the counts after the count of an own key was raised by one. -/
theorem sum_setOwn_succ (acc : Wishlist.Categories) (key : String) (n : Nat)
    (hnodup : (acc.map Prod.fst).Nodup) (hlook : acc.lookup key = some (.count n)) :
    ((Wishlist.setOwn acc key (.count (n + 1))).filterMap (fun entry =>
        match entry.2 with
        | Wishlist.CategoryValue.count m => some m
        | Wishlist.CategoryValue.text _ => none)).sum
      = (acc.filterMap (fun entry =>
          match entry.2 with
          | Wishlist.CategoryValue.count m => some m
          | Wishlist.CategoryValue.text _ => none)).sum + 1 := by
  induction acc with
  | nil => simp [List.lookup] at hlook
  | cons entry rest ih =>
    obtain ⟨k, v⟩ := entry
    simp only [List.map_cons, List.nodup_cons] at hnodup
    obtain ⟨hk, hrest⟩ := hnodup
    by_cases hkey : k = key
    · subst hkey
      have hv : v = .count n := by
        simpa [List.lookup] using hlook
      subst hv
      have hsame : Wishlist.setOwn rest k (.count (n + 1)) = rest := by
        simp only [Wishlist.setOwn]
        conv_rhs => rw [← List.map_id rest]
        apply List.map_congr_left
        intro e he
        have : e.1 ≠ k := fun h => hk (by rw [← h]; exact List.mem_map_of_mem Prod.fst he)
        simp [this]
      have hcons : Wishlist.setOwn ((k, Wishlist.CategoryValue.count n) :: rest) k
          (.count (n + 1)) = (k, .count (n + 1)) :: Wishlist.setOwn rest k (.count (n + 1)) := by
        rw [setOwn_cons, if_pos rfl]
      rw [hcons, hsame]
      simp only [List.filterMap_cons, List.sum_cons]
      omega
    · have hkk : (key == k) = false := by
        simpa using fun h => hkey h.symm
      have hlook2 : rest.lookup key = some (.count n) := by
        simpa [List.lookup, hkk] using hlook
      have hcons : Wishlist.setOwn ((k, v) :: rest) key (.count (n + 1))
          = (k, v) :: Wishlist.setOwn rest key (.count (n + 1)) := by
        rw [setOwn_cons, if_neg hkey]
      rw [hcons]
      cases v with
      | count m =>
        simp only [List.filterMap_cons, List.sum_cons]
        rw [ih hrest hlook2]
        omega
      | text ones =>
        simp only [List.filterMap_cons]
        exact ih hrest hlook2


/-- A key that the lookup does not find is not among the own keys. -/
theorem not_mem_keys_of_lookup_none (acc : Wishlist.Categories) (key : String)
    (h : acc.lookup key = none) : key ∉ acc.map Prod.fst := by
  induction acc with
  | nil => simp
  | cons entry rest ih =>
    obtain ⟨k, v⟩ := entry
    cases hkk : (key == k) with
    | true => simp [List.lookup, hkk] at h
    | false =>
      have hrest : rest.lookup key = none := by simpa [List.lookup, hkk] using h
      have hne : key ≠ k := by simpa using hkk
      simp only [List.map_cons, List.mem_cons, not_or]
      exact ⟨hne, ih hrest⟩

/-- The assignment `setOwn` keeps the own keys. -/
theorem keys_setOwn (acc : Wishlist.Categories) (key : String)
    (value : Wishlist.CategoryValue) :
    (Wishlist.setOwn acc key value).map Prod.fst = acc.map Prod.fst := by
  induction acc with
  | nil => rfl
  | cons entry rest ih =>
    obtain ⟨k, v⟩ := entry
    rw [setOwn_cons, List.map_cons, List.map_cons, ih]
    by_cases hk : k = key
    · rw [if_pos hk, hk]
    · rw [if_neg hk]

/-- The `categories` object of a wishlist none of whose categories is the name of a
member of `Object.prototype`: its keys are distinct, each category that occurs has
the number of its entries as count, no other key is present, and the counts sum to
the number of entries. -/
theorem categories_counts (wishlistItems : List Wishlist.WishlistItem)
    (h : ∀ item ∈ wishlistItems, item.category ∉ objectPrototypeKeys) :
    ((wishlistItems.foldl (fun acc item => Wishlist.countCategory acc item.category)
        []).map Prod.fst).Nodup
      ∧ (∀ c, (wishlistItems.foldl (fun acc item => Wishlist.countCategory acc item.category)
            []).lookup c
          = if wishlistItems.countP (fun item => decide (item.category = c)) = 0 then none
            else some (.count (wishlistItems.countP (fun item => decide (item.category = c)))))
      ∧ ((wishlistItems.foldl (fun acc item => Wishlist.countCategory acc item.category)
            []).filterMap (fun entry =>
          match entry.2 with
          | Wishlist.CategoryValue.count m => some m
          | Wishlist.CategoryValue.text _ => none)).sum = wishlistItems.length := by
  induction wishlistItems using List.reverseRecOn with
  | nil => simp [List.lookup]
  | append_singleton l x ih =>
    have hl : ∀ item ∈ l, item.category ∉ objectPrototypeKeys :=
      fun item hi => h item (List.mem_append_left _ hi)
    have hx : x.category ∉ objectPrototypeKeys := h x (by simp)
    have hproto : x.category ≠ "__proto__" := by
      intro he
      apply hx
      rw [he]
      decide
    obtain ⟨ih1, ih2, ih3⟩ := ih hl
    simp only [List.foldl_append, List.foldl_cons, List.foldl_nil]
    generalize l.foldl (fun acc item => Wishlist.countCategory acc item.category) [] = acc
      at ih1 ih2 ih3 ⊢
    have hcnt : ∀ c, (l ++ [x]).countP (fun item => decide (item.category = c))
        = l.countP (fun item => decide (item.category = c))
          + (if x.category = c then 1 else 0) := by
      intro c
      rw [List.countP_append]
      by_cases hc : x.category = c <;> simp [List.countP_cons, hc]
    have hk := ih2 x.category
    by_cases hzero : l.countP (fun item => decide (item.category = x.category)) = 0
    · rw [if_pos hzero] at hk
      have hstep : Wishlist.countCategory acc x.category
          = acc ++ [(x.category, .count 1)] := by
        simp [Wishlist.countCategory, hk, hproto, hx]
      rw [hstep]
      refine ⟨?_, ?_, ?_⟩
      · rw [List.map_append, List.nodup_append]
        refine ⟨ih1, List.nodup_singleton _, ?_⟩
        intro a ha hb
        simp only [List.map_cons, List.map_nil, List.mem_singleton] at hb
        rw [hb] at ha
        exact not_mem_keys_of_lookup_none acc x.category hk ha
      · intro c
        rw [lookup_append_singleton acc x.category _ c hk, hcnt c, ih2 c]
        by_cases hc : c = x.category
        · subst hc
          simp [hzero]
        · have hc2 : ¬ x.category = c := fun e => hc e.symm
          simp [hc, hc2]
      · rw [List.filterMap_append, List.sum_append, ih3]
        simp
    · rw [if_neg hzero] at hk
      have hstep : Wishlist.countCategory acc x.category
          = Wishlist.setOwn acc x.category
              (.count (l.countP (fun item => decide (item.category = x.category)) + 1)) := by
        simp [Wishlist.countCategory, hk, hzero]
      rw [hstep]
      refine ⟨?_, ?_, ?_⟩
      · rw [keys_setOwn]; exact ih1
      · intro c
        rw [lookup_setOwn, hcnt c, ih2 c]
        by_cases hc : c = x.category
        · subst hc
          simp [hk]
        · have hc2 : ¬ x.category = c := fun e => hc e.symm
          simp [hc, hc2]
      · rw [sum_setOwn_succ acc x.category _ ih1 hk, ih3]
        simp

/-- The part of C16 that holds: totalItems, inStockItems, outOfStockItems,
totalValue and isEmpty are as stated for every wishlist, and the categories are
counted as stated when no category is the name of a member of `Object.prototype`. -/
theorem getWishlistStats_spec (wishlistItems : List Wishlist.WishlistItem)
    (h : ∀ item ∈ wishlistItems, item.category ∉ objectPrototypeKeys) :
    (Wishlist.getWishlistStats wishlistItems).totalItems = wishlistItems.length
      ∧ (Wishlist.getWishlistStats wishlistItems).inStockItems
          = wishlistItems.countP (fun item => item.inStock)
      ∧ (Wishlist.getWishlistStats wishlistItems).outOfStockItems
          = (Wishlist.getWishlistStats wishlistItems).totalItems
            - (Wishlist.getWishlistStats wishlistItems).inStockItems
      ∧ (Wishlist.getWishlistStats wishlistItems).totalValue
          = (wishlistItems.map (fun item => item.price)).sum
      ∧ (∀ c, (Wishlist.getWishlistStats wishlistItems).categories.lookup c
          = if wishlistItems.countP (fun item => decide (item.category = c)) = 0 then none
            else some (.count (wishlistItems.countP (fun item => decide (item.category = c)))))
      ∧ ((Wishlist.getWishlistStats wishlistItems).categories.filterMap (fun entry =>
          match entry.2 with
          | Wishlist.CategoryValue.count m => some m
          | Wishlist.CategoryValue.text _ => none)).sum
          = (Wishlist.getWishlistStats wishlistItems).totalItems
      ∧ ((Wishlist.getWishlistStats wishlistItems).isEmpty = true
          ↔ (Wishlist.getWishlistStats wishlistItems).totalItems = 0) := by
  obtain ⟨_, h2, h3⟩ := categories_counts wishlistItems h
  have hsum : ∀ (l : List Wishlist.WishlistItem) (start : Amount),
      l.foldl (fun sum item => sum + item.price) start
        = start + (l.map (fun item => item.price)).sum := by
    intro l
    induction l with
    | nil => intro start; simp
    | cons x rest ih =>
      intro start
      simp only [List.foldl_cons, List.map_cons, List.sum_cons]
      rw [ih]; ring
  refine ⟨rfl, ?_, rfl, ?_, h2, h3, ?_⟩
  · simp [Wishlist.getWishlistStats, List.countP_eq_length_filter]
  · simp only [Wishlist.getWishlistStats]
    rw [hsum]; ring
  · simp [Wishlist.getWishlistStats]

/-- C16 (failing input): for a wishlist of one entry whose category is
"constructor" the `categories` object does not hold the count 1 for that category
but a text (the inherited member followed by "1"), so the counts do not sum to
totalItems = 1; for the category "__proto__" the object stays empty. -/
theorem getWishlistStats_constructor_category :
    (Wishlist.getWishlistStats
        [⟨"p1", "Sample", 1000, none, "/images/p1.jpg", "constructor", "Brand", true,
          "2025-01-01T00:00:00.000Z"⟩]).totalItems = 1
      ∧ (Wishlist.getWishlistStats
          [⟨"p1", "Sample", 1000, none, "/images/p1.jpg", "constructor", "Brand", true,
            "2025-01-01T00:00:00.000Z"⟩]).categories
          = [("constructor", Wishlist.CategoryValue.text 1)]
      ∧ (Wishlist.getWishlistStats
          [⟨"p1", "Sample", 1000, none, "/images/p1.jpg", "constructor", "Brand", true,
            "2025-01-01T00:00:00.000Z"⟩]).categories.lookup "constructor"
          ≠ some (Wishlist.CategoryValue.count 1)
      ∧ (Wishlist.getWishlistStats
          [⟨"p1", "Sample", 1000, none, "/images/p1.jpg", "__proto__", "Brand", true,
            "2025-01-01T00:00:00.000Z"⟩]).categories = [] := by
  decide


/-- The part of C17 that holds: with nothing stored, with the empty text stored, and
with a stored text that `JSON.parse` rejects, the wishlist after the load effect is
the empty list. -/
theorem loadWishlist_unparseable (jsonParse : String → Wishlist.ParseResult)
    (text : String) (h : jsonParse text = .syntaxError) :
    Wishlist.loadWishlist jsonParse (some text) = .array []
      ∧ Wishlist.loadWishlist jsonParse none = .array []
      ∧ Wishlist.loadWishlist jsonParse (some "") = .array [] := by
  refine ⟨?_, rfl, rfl⟩
  by_cases he : text = ""
  · simp [Wishlist.loadWishlist, he]
  · simp [Wishlist.loadWishlist, he, h]

/-- C17 (failing input): the stored text "null" parses, to a value that is not an
array, and the load effect puts that value into the store: the wishlist is then
`null`, not the empty list. The same holds for every stored text that parses. -/
theorem loadWishlist_parsed_non_array (jsonParse : String → Wishlist.ParseResult)
    (h : jsonParse "null" = .value .null) :
    Wishlist.loadWishlist jsonParse (some "null") = .null
      ∧ Wishlist.loadWishlist jsonParse (some "null") ≠ .array []
      ∧ (∀ (text : String) (v : Wishlist.JsonValue), text ≠ "" →
          jsonParse text = .value v → Wishlist.loadWishlist jsonParse (some text) = v) := by
  have hgen : ∀ (text : String) (v : Wishlist.JsonValue), text ≠ "" →
      jsonParse text = .value v → Wishlist.loadWishlist jsonParse (some text) = v := by
    intro text v he hv
    simp [Wishlist.loadWishlist, he, hv]
  have hnull : Wishlist.loadWishlist jsonParse (some "null") = .null :=
    hgen "null" .null (by decide) h
  refine ⟨hnull, ?_, hgen⟩
  rw [hnull]
  intro hc
  cases hc

/-- Witness of C17 (failing input): a `JSON.parse` that reads "null" as `null` and
rejects every other text. -/
theorem loadWishlist_parsed_non_array_witness :
    Wishlist.loadWishlist
        (fun text => if text = "null" then .value .null else .syntaxError) (some "null")
      = .null :=
  (loadWishlist_parsed_non_array
    (fun text => if text = "null" then .value .null else .syntaxError) (by simp)).1


/-! ### Checkout steps -/

/-- The value of `validateStep` is true exactly when no error was recorded. -/
theorem stepIsValid_iff (formData : Checkout.FormData) (paymentMethod : String) (k : Nat) :
    Checkout.stepIsValid formData paymentMethod k = true
      ↔ Checkout.validateStep formData paymentMethod k = [] := by
  simp [Checkout.stepIsValid]

/-- An input on the shown step does not change the validation of another step. -/
theorem validateStep_setField (formData : Checkout.FormData) (paymentMethod : String)
    (field : Checkout.Field) (value : String) (n k : Nat)
    (hfield : field ∈ Checkout.fieldsOfStep n) (hk : k ≠ n) :
    Checkout.validateStep (Checkout.setField formData field value) paymentMethod k
      = Checkout.validateStep formData paymentMethod k := by
  unfold Checkout.fieldsOfStep at hfield
  split_ifs at hfield with h1 h2 h3
  · subst h1
    simp only [List.mem_cons, List.mem_singleton, List.not_mem_nil, or_false] at hfield
    rcases hfield with rfl | rfl | rfl | rfl <;>
      simp [Checkout.validateStep, Checkout.validateStep2, Checkout.validateStep3,
        Checkout.setField, hk]
  · subst h2
    simp only [List.mem_cons, List.mem_singleton, List.not_mem_nil, or_false] at hfield
    rcases hfield with rfl | rfl | rfl | rfl | rfl <;>
      simp [Checkout.validateStep, Checkout.validateStep1, Checkout.validateStep3,
        Checkout.setField, hk]
  · subst h3
    simp only [List.mem_cons, List.mem_singleton, List.not_mem_nil, or_false] at hfield
    rcases hfield with rfl
    simp [Checkout.validateStep, Checkout.validateStep1, Checkout.validateStep2,
      Checkout.setField, hk]
  · simp at hfield

/-- Placing the order changes neither the step, nor the form data, nor the payment
method. -/
theorem handlePlaceOrder_keeps {Item : Type} (env : Checkout.Env Item) (s : Checkout.State) :
    (Checkout.handlePlaceOrder env s).1.currentStep = s.currentStep
      ∧ (Checkout.handlePlaceOrder env s).1.formData = s.formData
      ∧ (Checkout.handlePlaceOrder env s).1.paymentMethod = s.paymentMethod := by
  unfold Checkout.handlePlaceOrder
  simp only []
  split_ifs
  · exact ⟨rfl, rfl, rfl⟩
  · split <;> exact ⟨rfl, rfl, rfl⟩

/-- Every event keeps: the payment method is 'mpesa', the step is between 1 and 4,
and every step before the current one is valid for the current form data. -/
theorem step_keeps_gating {Item : Type} (s : Checkout.State) (e : Checkout.Event Item)
    (hpm : s.paymentMethod = "mpesa") (hlo : 1 ≤ s.currentStep) (hhi : s.currentStep ≤ 4)
    (hvalid : ∀ k, 1 ≤ k → k < s.currentStep →
      Checkout.validateStep s.formData s.paymentMethod k = []) :
    (Checkout.step s e).paymentMethod = "mpesa"
      ∧ 1 ≤ (Checkout.step s e).currentStep ∧ (Checkout.step s e).currentStep ≤ 4
      ∧ ∀ k, 1 ≤ k → k < (Checkout.step s e).currentStep →
          Checkout.validateStep (Checkout.step s e).formData
            (Checkout.step s e).paymentMethod k = [] := by
  cases e with
  | input field value =>
    simp only [Checkout.step]
    by_cases hf : field ∈ Checkout.fieldsOfStep s.currentStep
    · rw [if_pos hf]
      refine ⟨hpm, hlo, hhi, ?_⟩
      intro k hk1 hk2
      simp only [Checkout.handleInputChange] at hk2 ⊢
      rw [validateStep_setField _ _ _ _ s.currentStep k hf (by omega)]
      exact hvalid k hk1 hk2
    · rw [if_neg hf]
      exact ⟨hpm, hlo, hhi, hvalid⟩
  | next =>
    simp only [Checkout.step, Checkout.handleNextStep]
    by_cases hv : Checkout.stepIsValid s.formData s.paymentMethod s.currentStep = true
    · rw [if_pos hv]
      by_cases h4 : s.currentStep < 4
      · rw [if_pos h4]
        refine ⟨hpm, by simp only []; omega, by simp only []; omega, ?_⟩
        intro k hk1 hk2
        simp only [] at hk2 ⊢
        by_cases hk : k < s.currentStep
        · exact hvalid k hk1 hk
        · have hke : k = s.currentStep := by omega
          rw [hke]
          exact (stepIsValid_iff _ _ _).mp hv
      · rw [if_neg h4]
        exact ⟨hpm, hlo, hhi, hvalid⟩
    · rw [if_neg hv]
      exact ⟨hpm, hlo, hhi, hvalid⟩
  | prev =>
    simp only [Checkout.step, Checkout.handlePrevStep]
    by_cases h1 : s.currentStep > 1
    · rw [if_pos h1]
      refine ⟨hpm, by simp only []; omega, by simp only []; omega, ?_⟩
      intro k hk1 hk2
      simp only [] at hk2 ⊢
      exact hvalid k hk1 (by omega)
    · rw [if_neg h1]
      exact ⟨hpm, hlo, hhi, hvalid⟩
  | selectMpesa =>
    refine ⟨rfl, hlo, hhi, ?_⟩
    intro k hk1 hk2
    have := hvalid k hk1 hk2
    rw [hpm] at this
    exact this
  | ageVerification isVerified =>
    simp only [Checkout.step, Checkout.handleAgeVerification]
    split_ifs <;>
      exact ⟨hpm, hlo, hhi, fun k hk1 hk2 => by
        have := hvalid k hk1 hk2
        simpa [Checkout.validateStep, Checkout.validateStep1, Checkout.validateStep2,
          Checkout.validateStep3] using this⟩
  | placeOrder env =>
    simp only [Checkout.step]
    obtain ⟨hc, hf, hp⟩ := handlePlaceOrder_keeps env s
    rw [hc, hf, hp]
    exact ⟨hpm, hlo, hhi, hvalid⟩

/-- In every state reached from the initial one: the payment method is 'mpesa', the
step is between 1 and 4, and every step before the current one is valid. -/
theorem run_keeps_gating {Item : Type} (firstName lastName email phone : String)
    (events : List (Checkout.Event Item)) :
    (Checkout.run (Checkout.initialState firstName lastName email phone) events).paymentMethod
        = "mpesa"
      ∧ 1 ≤ (Checkout.run (Checkout.initialState firstName lastName email phone)
          events).currentStep
      ∧ (Checkout.run (Checkout.initialState firstName lastName email phone)
          events).currentStep ≤ 4
      ∧ ∀ k, 1 ≤ k →
          k < (Checkout.run (Checkout.initialState firstName lastName email phone)
            events).currentStep →
          Checkout.validateStep
            (Checkout.run (Checkout.initialState firstName lastName email phone)
              events).formData
            (Checkout.run (Checkout.initialState firstName lastName email phone)
              events).paymentMethod k = [] := by
  have hgen : ∀ (events : List (Checkout.Event Item)) (s : Checkout.State),
      (s.paymentMethod = "mpesa" ∧ 1 ≤ s.currentStep ∧ s.currentStep ≤ 4
        ∧ ∀ k, 1 ≤ k → k < s.currentStep →
            Checkout.validateStep s.formData s.paymentMethod k = []) →
      ((Checkout.run s events).paymentMethod = "mpesa"
        ∧ 1 ≤ (Checkout.run s events).currentStep ∧ (Checkout.run s events).currentStep ≤ 4
        ∧ ∀ k, 1 ≤ k → k < (Checkout.run s events).currentStep →
            Checkout.validateStep (Checkout.run s events).formData
              (Checkout.run s events).paymentMethod k = []) := by
    intro events
    induction events with
    | nil => intro s h; exact h
    | cons e rest ih =>
      intro s h
      simp only [Checkout.run, List.foldl_cons]
      exact ih _ (step_keeps_gating s e h.1 h.2.1 h.2.2.1 h.2.2.2)
  apply hgen
  refine ⟨rfl, by simp [Checkout.initialState], by simp [Checkout.initialState], ?_⟩
  intro k hk1 hk2
  simp only [Checkout.initialState] at hk2
  omega


/-- C18: in every state reached from the initial checkout state (step 1) by inputs on
the shown step, Next and Previous (and the other controls of the page), every step
before the current one is valid for the current form data; Next from a step whose
fields are invalid leaves the current step where it is, and Next from a valid step
below 4 moves to the following step. -/
theorem checkout_gating_invariant {Item : Type} (firstName lastName email phone : String)
    (events : List (Checkout.Event Item)) :
    (1 ≤ (Checkout.run (Checkout.initialState firstName lastName email phone)
        events).currentStep
      ∧ (Checkout.run (Checkout.initialState firstName lastName email phone)
        events).currentStep ≤ 4)
      ∧ (∀ k, 1 ≤ k →
          k < (Checkout.run (Checkout.initialState firstName lastName email phone)
            events).currentStep →
          Checkout.stepIsValid
            (Checkout.run (Checkout.initialState firstName lastName email phone)
              events).formData
            (Checkout.run (Checkout.initialState firstName lastName email phone)
              events).paymentMethod k = true)
      ∧ (∀ s : Checkout.State,
          Checkout.stepIsValid s.formData s.paymentMethod s.currentStep = false →
          (Checkout.handleNextStep s).currentStep = s.currentStep)
      ∧ (∀ s : Checkout.State,
          Checkout.stepIsValid s.formData s.paymentMethod s.currentStep = true →
          s.currentStep < 4 →
          (Checkout.handleNextStep s).currentStep = s.currentStep + 1) := by
  obtain ⟨_, hlo, hhi, hvalid⟩ :=
    @run_keeps_gating Item firstName lastName email phone events
  refine ⟨⟨hlo, hhi⟩, ?_, ?_, ?_⟩
  · intro k hk1 hk2
    exact (stepIsValid_iff _ _ _).mpr (hvalid k hk1 hk2)
  · intro s hs
    simp [Checkout.handleNextStep, hs]
  · intro s hs h4
    simp [Checkout.handleNextStep, hs, h4]


/-- C19 (as stated, refuted): a first name that is not empty but consists of a space
fails step 1, and an email with two '@' and an email with a space pass it. -/
theorem validateStep_counterexample :
    (" " : String) ≠ ""
      ∧ Checkout.validateStep
          ⟨" ", "Doe", "jane@example.com", "0712345678", "", "Nairobi", "Nairobi", "",
            "0712345678", false, "standard"⟩ "mpesa" 1
          = [(Checkout.Field.firstName, "First name is required")]
      ∧ Checkout.stepIsValid
          ⟨"Jane", "Doe", "a@b@c.d", "0712345678", "", "Nairobi", "Nairobi", "",
            "0712345678", false, "standard"⟩ "mpesa" 1 = true
      ∧ Checkout.stepIsValid
          ⟨"Jane", "Doe", "x y@z.w", "0712345678", "", "Nairobi", "Nairobi", "",
            "0712345678", false, "standard"⟩ "mpesa" 1 = true := by
  decide

/-- A one-error part of `newErrors` holds an error for a field exactly when the
field is that of the part and the test fails. -/
theorem mem_error_part (c : Prop) [Decidable c] (target field : Checkout.Field)
    (text : String) :
    (∃ message, (field, message) ∈ (if c then [(target, text)] else []))
      ↔ field = target ∧ c := by
  by_cases hc : c
  · simp [hc]
  · simp [hc]

/-- A two-error part of `newErrors` holds an error for a field exactly when the field
is that of the part and one of the two tests fails. -/
theorem mem_error_part2 (c1 c2 : Prop) [Decidable c1] [Decidable c2]
    (target field : Checkout.Field) (text1 text2 : String) :
    (∃ message, (field, message)
        ∈ (if c1 then [(target, text1)] else if c2 then [(target, text2)] else []))
      ↔ field = target ∧ (c1 ∨ c2) := by
  by_cases h1 : c1
  · simp [h1]
  · by_cases h2 : c2
    · simp [h1, h2]
    · simp [h1, h2]

/-- A one-error part of `newErrors` is empty exactly when the test passes. -/
theorem error_part_eq_nil (c : Prop) [Decidable c] (target : Checkout.Field)
    (text : String) :
    (if c then [(target, text)] else []) = [] ↔ ¬ c := by
  by_cases hc : c
  · simp [hc]
  · simp [hc]

/-- A two-error part of `newErrors` is empty exactly when both tests pass. -/
theorem error_part2_eq_nil (c1 c2 : Prop) [Decidable c1] [Decidable c2]
    (target : Checkout.Field) (text1 text2 : String) :
    (if c1 then [(target, text1)] else if c2 then [(target, text2)] else []) = []
      ↔ ¬ c1 ∧ ¬ c2 := by
  by_cases h1 : c1
  · simp [h1]
  · by_cases h2 : c2
    · simp [h1, h2]
    · simp [h1, h2]

/-- The step-1 checks pass exactly when the four requirements hold. -/
theorem validateStep1_eq_nil (formData : Checkout.FormData) :
    Checkout.validateStep1 formData = [] ↔
      jsTrim formData.firstName ≠ "" ∧ jsTrim formData.lastName ≠ ""
        ∧ (jsTrim formData.email ≠ "" ∧ Checkout.emailPattern formData.email = true)
        ∧ (jsTrim formData.phone ≠ ""
            ∧ Helpers.validateKenyanPhone (some formData.phone) = true) := by
  simp only [Checkout.validateStep1, List.append_eq_nil, error_part_eq_nil,
    error_part2_eq_nil, Bool.not_eq_true', ne_eq, Bool.not_eq_false, and_assoc]

/-- The step-1 checks record an error for exactly the fields that fail. -/
theorem validateStep1_errors (formData : Checkout.FormData) (field : Checkout.Field) :
    (∃ message, (field, message) ∈ Checkout.validateStep1 formData) ↔
      ((field = .firstName ∧ jsTrim formData.firstName = "")
        ∨ (field = .lastName ∧ jsTrim formData.lastName = "")
        ∨ (field = .email
            ∧ ¬ (jsTrim formData.email ≠ "" ∧ Checkout.emailPattern formData.email = true))
        ∨ (field = .phone
            ∧ ¬ (jsTrim formData.phone ≠ ""
                  ∧ Helpers.validateKenyanPhone (some formData.phone) = true))) := by
  simp only [Checkout.validateStep1, List.mem_append, exists_or, mem_error_part,
    mem_error_part2, or_assoc]
  have he : (jsTrim formData.email = "" ∨ (!Checkout.emailPattern formData.email) = true)
      ↔ ¬ (jsTrim formData.email ≠ "" ∧ Checkout.emailPattern formData.email = true) := by
    by_cases h1 : jsTrim formData.email = "" <;>
      cases h2 : Checkout.emailPattern formData.email <;> simp [h1]
  have hp : (jsTrim formData.phone = ""
        ∨ (!Helpers.validateKenyanPhone (some formData.phone)) = true)
      ↔ ¬ (jsTrim formData.phone ≠ ""
            ∧ Helpers.validateKenyanPhone (some formData.phone) = true) := by
    by_cases h1 : jsTrim formData.phone = "" <;>
      cases h2 : Helpers.validateKenyanPhone (some formData.phone) <;> simp [h1]
  rw [he, hp]

/-- The step-2 checks record an error for exactly the fields that fail. -/
theorem validateStep2_errors (formData : Checkout.FormData) (field : Checkout.Field) :
    (∃ message, (field, message) ∈ Checkout.validateStep2 formData) ↔
      ((field = .address ∧ jsTrim formData.address = "")
        ∨ (field = .city ∧ jsTrim formData.city = "")) := by
  simp only [Checkout.validateStep2, List.mem_append, exists_or, mem_error_part]

/-- The step-3 checks for M-Pesa record an error for the phone exactly when it
fails. -/
theorem validateStep3_errors (formData : Checkout.FormData) (field : Checkout.Field) :
    (∃ message, (field, message) ∈ Checkout.validateStep3 formData "mpesa") ↔
      (field = .mpesaPhone
        ∧ ¬ (jsTrim formData.mpesaPhone ≠ ""
              ∧ Helpers.validateKenyanPhone (some formData.mpesaPhone) = true)) := by
  simp only [Checkout.validateStep3, if_true, mem_error_part2]
  have hp : (jsTrim formData.mpesaPhone = ""
        ∨ (!Helpers.validateKenyanPhone (some formData.mpesaPhone)) = true)
      ↔ ¬ (jsTrim formData.mpesaPhone ≠ ""
            ∧ Helpers.validateKenyanPhone (some formData.mpesaPhone) = true) := by
    by_cases h1 : jsTrim formData.mpesaPhone = "" <;>
      cases h2 : Helpers.validateKenyanPhone (some formData.mpesaPhone) <;> simp [h1]
  rw [hp]

/-- C19 (amended): `validateStep(step)` returns true exactly when the step's
requirements hold and records an error for exactly the fields that fail. Step 1:
firstName and lastName not blank, email not blank and matching the page's pattern
(an '@' after a non-white-space character, then non-white-space characters, a '.'
and a non-white-space character, anywhere in the text), phone not blank and passing
`validateKenyanPhone`. Step 2: address and city not blank. Step 3 with M-Pesa:
mpesaPhone not blank and passing `validateKenyanPhone`; step 3 with another method
and any other step: no requirement. With an empty email and the other step-1 fields
valid the only error is for email and Next stays on step 1. -/
theorem validateStep_spec (formData : Checkout.FormData) (paymentMethod : String) :
    (Checkout.stepIsValid formData paymentMethod 1 = true ↔
        jsTrim formData.firstName ≠ "" ∧ jsTrim formData.lastName ≠ ""
          ∧ (jsTrim formData.email ≠ "" ∧ Checkout.emailPattern formData.email = true)
          ∧ (jsTrim formData.phone ≠ ""
              ∧ Helpers.validateKenyanPhone (some formData.phone) = true))
      ∧ (∀ field, (∃ message, (field, message)
            ∈ Checkout.validateStep formData paymentMethod 1) ↔
          ((field = .firstName ∧ jsTrim formData.firstName = "")
            ∨ (field = .lastName ∧ jsTrim formData.lastName = "")
            ∨ (field = .email
                ∧ ¬ (jsTrim formData.email ≠ ""
                      ∧ Checkout.emailPattern formData.email = true))
            ∨ (field = .phone
                ∧ ¬ (jsTrim formData.phone ≠ ""
                      ∧ Helpers.validateKenyanPhone (some formData.phone) = true))))
      ∧ (Checkout.stepIsValid formData paymentMethod 2 = true ↔
          jsTrim formData.address ≠ "" ∧ jsTrim formData.city ≠ "")
      ∧ (∀ field, (∃ message, (field, message)
            ∈ Checkout.validateStep formData paymentMethod 2) ↔
          ((field = .address ∧ jsTrim formData.address = "")
            ∨ (field = .city ∧ jsTrim formData.city = "")))
      ∧ (Checkout.stepIsValid formData "mpesa" 3 = true ↔
          jsTrim formData.mpesaPhone ≠ ""
            ∧ Helpers.validateKenyanPhone (some formData.mpesaPhone) = true)
      ∧ (∀ field, (∃ message, (field, message)
            ∈ Checkout.validateStep formData "mpesa" 3) ↔
          (field = .mpesaPhone
            ∧ ¬ (jsTrim formData.mpesaPhone ≠ ""
                  ∧ Helpers.validateKenyanPhone (some formData.mpesaPhone) = true)))
      ∧ (paymentMethod ≠ "mpesa" → Checkout.validateStep formData paymentMethod 3 = [])
      ∧ (∀ k, k ≠ 1 → k ≠ 2 → k ≠ 3 → Checkout.validateStep formData paymentMethod k = [])
      ∧ (formData.email = "" → jsTrim formData.firstName ≠ "" →
          jsTrim formData.lastName ≠ "" → jsTrim formData.phone ≠ "" →
          Helpers.validateKenyanPhone (some formData.phone) = true →
          Checkout.validateStep formData paymentMethod 1
              = [(Checkout.Field.email, "Email is required")]
            ∧ ∀ s : Checkout.State, s.formData = formData →
                s.paymentMethod = paymentMethod → s.currentStep = 1 →
                (Checkout.handleNextStep s).currentStep = 1) := by
  have h1 : Checkout.validateStep formData paymentMethod 1
      = Checkout.validateStep1 formData := by
    simp [Checkout.validateStep]
  have h2 : Checkout.validateStep formData paymentMethod 2
      = Checkout.validateStep2 formData := by
    simp [Checkout.validateStep]
  have h3 : ∀ pm, Checkout.validateStep formData pm 3
      = Checkout.validateStep3 formData pm := by
    intro pm
    simp [Checkout.validateStep]
  refine ⟨?_, ?_, ?_, ?_, ?_, ?_, ?_, ?_, ?_⟩
  · rw [stepIsValid_iff, h1]
    exact validateStep1_eq_nil formData
  · intro field
    rw [h1]
    exact validateStep1_errors formData field
  · rw [stepIsValid_iff, h2]
    simp only [Checkout.validateStep2, List.append_eq_nil, error_part_eq_nil, ne_eq]
  · intro field
    rw [h2]
    exact validateStep2_errors formData field
  · rw [stepIsValid_iff, h3]
    simp only [Checkout.validateStep3, if_true, error_part2_eq_nil, Bool.not_eq_true',
      ne_eq, Bool.not_eq_false]
  · intro field
    rw [h3]
    exact validateStep3_errors formData field
  · intro hpm
    rw [h3]
    simp [Checkout.validateStep3, hpm]
  · intro k hk1 hk2 hk3
    simp [Checkout.validateStep, hk1, hk2, hk3]
  · intro hemail hfn hln hph hvp
    have hblank : jsTrim formData.email = "" := by rw [hemail]; decide
    have herr : Checkout.validateStep formData paymentMethod 1
        = [(Checkout.Field.email, "Email is required")] := by
      rw [h1]
      simp [Checkout.validateStep1, hblank, hfn, hln, hph, hvp]
    refine ⟨herr, ?_⟩
    intro s hs hp hc
    have hinv : Checkout.stepIsValid s.formData s.paymentMethod s.currentStep = false := by
      rw [hs, hp, hc]
      simp [Checkout.stepIsValid, herr]
    simp only [Checkout.handleNextStep, hinv, Bool.false_eq_true, if_false]
    exact hc

/-! ### Submission -/

/-- The M-Pesa part creates no order. -/
theorem createOrder_not_mem_processPayment {Item : Type} (env : Checkout.Env Item)
    (s : Checkout.State) (createdOrder : Checkout.CreatedOrder)
    (orderData : Checkout.OrderData Item) :
    Checkout.Effect.createOrder orderData
      ∉ (Checkout.processPayment env s createdOrder).1 := by
  unfold Checkout.processPayment
  split_ifs
  · split
    · simp
    · simp
    · simp
    · split
      · simp
      · split_ifs
        · simp
        · split <;> (try split_ifs) <;> simp
  · simp

/-- The only order an attempt creates is the one built from the state it starts in. -/
theorem createOrder_mem_submitOrder {Item : Type} (env : Checkout.Env Item)
    (s : Checkout.State) (orderData : Checkout.OrderData Item)
    (h : Checkout.Effect.createOrder orderData ∈ (Checkout.submitOrder env s).1) :
    orderData = Checkout.orderDataOf env s := by
  unfold Checkout.submitOrder at h
  split at h
  · simpa using h
  · simpa using h
  · simpa using h
  · rename_i createdOrder _
    have hno := createOrder_not_mem_processPayment env s createdOrder orderData
    split at h
    · rename_i effects message heq
      rw [heq] at hno
      simp only [List.mem_cons, Checkout.Effect.createOrder.injEq] at h
      rcases h with h | h
      · exact h
      · exact absurd h hno
    · rename_i effects heq
      rw [heq] at hno
      simp only [List.cons_append, List.mem_cons, List.mem_append,
        Checkout.Effect.createOrder.injEq] at h
      rcases h with h | h | h
      · exact h
      · exact absurd h hno
      · simp [Checkout.completeOrder] at h

/-- An order created by `handlePlaceOrder` carries the payment method of the state. -/
theorem createOrder_mem_handlePlaceOrder {Item : Type} (env : Checkout.Env Item)
    (s : Checkout.State) (orderData : Checkout.OrderData Item)
    (h : Checkout.Effect.createOrder orderData ∈ (Checkout.handlePlaceOrder env s).2) :
    orderData.payment.method = s.paymentMethod := by
  unfold Checkout.handlePlaceOrder at h
  simp only [] at h
  split_ifs at h
  · simp at h
  · split at h
    · rename_i effects message heq
      simp only [List.mem_append, List.mem_singleton, reduceCtorEq, or_false] at h
      have hm : Checkout.Effect.createOrder orderData
          ∈ (Checkout.submitOrder env
              { s with errors := Checkout.validateStep s.formData s.paymentMethod 3 }).1 := by
        rw [heq]; exact h
      rw [createOrder_mem_submitOrder env _ orderData hm]
      rfl
    · rename_i effects heq
      have hm : Checkout.Effect.createOrder orderData
          ∈ (Checkout.submitOrder env
              { s with errors := Checkout.validateStep s.formData s.paymentMethod 3 }).1 := by
        rw [heq]; exact h
      rw [createOrder_mem_submitOrder env _ orderData hm]
      rfl

/-- The handler itself does not test the payment method: in a state with
paymentMethod = 'card' and the age confirmed, which the page cannot reach, it would
create the order with the Order Service (payment method 'card') and, when the service
returns the order, clear the cart. -/
theorem handlePlaceOrder_card_counterexample :
    Checkout.Effect.createOrder
        (Checkout.orderDataOf
          (⟨["gin-beefeater"], 1850, 0, fun _ => .resolved (some ⟨"PL1"⟩),
            fun _ _ _ => .rejected "", fun _ => .rejected ""⟩ : Checkout.Env String)
          ⟨4, false, "card",
            ⟨"Jane", "Doe", "jane@example.com", "0712345678", "1 Moi Avenue", "Nairobi",
              "Nairobi", "", "0712345678", true, "standard"⟩, [], false⟩)
      ∈ (Checkout.handlePlaceOrder
          (⟨["gin-beefeater"], 1850, 0, fun _ => .resolved (some ⟨"PL1"⟩),
            fun _ _ _ => .rejected "", fun _ => .rejected ""⟩ : Checkout.Env String)
          ⟨4, false, "card",
            ⟨"Jane", "Doe", "jane@example.com", "0712345678", "1 Moi Avenue", "Nairobi",
              "Nairobi", "", "0712345678", true, "standard"⟩, [], false⟩).2
      ∧ Checkout.Effect.clearCart
        ∈ (Checkout.handlePlaceOrder
          (⟨["gin-beefeater"], 1850, 0, fun _ => .resolved (some ⟨"PL1"⟩),
            fun _ _ _ => .rejected "", fun _ => .rejected ""⟩ : Checkout.Env String)
          ⟨4, false, "card",
            ⟨"Jane", "Doe", "jane@example.com", "0712345678", "1 Moi Avenue", "Nairobi",
              "Nairobi", "", "0712345678", true, "standard"⟩, [], false⟩).2
      ∧ (Checkout.orderDataOf
          (⟨["gin-beefeater"], 1850, 0, fun _ => .resolved (some ⟨"PL1"⟩),
            fun _ _ _ => .rejected "", fun _ => .rejected ""⟩ : Checkout.Env String)
          ⟨4, false, "card",
            ⟨"Jane", "Doe", "jane@example.com", "0712345678", "1 Moi Avenue", "Nairobi",
              "Nairobi", "", "0712345678", true, "standard"⟩, [], false⟩).payment.method
          = "card" := by
  refine ⟨?_, ?_, rfl⟩
  · simp [Checkout.handlePlaceOrder, Checkout.stepIsValid, Checkout.validateStep,
      Checkout.validateStep3, Checkout.submitOrder, Checkout.processPayment]
  · simp [Checkout.handlePlaceOrder, Checkout.stepIsValid, Checkout.validateStep,
      Checkout.validateStep3, Checkout.submitOrder, Checkout.processPayment,
      Checkout.completeOrder]

/-- C20: card cannot be chosen on the page (the card radio is disabled and has no
handler), so in every state that the checkout reaches from its initial state through
the page's controls the payment method is 'mpesa'. Hence for every such state with
paymentMethod = 'card' placing the order creates no order and does not clear the cart
(there is no such state), and every order that placing the order creates carries the
payment method 'mpesa': no card order is submitted. -/
theorem checkout_payment_method_mpesa {Item : Type} (firstName lastName email phone : String)
    (events : List (Checkout.Event Item)) :
    (Checkout.run (Checkout.initialState firstName lastName email phone) events).paymentMethod
        = "mpesa"
      ∧ (∀ env : Checkout.Env Item,
          (Checkout.run (Checkout.initialState firstName lastName email phone)
              events).paymentMethod = "card" →
          (∀ orderData, Checkout.Effect.createOrder orderData
              ∉ (Checkout.handlePlaceOrder env
                  (Checkout.run (Checkout.initialState firstName lastName email phone)
                    events)).2)
            ∧ Checkout.Effect.clearCart
              ∉ (Checkout.handlePlaceOrder env
                  (Checkout.run (Checkout.initialState firstName lastName email phone)
                    events)).2)
      ∧ ∀ (env : Checkout.Env Item) (orderData : Checkout.OrderData Item),
          Checkout.Effect.createOrder orderData
              ∈ (Checkout.handlePlaceOrder env
                  (Checkout.run (Checkout.initialState firstName lastName email phone)
                    events)).2 →
          orderData.payment.method = "mpesa" ∧ orderData.payment.method ≠ "card" := by
  have hpm := (@run_keeps_gating Item firstName lastName email phone events).1
  refine ⟨hpm, ?_, ?_⟩
  · intro env hcard
    rw [hpm] at hcard
    exact absurd hcard (by decide)
  · intro env orderData h
    have hm : orderData.payment.method = "mpesa" := by
      rw [createOrder_mem_handlePlaceOrder env _ orderData h]
      exact hpm
    refine ⟨hm, ?_⟩
    rw [hm]
    decide


/-! ### Age gate -/

/-- An input leaves `ageVerified` as it is. -/
theorem setField_ageVerified (formData : Checkout.FormData) (field : Checkout.Field)
    (value : String) :
    (Checkout.setField formData field value).ageVerified = formData.ageVerified := by
  cases field <;> rfl

/-- With `ageVerified` false, `handlePlaceOrder` does nothing to the outside. -/
theorem handlePlaceOrder_not_verified {Item : Type} (env : Checkout.Env Item)
    (s : Checkout.State) (h : s.formData.ageVerified = false) :
    (Checkout.handlePlaceOrder env s).2 = [] := by
  simp [Checkout.handlePlaceOrder, h]

/-- The one event that can turn `ageVerified` from false to true is the age
verification answered yes. -/
theorem step_ageVerified {Item : Type} (s : Checkout.State) (e : Checkout.Event Item)
    (h : s.formData.ageVerified = false)
    (h2 : (Checkout.step s e).formData.ageVerified = true) :
    e = .ageVerification true := by
  cases e with
  | input field value =>
    simp only [Checkout.step] at h2
    split_ifs at h2
    · simp only [Checkout.handleInputChange, setField_ageVerified] at h2
      rw [h] at h2
      exact absurd h2 (by decide)
    · rw [h] at h2
      exact absurd h2 (by decide)
  | next =>
    simp only [Checkout.step, Checkout.handleNextStep] at h2
    split_ifs at h2 <;>
      exact absurd (h.symm.trans (h2 : s.formData.ageVerified = true)) (by decide)
  | prev =>
    simp only [Checkout.step, Checkout.handlePrevStep] at h2
    split_ifs at h2 <;>
      exact absurd (h.symm.trans (h2 : s.formData.ageVerified = true)) (by decide)
  | selectMpesa =>
    exact absurd (h.symm.trans (h2 : s.formData.ageVerified = true)) (by decide)
  | ageVerification isVerified =>
    cases isVerified with
    | true => rfl
    | false =>
      simp [Checkout.step, Checkout.handleAgeVerification] at h2
  | placeOrder env =>
    simp only [Checkout.step] at h2
    rw [(handlePlaceOrder_keeps env s).2.1, h] at h2
    exact absurd h2 (by decide)

/-- C21: in every checkout state in which ageVerified is false, placing the order
does nothing to the outside: it creates no order, initiates no payment, checks no
payment status and does not clear the cart. The checkout starts with ageVerified
false, and an event turns it from false to true only if it is the age verification
answered yes; so a run that ends with ageVerified true has had that answer. -/
theorem age_gate {Item : Type} (env : Checkout.Env Item) (s : Checkout.State)
    (h : s.formData.ageVerified = false) :
    (Checkout.handlePlaceOrder env s).2 = []
      ∧ (∀ orderData, Checkout.Effect.createOrder orderData
          ∉ (Checkout.handlePlaceOrder env s).2)
      ∧ (∀ orderId phone amount, Checkout.Effect.initiateMpesa orderId phone amount
          ∉ (Checkout.handlePlaceOrder env s).2)
      ∧ Checkout.Effect.clearCart ∉ (Checkout.handlePlaceOrder env s).2
      ∧ (∀ e : Checkout.Event Item, (Checkout.step s e).formData.ageVerified = true →
          e = .ageVerification true)
      ∧ (∀ firstName lastName email phone,
          (Checkout.initialState firstName lastName email phone).formData.ageVerified = false)
      ∧ (∀ firstName lastName email phone (events : List (Checkout.Event Item)),
          (Checkout.run (Checkout.initialState firstName lastName email phone)
            events).formData.ageVerified = true →
          Checkout.Event.ageVerification true ∈ events) := by
  have hnone := handlePlaceOrder_not_verified env s h
  refine ⟨hnone, ?_, ?_, ?_, ?_, ?_, ?_⟩
  · intro orderData; rw [hnone]; simp
  · intro orderId phone amount; rw [hnone]; simp
  · rw [hnone]; simp
  · intro e he
    exact step_ageVerified s e h he
  · intro firstName lastName email phone
    rfl
  · intro firstName lastName email phone events
    have hgen : ∀ (events : List (Checkout.Event Item)) (s0 : Checkout.State),
        s0.formData.ageVerified = false →
        (Checkout.run s0 events).formData.ageVerified = true →
        Checkout.Event.ageVerification true ∈ events := by
      intro events
      induction events with
      | nil =>
        intro s0 h0 h1
        simp only [Checkout.run, List.foldl_nil] at h1
        rw [h0] at h1
        exact absurd h1 (by decide)
      | cons e rest ih =>
        intro s0 h0 h1
        simp only [Checkout.run, List.foldl_cons] at h1
        cases hstep : (Checkout.step s0 e).formData.ageVerified with
        | true =>
          rw [step_ageVerified s0 e h0 hstep]
          exact List.mem_cons_self _ _
        | false =>
          exact List.mem_cons_of_mem _ (ih _ hstep h1)
    exact hgen events _ rfl

/-- Witness of C21: the initial state of a checkout, with an order service that
would accept the order. -/
theorem age_gate_witness :
    (Checkout.handlePlaceOrder
        (⟨["gin-beefeater"], 1850, 0, fun _ => .resolved (some ⟨"PL1"⟩),
          fun _ _ _ => .rejected "", fun _ => .rejected ""⟩ : Checkout.Env String)
        (Checkout.initialState "Jane" "Doe" "jane@example.com" "0712345678")).2 = [] :=
  (age_gate
    (⟨["gin-beefeater"], 1850, 0, fun _ => .resolved (some ⟨"PL1"⟩),
      fun _ _ _ => .rejected "", fun _ => .rejected ""⟩ : Checkout.Env String)
    (Checkout.initialState "Jane" "Doe" "jane@example.com" "0712345678") rfl).1

/-- C22 (failing input): for every product of the catalogue the alcohol test
`alcoholContent > 0` is false for the cart line built from it, because the
catalogue holds the alcohol content as text such as "40%", which is NaN as a number;
it is false as well for a line that does not carry the property. So for a cart of
catalogue products `requiresAgeVerification` is false and the effect does not open
the age-verification step. -/
theorem catalogue_alcohol_test_false :
    stringToNumber "40%" = JsNumber.nan
      ∧ (∀ product ∈ Catalogue.products, ∀ quantity,
          greaterThanZero (Checkout.lineItemOf product quantity).alcoholContent = false)
      ∧ greaterThanZero PropertyValue.undefined = false
      ∧ (∀ cartItems : List Checkout.CartItem,
          (∀ item ∈ cartItems, ∃ product ∈ Catalogue.products, ∃ quantity,
            item = Checkout.lineItemOf product quantity) →
          Checkout.requiresAgeVerification cartItems = false
            ∧ ∀ s : Checkout.State, Checkout.ageVerificationEffect cartItems s = s)
      ∧ (Checkout.ageVerificationEffect
          [Checkout.lineItemOf
            ⟨"gin-beefeater", "Beefeater London Dry Gin", "gin", "Beefeater", 1850, 2100,
              "/images/products/beefeater-gin.jpg", "40%", true⟩ 1]
          (Checkout.initialState "Jane" "Doe" "jane@example.com"
            "0712345678")).ageVerificationStep = false := by
  have hall : ∀ product ∈ Catalogue.products,
      greaterThanZero (PropertyValue.text product.alcoholContent) = false := by
    decide
  have hline : ∀ product ∈ Catalogue.products, ∀ quantity,
      greaterThanZero (Checkout.lineItemOf product quantity).alcoholContent = false := by
    intro product hp quantity
    exact hall product hp
  have hcart : ∀ cartItems : List Checkout.CartItem,
      (∀ item ∈ cartItems, ∃ product ∈ Catalogue.products, ∃ quantity,
        item = Checkout.lineItemOf product quantity) →
      Checkout.requiresAgeVerification cartItems = false := by
    intro cartItems hitems
    simp only [Checkout.requiresAgeVerification, List.any_eq_false]
    intro item hi
    obtain ⟨product, hp, quantity, rfl⟩ := hitems item hi
    rw [hline product hp quantity]
    decide
  refine ⟨by decide, hline, rfl, ?_, by decide⟩
  intro cartItems hitems
  refine ⟨hcart cartItems hitems, ?_⟩
  intro s
  simp [Checkout.ageVerificationEffect, hcart cartItems hitems]

/-- A cart whose one line has alcohol content 0, valid step-3 fields and ageVerified
false: placing the order creates no order. -/
theorem handlePlaceOrder_no_alcohol_counterexample :
    Checkout.requiresAgeVerification
        [⟨"soda-water", "Soda Water", 150, 1, "/images/products/soda.jpg", "Schweppes",
          .number 0⟩] = false
      ∧ Checkout.stepIsValid
          ⟨"Jane", "Doe", "jane@example.com", "0712345678", "1 Moi Avenue", "Nairobi",
            "Nairobi", "", "0712345678", false, "standard"⟩ "mpesa" 3 = true
      ∧ (Checkout.handlePlaceOrder
          (⟨[⟨"soda-water", "Soda Water", 150, 1, "/images/products/soda.jpg", "Schweppes",
              .number 0⟩], 150, 0, fun _ => .resolved (some ⟨"PL1"⟩),
            fun _ _ _ => .resolved (some ⟨some "CHK1"⟩),
            fun _ => .resolved (some ⟨"completed"⟩)⟩ : Checkout.Env Checkout.CartItem)
          ⟨4, false, "mpesa",
            ⟨"Jane", "Doe", "jane@example.com", "0712345678", "1 Moi Avenue", "Nairobi",
              "Nairobi", "", "0712345678", false, "standard"⟩, [], false⟩).2 = [] := by
  refine ⟨by decide, by decide, ?_⟩
  simp [Checkout.handlePlaceOrder]

/-- The guard of `handlePlaceOrder` asks for the age confirmation whatever the cart
holds: for every checkout state with ageVerified false, also one whose cart has no item
with alcoholContent > 0, placing the order creates no order; for such a cart the effect
does not open the age-verification step. -/
theorem handlePlaceOrder_requires_age (env : Checkout.Env Checkout.CartItem)
    (s : Checkout.State)
    (hcart : Checkout.requiresAgeVerification env.cartItems = false)
    (hage : s.formData.ageVerified = false) :
    (∀ orderData, Checkout.Effect.createOrder orderData
        ∉ (Checkout.handlePlaceOrder env s).2)
      ∧ (Checkout.handlePlaceOrder env s).1.formData.ageVerified = false
      ∧ Checkout.ageVerificationEffect env.cartItems s = s := by
  refine ⟨?_, ?_, ?_⟩
  · intro orderData
    rw [handlePlaceOrder_not_verified env s hage]
    simp
  · rw [(handlePlaceOrder_keeps env s).2.1]
    exact hage
  · simp [Checkout.ageVerificationEffect, hcart]

/-- An instance of the lemma before: the cart of one line with alcohol content 0. -/
theorem handlePlaceOrder_requires_age_witness :
    Checkout.ageVerificationEffect
        [⟨"soda-water", "Soda Water", 150, 1, "/images/products/soda.jpg", "Schweppes",
          .number 0⟩]
        ⟨4, false, "mpesa",
          ⟨"Jane", "Doe", "jane@example.com", "0712345678", "1 Moi Avenue", "Nairobi",
            "Nairobi", "", "0712345678", false, "standard"⟩, [], false⟩
      = ⟨4, false, "mpesa",
          ⟨"Jane", "Doe", "jane@example.com", "0712345678", "1 Moi Avenue", "Nairobi",
            "Nairobi", "", "0712345678", false, "standard"⟩, [], false⟩ :=
  (handlePlaceOrder_requires_age
    (⟨[⟨"soda-water", "Soda Water", 150, 1, "/images/products/soda.jpg", "Schweppes",
        .number 0⟩], 150, 0, fun _ => .resolved (some ⟨"PL1"⟩),
      fun _ _ _ => .resolved (some ⟨some "CHK1"⟩),
      fun _ => .resolved (some ⟨"completed"⟩)⟩ : Checkout.Env Checkout.CartItem)
    ⟨4, false, "mpesa",
      ⟨"Jane", "Doe", "jane@example.com", "0712345678", "1 Moi Avenue", "Nairobi",
        "Nairobi", "", "0712345678", false, "standard"⟩, [], false⟩
    (by decide) rfl).2.2

/-- C24: `handleAgeVerification(false)` leaves ageVerified false, closes the
verification step, shows one error toast and navigates to the cart; it changes
nothing else of the state. -/
theorem handleAgeVerification_no (s : Checkout.State) :
    (Checkout.handleAgeVerification s false).1.formData.ageVerified = false
      ∧ (Checkout.handleAgeVerification s false).1.ageVerificationStep = false
      ∧ (Checkout.handleAgeVerification s false).2.2 = some "/cart"
      ∧ (Checkout.handleAgeVerification s false).2.1
          = [Toast.error "Age verification is required to purchase alcoholic beverages"]
      ∧ (Checkout.handleAgeVerification s false).1
          = { s with formData := { s.formData with ageVerified := false },
                     ageVerificationStep := false }
      ∧ (Checkout.handleAgeVerification s true).2.2 = none := by
  simp [Checkout.handleAgeVerification]


/-! ### Failed and successful submissions -/

/-- When the guard of line 172 lets it pass, `handlePlaceOrder` leaves `isProcessing`
false, and what it does is what the `try` block does, followed by the error toast of
`catch` if the block threw. -/
theorem handlePlaceOrder_of_guard {Item : Type} (env : Checkout.Env Item)
    (s : Checkout.State)
    (hvalid : Checkout.stepIsValid s.formData s.paymentMethod 3 = true)
    (hage : s.formData.ageVerified = true) :
    (Checkout.handlePlaceOrder env s).1.isProcessing = false
      ∧ (Checkout.handlePlaceOrder env s).2
          = (Checkout.submitOrder env
              { s with errors := Checkout.validateStep s.formData s.paymentMethod 3 }).1
            ++ (match (Checkout.submitOrder env
                  { s with errors := Checkout.validateStep s.formData s.paymentMethod 3 }).2
                with
                | some message =>
                  [Checkout.Effect.toast (Toast.error
                    (if message = "" then "Failed to process order. Please try again."
                      else message))]
                | none => []) := by
  simp only [Checkout.handlePlaceOrder, hvalid, hage, Bool.not_true, Bool.or_self,
    Bool.false_eq_true, if_false]
  cases hsub : Checkout.submitOrder env
      { s with errors := Checkout.validateStep s.formData s.paymentMethod 3 } with
  | mk effects thrown =>
    cases thrown with
    | some message => exact ⟨rfl, rfl⟩
    | none => exact ⟨rfl, by simp⟩

/-- When the guard of line 172 returns, `handlePlaceOrder` does nothing to the
outside. -/
theorem handlePlaceOrder_of_guard_fails {Item : Type} (env : Checkout.Env Item)
    (s : Checkout.State)
    (h : Checkout.stepIsValid s.formData s.paymentMethod 3 = false
      ∨ s.formData.ageVerified = false) :
    (Checkout.handlePlaceOrder env s).2 = [] := by
  rcases h with h | h <;> simp [Checkout.handlePlaceOrder, h]

/-- The M-Pesa part neither clears the cart, nor navigates, nor writes to storage. -/
theorem processPayment_no_handoff {Item : Type} (env : Checkout.Env Item)
    (s : Checkout.State) (createdOrder : Checkout.CreatedOrder) :
    Checkout.Effect.clearCart ∉ (Checkout.processPayment env s createdOrder).1
      ∧ (∀ url, Checkout.Effect.navigate url ∉ (Checkout.processPayment env s createdOrder).1)
      ∧ (∀ key value, Checkout.Effect.setItem key value
          ∉ (Checkout.processPayment env s createdOrder).1) := by
  unfold Checkout.processPayment
  split_ifs
  · split
    · simp
    · simp
    · simp
    · split
      · simp
      · split_ifs
        · simp
        · split <;> (try split_ifs) <;> simp
  · simp

/-- A `try` block that throws neither clears the cart, nor navigates, nor writes to
storage. -/
theorem submitOrder_thrown_no_handoff {Item : Type} (env : Checkout.Env Item)
    (s : Checkout.State) (message : String)
    (h : (Checkout.submitOrder env s).2 = some message) :
    Checkout.Effect.clearCart ∉ (Checkout.submitOrder env s).1
      ∧ (∀ url, Checkout.Effect.navigate url ∉ (Checkout.submitOrder env s).1)
      ∧ (∀ key value, Checkout.Effect.setItem key value
          ∉ (Checkout.submitOrder env s).1) := by
  unfold Checkout.submitOrder at h ⊢
  split at h
  · simp
  · simp
  · simp
  · rename_i createdOrder _
    obtain ⟨h1, h2, h3⟩ := processPayment_no_handoff env s createdOrder
    split at h
    · rename_i effects thrown heq
      rw [heq] at h1 h2 h3
      simp only [heq]
      refine ⟨?_, ?_, ?_⟩
      · simpa using h1
      · intro url; simpa using h2 url
      · intro key value; simpa using h3 key value
    · simp at h

/-- The failures listed in C25 make the `try` block throw. -/
theorem submitOrder_throws {Item : Type} (env : Checkout.Env Item) (s : Checkout.State)
    (hfail :
      (∃ message, env.createOrder (Checkout.orderDataOf env s) = .rejected message)
        ∨ env.createOrder (Checkout.orderDataOf env s) = .resolvedUndefined
        ∨ env.createOrder (Checkout.orderDataOf env s) = .resolved none
        ∨ (∃ createdOrder,
            env.createOrder (Checkout.orderDataOf env s) = .resolved (some createdOrder)
              ∧ s.paymentMethod = "mpesa"
              ∧ ((∃ message, env.initiateMpesa createdOrder.id s.formData.mpesaPhone
                    (Checkout.totalAmount env.subtotal s.formData.deliveryOption)
                    = .rejected message)
                ∨ (∃ payment checkoutId,
                    env.initiateMpesa createdOrder.id s.formData.mpesaPhone
                        (Checkout.totalAmount env.subtotal s.formData.deliveryOption)
                      = .resolved (some payment)
                      ∧ payment.checkoutId = some checkoutId ∧ checkoutId ≠ ""
                      ∧ ((∃ message, env.checkMpesaStatus checkoutId = .rejected message)
                        ∨ (∃ statusData,
                            env.checkMpesaStatus checkoutId = .resolved (some statusData)
                              ∧ statusData.status ≠ "completed")))))) :
    ∃ message, (Checkout.submitOrder env s).2 = some message := by
  rcases hfail with ⟨m, h⟩ | h | h | ⟨c, hc, hpm, hpay⟩
  · exact ⟨m, by simp [Checkout.submitOrder, h]⟩
  · exact ⟨Checkout.typeErrorMessage "data", by simp [Checkout.submitOrder, h]⟩
  · exact ⟨"Failed to create order", by simp [Checkout.submitOrder, h]⟩
  · have hthrow : ∃ message, (Checkout.processPayment env s c).2 = some message := by
      rcases hpay with ⟨m, hi⟩ | ⟨p, id, hi, hid, hne, hst⟩
      · exact ⟨m, by simp [Checkout.processPayment, hpm, hi]⟩
      · rcases hst with ⟨m, hs⟩ | ⟨st, hs, hstatus⟩
        · exact ⟨m, by simp [Checkout.processPayment, hpm, hi, hid, hne, hs]⟩
        · exact ⟨"Payment was not completed",
            by simp [Checkout.processPayment, hpm, hi, hid, hne, hs, hstatus]⟩
    obtain ⟨m, hm⟩ := hthrow
    refine ⟨m, ?_⟩
    simp only [Checkout.submitOrder, hc]
    cases hp : Checkout.processPayment env s c with
    | mk effects thrown =>
      rw [hp] at hm
      simp only at hm
      subst hm
      rfl


/-- The part of C25 that holds: a submission attempt in which the create call
rejects or returns no order, or (for M-Pesa) the payment initiation rejects, or the
status check, made for a checkoutId that is not empty, rejects or returns a status
other than 'completed', does not clear the cart, does not navigate and writes no
hand-off data; when the attempt was made (the guard passed) it ends with `isProcessing`
false and with an error toast. -/
theorem failed_submission_keeps_cart {Item : Type} (env : Checkout.Env Item)
    (s : Checkout.State)
    (hfail :
      (∃ message, env.createOrder (Checkout.orderDataOf env s) = .rejected message)
        ∨ env.createOrder (Checkout.orderDataOf env s) = .resolvedUndefined
        ∨ env.createOrder (Checkout.orderDataOf env s) = .resolved none
        ∨ (∃ createdOrder,
            env.createOrder (Checkout.orderDataOf env s) = .resolved (some createdOrder)
              ∧ s.paymentMethod = "mpesa"
              ∧ ((∃ message, env.initiateMpesa createdOrder.id s.formData.mpesaPhone
                    (Checkout.totalAmount env.subtotal s.formData.deliveryOption)
                    = .rejected message)
                ∨ (∃ payment checkoutId,
                    env.initiateMpesa createdOrder.id s.formData.mpesaPhone
                        (Checkout.totalAmount env.subtotal s.formData.deliveryOption)
                      = .resolved (some payment)
                      ∧ payment.checkoutId = some checkoutId ∧ checkoutId ≠ ""
                      ∧ ((∃ message, env.checkMpesaStatus checkoutId = .rejected message)
                        ∨ (∃ statusData,
                            env.checkMpesaStatus checkoutId = .resolved (some statusData)
                              ∧ statusData.status ≠ "completed")))))) :
    Checkout.Effect.clearCart ∉ (Checkout.handlePlaceOrder env s).2
      ∧ (∀ url, Checkout.Effect.navigate url ∉ (Checkout.handlePlaceOrder env s).2)
      ∧ (∀ key value, Checkout.Effect.setItem key value
          ∉ (Checkout.handlePlaceOrder env s).2)
      ∧ (Checkout.stepIsValid s.formData s.paymentMethod 3 = true →
          s.formData.ageVerified = true →
          (Checkout.handlePlaceOrder env s).1.isProcessing = false
            ∧ ∃ message, Checkout.Effect.toast (Toast.error message)
                ∈ (Checkout.handlePlaceOrder env s).2) := by
  cases hvalid : Checkout.stepIsValid s.formData s.paymentMethod 3 with
  | false =>
    rw [handlePlaceOrder_of_guard_fails env s (Or.inl hvalid)]
    simp
  | true =>
    cases hage : s.formData.ageVerified with
    | false =>
      rw [handlePlaceOrder_of_guard_fails env s (Or.inr hage)]
      simp
    | true =>
      obtain ⟨hproc, heff⟩ := handlePlaceOrder_of_guard env s hvalid hage
      obtain ⟨message, hthrown⟩ := submitOrder_throws env
        { s with errors := Checkout.validateStep s.formData s.paymentMethod 3 } hfail
      obtain ⟨h1, h2, h3⟩ := submitOrder_thrown_no_handoff env
        { s with errors := Checkout.validateStep s.formData s.paymentMethod 3 } message hthrown
      rw [heff, hthrown]
      refine ⟨?_, ?_, ?_, ?_⟩
      · simpa using h1
      · intro url; simpa using h2 url
      · intro key value; simpa using h3 key value
      · intro _ _
        exact ⟨hproc, _, List.mem_append_right _ (List.mem_singleton_self _)⟩

/-- An instance of the lemma before: the create call rejects with "Network Error". -/
theorem failed_submission_keeps_cart_witness :
    Checkout.Effect.clearCart
      ∉ (Checkout.handlePlaceOrder
          (⟨["gin-beefeater"], 1850, 0, fun _ => .rejected "Network Error",
            fun _ _ _ => .rejected "", fun _ => .rejected ""⟩ : Checkout.Env String)
          ⟨4, false, "mpesa",
            ⟨"Jane", "Doe", "jane@example.com", "0712345678", "1 Moi Avenue", "Nairobi",
              "Nairobi", "", "0712345678", true, "standard"⟩, [], false⟩).2 :=
  (failed_submission_keeps_cart
    (⟨["gin-beefeater"], 1850, 0, fun _ => .rejected "Network Error",
      fun _ _ _ => .rejected "", fun _ => .rejected ""⟩ : Checkout.Env String)
    ⟨4, false, "mpesa",
      ⟨"Jane", "Doe", "jane@example.com", "0712345678", "1 Moi Avenue", "Nairobi",
        "Nairobi", "", "0712345678", true, "standard"⟩, [], false⟩
    (Or.inl ⟨"Network Error", rfl⟩)).1

/-- C26 (failing input): an M-Pesa order for which the initiate call answers with
data that hold no checkoutId: the status check is not made, and the submission
succeeds all the same: the cart is cleared and the page navigates to the receipt. -/
theorem mpesa_order_without_status_check :
    Checkout.Effect.clearCart
        ∈ (Checkout.handlePlaceOrder
            (⟨["gin-beefeater"], 1850, 0, fun _ => .resolved (some ⟨"PL1"⟩),
              fun _ _ _ => .resolved (some ⟨none⟩),
              fun _ => .resolved (some ⟨"failed"⟩)⟩ : Checkout.Env String)
            ⟨4, false, "mpesa",
              ⟨"Jane", "Doe", "jane@example.com", "0712345678", "1 Moi Avenue", "Nairobi",
                "Nairobi", "", "0712345678", true, "standard"⟩, [], false⟩).2
      ∧ Checkout.Effect.navigate
          "/order-success?orderId=PL1&paymentId=MP0&email=jane@example.com&phone=0712345678"
        ∈ (Checkout.handlePlaceOrder
            (⟨["gin-beefeater"], 1850, 0, fun _ => .resolved (some ⟨"PL1"⟩),
              fun _ _ _ => .resolved (some ⟨none⟩),
              fun _ => .resolved (some ⟨"failed"⟩)⟩ : Checkout.Env String)
            ⟨4, false, "mpesa",
              ⟨"Jane", "Doe", "jane@example.com", "0712345678", "1 Moi Avenue", "Nairobi",
                "Nairobi", "", "0712345678", true, "standard"⟩, [], false⟩).2
      ∧ (∀ checkoutId, Checkout.Effect.checkMpesaStatus checkoutId
          ∉ (Checkout.handlePlaceOrder
            (⟨["gin-beefeater"], 1850, 0, fun _ => .resolved (some ⟨"PL1"⟩),
              fun _ _ _ => .resolved (some ⟨none⟩),
              fun _ => .resolved (some ⟨"failed"⟩)⟩ : Checkout.Env String)
            ⟨4, false, "mpesa",
              ⟨"Jane", "Doe", "jane@example.com", "0712345678", "1 Moi Avenue", "Nairobi",
                "Nairobi", "", "0712345678", true, "standard"⟩, [], false⟩).2)
      ∧ (∀ message, Checkout.Effect.toast (Toast.error message)
          ∉ (Checkout.handlePlaceOrder
            (⟨["gin-beefeater"], 1850, 0, fun _ => .resolved (some ⟨"PL1"⟩),
              fun _ _ _ => .resolved (some ⟨none⟩),
              fun _ => .resolved (some ⟨"failed"⟩)⟩ : Checkout.Env String)
            ⟨4, false, "mpesa",
              ⟨"Jane", "Doe", "jane@example.com", "0712345678", "1 Moi Avenue", "Nairobi",
                "Nairobi", "", "0712345678", true, "standard"⟩, [], false⟩).2) := by
  have h1 : jsTrim "0712345678" ≠ "" := by decide
  have h2 : Helpers.validateKenyanPhone (some "0712345678") = true := by decide
  refine ⟨?_, ?_, ?_, ?_⟩
  · simp [Checkout.handlePlaceOrder, Checkout.stepIsValid, Checkout.validateStep,
      Checkout.validateStep3, Checkout.submitOrder, Checkout.processPayment,
      Checkout.completeOrder, h1, h2]
  · simp [Checkout.handlePlaceOrder, Checkout.stepIsValid, Checkout.validateStep,
      Checkout.validateStep3, Checkout.submitOrder, Checkout.processPayment,
      Checkout.completeOrder, h1, h2]
    decide
  · intro checkoutId
    simp [Checkout.handlePlaceOrder, Checkout.stepIsValid, Checkout.validateStep,
      Checkout.validateStep3, Checkout.submitOrder, Checkout.processPayment,
      Checkout.completeOrder, h1, h2]
  · intro message
    simp [Checkout.handlePlaceOrder, Checkout.stepIsValid, Checkout.validateStep,
      Checkout.validateStep3, Checkout.submitOrder, Checkout.processPayment,
      Checkout.completeOrder, h1, h2]

/-- With a checkoutId that is not empty the M-Pesa part makes the status check, and
it throws nothing only when the check returned 'completed'. -/
theorem processPayment_checked {Item : Type} (env : Checkout.Env Item) (s : Checkout.State)
    (createdOrder : Checkout.CreatedOrder) (payment : Checkout.InitiateData)
    (checkoutId : String)
    (hpm : s.paymentMethod = "mpesa")
    (hinit : env.initiateMpesa createdOrder.id s.formData.mpesaPhone
        (Checkout.totalAmount env.subtotal s.formData.deliveryOption)
      = .resolved (some payment))
    (hid : payment.checkoutId = some checkoutId) (hne : checkoutId ≠ "") :
    Checkout.Effect.checkMpesaStatus checkoutId
        ∈ (Checkout.processPayment env s createdOrder).1
      ∧ ((Checkout.processPayment env s createdOrder).2 = none →
          ∃ statusData, env.checkMpesaStatus checkoutId = .resolved (some statusData)
            ∧ statusData.status = "completed") := by
  unfold Checkout.processPayment
  rw [if_pos hpm]
  simp only [hinit, hid]
  rw [if_neg hne]
  cases hs : env.checkMpesaStatus checkoutId with
  | rejected message => simp
  | resolvedUndefined => simp
  | resolved data =>
    cases data with
    | none => simp
    | some statusData =>
      by_cases hstatus : statusData.status = "completed"
      · simp [hstatus]
      · simp [hstatus]

/-- The part of C26 that holds: when the initiate call of an M-Pesa order answers
with a checkoutId that is not empty, the cart is cleared only if the status check
was made and returned 'completed'. -/
theorem mpesa_success_checked {Item : Type} (env : Checkout.Env Item) (s : Checkout.State)
    (createdOrder : Checkout.CreatedOrder) (payment : Checkout.InitiateData)
    (checkoutId : String)
    (hcreate : env.createOrder (Checkout.orderDataOf env s) = .resolved (some createdOrder))
    (hpm : s.paymentMethod = "mpesa")
    (hinit : env.initiateMpesa createdOrder.id s.formData.mpesaPhone
        (Checkout.totalAmount env.subtotal s.formData.deliveryOption)
      = .resolved (some payment))
    (hid : payment.checkoutId = some checkoutId) (hne : checkoutId ≠ "")
    (hclear : Checkout.Effect.clearCart ∈ (Checkout.handlePlaceOrder env s).2) :
    Checkout.Effect.checkMpesaStatus checkoutId ∈ (Checkout.handlePlaceOrder env s).2
      ∧ ∃ statusData, env.checkMpesaStatus checkoutId = .resolved (some statusData)
          ∧ statusData.status = "completed" := by
  cases hvalid : Checkout.stepIsValid s.formData s.paymentMethod 3 with
  | false =>
    rw [handlePlaceOrder_of_guard_fails env s (Or.inl hvalid)] at hclear
    simp at hclear
  | true =>
    cases hage : s.formData.ageVerified with
    | false =>
      rw [handlePlaceOrder_of_guard_fails env s (Or.inr hage)] at hclear
      simp at hclear
    | true =>
      have heff := (handlePlaceOrder_of_guard env s hvalid hage).2
      have hcreate2 : env.createOrder (Checkout.orderDataOf env
          { s with errors := Checkout.validateStep s.formData s.paymentMethod 3 })
          = .resolved (some createdOrder) := hcreate
      obtain ⟨hmem, hnone⟩ := processPayment_checked env
        { s with errors := Checkout.validateStep s.formData s.paymentMethod 3 }
        createdOrder payment checkoutId hpm hinit hid hne
      obtain ⟨hnoclear, _, _⟩ := processPayment_no_handoff env
        { s with errors := Checkout.validateStep s.formData s.paymentMethod 3 } createdOrder
      rw [heff] at hclear ⊢
      simp only [Checkout.submitOrder, hcreate2] at hclear ⊢
      cases hp : Checkout.processPayment env
          { s with errors := Checkout.validateStep s.formData s.paymentMethod 3 }
          createdOrder with
      | mk effects thrown =>
        rw [hp] at hmem hnone hnoclear hclear
        simp only at hmem hnone hnoclear
        cases thrown with
        | some message =>
          simp at hclear
          exact absurd hclear hnoclear
        | none =>
          refine ⟨?_, hnone rfl⟩
          simp [hmem]

/-- Witness of the part of C26 that holds: the status check returned 'completed'. -/
theorem mpesa_success_checked_witness :
    Checkout.Effect.checkMpesaStatus "ws_CO_1"
      ∈ (Checkout.handlePlaceOrder
          (⟨["gin-beefeater"], 1850, 0, fun _ => .resolved (some ⟨"PL1"⟩),
            fun _ _ _ => .resolved (some ⟨some "ws_CO_1"⟩),
            fun _ => .resolved (some ⟨"completed"⟩)⟩ : Checkout.Env String)
          ⟨4, false, "mpesa",
            ⟨"Jane", "Doe", "jane@example.com", "0712345678", "1 Moi Avenue", "Nairobi",
              "Nairobi", "", "0712345678", true, "standard"⟩, [], false⟩).2 :=
  (mpesa_success_checked
    (⟨["gin-beefeater"], 1850, 0, fun _ => .resolved (some ⟨"PL1"⟩),
      fun _ _ _ => .resolved (some ⟨some "ws_CO_1"⟩),
      fun _ => .resolved (some ⟨"completed"⟩)⟩ : Checkout.Env String)
    ⟨4, false, "mpesa",
      ⟨"Jane", "Doe", "jane@example.com", "0712345678", "1 Moi Avenue", "Nairobi",
        "Nairobi", "", "0712345678", true, "standard"⟩, [], false⟩
    ⟨"PL1"⟩ ⟨some "ws_CO_1"⟩ "ws_CO_1" rfl rfl rfl rfl (by decide)
    (by
      have h1 : jsTrim "0712345678" ≠ "" := by decide
      have h2 : Helpers.validateKenyanPhone (some "0712345678") = true := by decide
      have h3 : ("ws_CO_1" : String) ≠ "" := by decide
      simp [Checkout.handlePlaceOrder, Checkout.stepIsValid, Checkout.validateStep,
        Checkout.validateStep3, Checkout.submitOrder, Checkout.processPayment,
        Checkout.completeOrder, h1, h2, h3])).1

/-! ### Error toasts of a failed create call -/

/-- A failed request makes `OrdersService.create` show one error toast, and the call
then resolves with `undefined` or rejects. -/
theorem ordersServiceCreate_failure {Item : Type}
    (ordersApiCreate : Checkout.OrderData Item → ApiService.HttpResult Checkout.CreatedOrder)
    (orderData : Checkout.OrderData Item) (error : ApiService.ApiError)
    (h : ordersApiCreate orderData = .failure error) :
    (∃ message,
        (ApiService.ordersServiceCreate ordersApiCreate orderData).1 = [Toast.error message])
      ∧ ((ApiService.ordersServiceCreate ordersApiCreate orderData).2 = .resolvedUndefined
        ∨ ∃ message,
          (ApiService.ordersServiceCreate ordersApiCreate orderData).2 = .rejected message) := by
  unfold ApiService.ordersServiceCreate
  rw [h]
  simp only [ApiService.handleApiError]
  split_ifs
  · exact ⟨⟨_, rfl⟩, Or.inl rfl⟩
  · exact ⟨⟨_, rfl⟩, Or.inr ⟨_, rfl⟩⟩
  · exact ⟨⟨_, rfl⟩, Or.inr ⟨_, rfl⟩⟩
  · exact ⟨⟨_, rfl⟩, Or.inr ⟨_, rfl⟩⟩

/-- When the create call resolves with `undefined` or rejects, `handlePlaceOrder`
shows one error toast. -/
theorem errorToasts_of_create_failure {Item : Type} (env : Checkout.Env Item)
    (s : Checkout.State)
    (hvalid : Checkout.stepIsValid s.formData s.paymentMethod 3 = true)
    (hage : s.formData.ageVerified = true)
    (h : env.createOrder (Checkout.orderDataOf env s) = .resolvedUndefined
      ∨ ∃ message, env.createOrder (Checkout.orderDataOf env s) = .rejected message) :
    ∃ message, Checkout.errorToasts (Checkout.handlePlaceOrder env s).2
      = [Toast.error message] := by
  have heff := (handlePlaceOrder_of_guard env s hvalid hage).2
  rw [heff]
  have hc : ∀ r, env.createOrder (Checkout.orderDataOf env s) = r →
      env.createOrder (Checkout.orderDataOf env
        { s with errors := Checkout.validateStep s.formData s.paymentMethod 3 }) = r :=
    fun _ hr => hr
  rcases h with h | ⟨m, h⟩
  · refine ⟨if Checkout.typeErrorMessage "data" = ""
        then "Failed to process order. Please try again."
        else Checkout.typeErrorMessage "data", ?_⟩
    simp only [Checkout.submitOrder, hc _ h]
    rfl
  · refine ⟨if m = "" then "Failed to process order. Please try again." else m, ?_⟩
    simp only [Checkout.submitOrder, hc _ h]
    rfl

/-- C27 (counterexample): the create request fails with HTTP 500; the attempt shows
two error toasts, one from `handleApiError` and one from `handlePlaceOrder`. -/
theorem create_failure_two_toasts_counterexample :
    Checkout.errorToastsOfAttempt
        (fun _ => .failure ⟨some "ERR_BAD_RESPONSE", some 500, none,
          "Request failed with status code 500"⟩)
        (⟨["gin-beefeater"], 1850, 0, fun _ => .resolvedUndefined,
          fun _ _ _ => .rejected "", fun _ => .rejected ""⟩ : Checkout.Env String)
        ⟨4, false, "mpesa",
          ⟨"Jane", "Doe", "jane@example.com", "0712345678", "1 Moi Avenue", "Nairobi",
            "Nairobi", "", "0712345678", true, "standard"⟩, [], false⟩
      = [Toast.error "Server error. Please try again later.",
         Toast.error "Request failed with status code 500"] := by
  decide

/-- C27 (amended): when the create request of the HTTP-backed service fails, with any
error, a submission attempt that passes the guard shows exactly two error toasts: the
first inside `OrdersService.create`, the second in the `catch` of `handlePlaceOrder`. -/
theorem create_failure_two_toasts {Item : Type}
    (ordersApiCreate : Checkout.OrderData Item → ApiService.HttpResult Checkout.CreatedOrder)
    (env : Checkout.Env Item) (s : Checkout.State) (error : ApiService.ApiError)
    (hvalid : Checkout.stepIsValid s.formData s.paymentMethod 3 = true)
    (hage : s.formData.ageVerified = true)
    (hfail : ordersApiCreate (Checkout.orderDataOf env s) = .failure error) :
    (Checkout.errorToastsOfAttempt ordersApiCreate env s).length = 2
      ∧ (ApiService.ordersServiceCreate ordersApiCreate (Checkout.orderDataOf env s)).1.length
          = 1
      ∧ (Checkout.errorToasts (Checkout.handlePlaceOrder
          { env with createOrder := fun orderData =>
              (ApiService.ordersServiceCreate ordersApiCreate orderData).2 } s).2).length
          = 1 := by
  obtain ⟨⟨m1, h1⟩, h2⟩ :=
    ordersServiceCreate_failure ordersApiCreate (Checkout.orderDataOf env s) error hfail
  obtain ⟨m2, h3⟩ := errorToasts_of_create_failure
    { env with createOrder := fun orderData =>
        (ApiService.ordersServiceCreate ordersApiCreate orderData).2 } s hvalid hage h2
  unfold Checkout.errorToastsOfAttempt
  rw [hvalid, hage, h3, h1]
  simp

/-- Witness of C27 (amended): the request fails with a network error. -/
theorem create_failure_two_toasts_witness :
    (Checkout.errorToastsOfAttempt
        (fun _ => .failure ⟨some "ECONNABORTED", none, none, "timeout of 10000ms exceeded"⟩)
        (⟨["gin-beefeater"], 1850, 0, fun _ => .resolvedUndefined,
          fun _ _ _ => .rejected "", fun _ => .rejected ""⟩ : Checkout.Env String)
        ⟨4, false, "mpesa",
          ⟨"Jane", "Doe", "jane@example.com", "0712345678", "1 Moi Avenue", "Nairobi",
            "Nairobi", "", "0712345678", true, "standard"⟩, [], false⟩).length = 2 :=
  (create_failure_two_toasts
    (fun _ => .failure ⟨some "ECONNABORTED", none, none, "timeout of 10000ms exceeded"⟩)
    (⟨["gin-beefeater"], 1850, 0, fun _ => .resolvedUndefined,
      fun _ _ _ => .rejected "", fun _ => .rejected ""⟩ : Checkout.Env String)
    ⟨4, false, "mpesa",
      ⟨"Jane", "Doe", "jane@example.com", "0712345678", "1 Moi Avenue", "Nairobi",
        "Nairobi", "", "0712345678", true, "standard"⟩, [], false⟩
    ⟨some "ECONNABORTED", none, none, "timeout of 10000ms exceeded"⟩
    (by decide) rfl rfl).1

/-! ### Navigation while a submission is in flight -/

/-- C28 (counterexample): on the Review step with a submission in flight the Previous
control is not disabled and `handlePrevStep` moves the checkout to step 3. -/
theorem previous_in_flight_counterexample :
    (⟨4, true, "mpesa",
        ⟨"Jane", "Doe", "jane@example.com", "0712345678", "1 Moi Avenue", "Nairobi",
          "Nairobi", "", "0712345678", true, "standard"⟩, [], false⟩ : Checkout.State).isProcessing
        = true
      ∧ Checkout.beginPlaceOrder
          ⟨4, false, "mpesa",
            ⟨"Jane", "Doe", "jane@example.com", "0712345678", "1 Moi Avenue", "Nairobi",
              "Nairobi", "", "0712345678", true, "standard"⟩, [], false⟩
        = some ⟨4, true, "mpesa",
            ⟨"Jane", "Doe", "jane@example.com", "0712345678", "1 Moi Avenue", "Nairobi",
              "Nairobi", "", "0712345678", true, "standard"⟩, [], false⟩
      ∧ Checkout.previousDisabled
          ⟨4, true, "mpesa",
            ⟨"Jane", "Doe", "jane@example.com", "0712345678", "1 Moi Avenue", "Nairobi",
              "Nairobi", "", "0712345678", true, "standard"⟩, [], false⟩ = false
      ∧ (Checkout.handlePrevStep
          ⟨4, true, "mpesa",
            ⟨"Jane", "Doe", "jane@example.com", "0712345678", "1 Moi Avenue", "Nairobi",
              "Nairobi", "", "0712345678", true, "standard"⟩, [], false⟩).currentStep = 3 := by
  decide


/-- C28 (amended): while a submission is in flight only the Place Order control is
disabled. The Previous control is disabled exactly on step 1 and `handlePrevStep`
moves the checkout from every later step to the step before it; on the Review step
the Next control is not rendered and `handleNextStep` leaves `currentStep` unchanged.
Neither handler changes `isProcessing`. -/
theorem navigation_in_flight (s : Checkout.State) (h : s.isProcessing = true) :
    Checkout.placeOrderDisabled s = true
      ∧ (Checkout.previousDisabled s = true ↔ s.currentStep = 1)
      ∧ (1 < s.currentStep → (Checkout.handlePrevStep s).currentStep = s.currentStep - 1)
      ∧ (s.currentStep ≤ 1 → (Checkout.handlePrevStep s).currentStep = s.currentStep)
      ∧ (s.currentStep = 4 →
          Checkout.nextRendered s = false
            ∧ (Checkout.handleNextStep s).currentStep = s.currentStep)
      ∧ (Checkout.handlePrevStep s).isProcessing = true
      ∧ (Checkout.handleNextStep s).isProcessing = true := by
  refine ⟨h, ?_, ?_, ?_, ?_, ?_, ?_⟩
  · simp [Checkout.previousDisabled]
  · intro hk
    simp [Checkout.handlePrevStep, hk]
  · intro hk
    have hk2 : ¬ s.currentStep > 1 := by omega
    simp [Checkout.handlePrevStep, hk2]
  · intro hk
    refine ⟨by simp [Checkout.nextRendered, hk], ?_⟩
    unfold Checkout.handleNextStep
    have hk2 : ¬ s.currentStep < 4 := by omega
    simp only [if_neg hk2]
    split_ifs <;> rfl
  · unfold Checkout.handlePrevStep
    split_ifs <;> exact h
  · unfold Checkout.handleNextStep
    simp only []
    split_ifs <;> exact h

/-- Witness of C28 (amended): the Review step with a submission in flight. -/
theorem navigation_in_flight_witness :
    Checkout.placeOrderDisabled
        ⟨4, true, "mpesa",
          ⟨"Jane", "Doe", "jane@example.com", "0712345678", "1 Moi Avenue", "Nairobi",
            "Nairobi", "", "0712345678", true, "standard"⟩, [], false⟩ = true :=
  (navigation_in_flight
    ⟨4, true, "mpesa",
      ⟨"Jane", "Doe", "jane@example.com", "0712345678", "1 Moi Avenue", "Nairobi",
        "Nairobi", "", "0712345678", true, "standard"⟩, [], false⟩ rfl).1

/-! ### Bounds of the cart total -/

/-- The delivery fee of the cart page is 0 or 200. -/
theorem finalDeliveryFee_bounds (subtotal : Amount) :
    0 ≤ Cart.finalDeliveryFee subtotal ∧ Cart.finalDeliveryFee subtotal ≤ 200 := by
  unfold Cart.finalDeliveryFee Cart.deliveryFee
  split_ifs <;> constructor <;> norm_num

/-- C29: on the cart page, for a subtotal that is not negative and a promotion of the
registry or none, the discount lies between 0 and the subtotal, the total lies between
0 and the subtotal plus 200, and the total with the promotion is at most the total
without one. -/
theorem cart_total_bounds (subtotal : Amount) (appliedPromo : Option Cart.AppliedPromo)
    (h0 : 0 ≤ subtotal)
    (hreg : appliedPromo = none
      ∨ ∃ key entry code, Cart.promoCodes key = some entry
          ∧ appliedPromo = some ⟨entry.discount, entry.description, code⟩) :
    0 ≤ Cart.promoDiscount appliedPromo subtotal
      ∧ Cart.promoDiscount appliedPromo subtotal ≤ subtotal
      ∧ 0 ≤ Cart.totalPrice appliedPromo subtotal
      ∧ Cart.totalPrice appliedPromo subtotal ≤ subtotal + 200
      ∧ Cart.totalPrice appliedPromo subtotal ≤ Cart.totalPrice none subtotal := by
  obtain ⟨hf0, hf1⟩ := finalDeliveryFee_bounds subtotal
  have hd : 0 ≤ Cart.promoDiscount appliedPromo subtotal
      ∧ Cart.promoDiscount appliedPromo subtotal ≤ subtotal := by
    rcases hreg with hnone | ⟨key, entry, code, hkey, hsome⟩
    · rw [hnone]
      exact ⟨le_refl _, h0⟩
    · rw [hsome]
      simp only [Cart.promoDiscount]
      rcases promoCodes_eq_some key entry hkey with ⟨_, he⟩ | ⟨_, he⟩ | ⟨_, he⟩ <;>
        · rw [he]
          constructor <;> linarith
  obtain ⟨hd0, hd1⟩ := hd
  have hnone : Cart.promoDiscount none subtotal = 0 := rfl
  refine ⟨hd0, hd1, ?_, ?_, ?_⟩
  · unfold Cart.totalPrice; linarith
  · unfold Cart.totalPrice; linarith
  · unfold Cart.totalPrice; rw [hnone]; linarith

/-- Witness of C29: a subtotal of 2000 with WEEKEND20 applied. -/
theorem cart_total_bounds_witness :
    Cart.totalPrice (some ⟨20, "20% off weekend special", "weekend20"⟩) 2000
      ≤ Cart.totalPrice none 2000 :=
  (cart_total_bounds 2000 (some ⟨20, "20% off weekend special", "weekend20"⟩) (by norm_num)
    (Or.inr ⟨"WEEKEND20", ⟨20, "20% off weekend special"⟩, "weekend20", by decide, rfl⟩)).2.2.2.2

/-! ### Formatting a phone number twice -/

/-- Stripping the characters that are not digits distributes over concatenation. -/
theorem stripNonDigits_append (a b : String) :
    stripNonDigits (a ++ b) = stripNonDigits a ++ stripNonDigits b := by
  apply String.ext
  simp [stripNonDigits, String.data_append, List.filter_append]

/-- Stripping twice is stripping once. -/
theorem stripNonDigits_idem (s : String) :
    stripNonDigits (stripNonDigits s) = stripNonDigits s := by
  apply String.ext
  simp [stripNonDigits, List.filter_filter]

/-- Stripping keeps what `slice(1)` leaves of a stripped string. -/
theorem stripNonDigits_slice1 (s : String) :
    stripNonDigits (slice1 (stripNonDigits s)) = slice1 (stripNonDigits s) := by
  apply String.ext
  simp only [stripNonDigits, slice1]
  rw [List.filter_eq_self]
  intro c hc
  exact (List.mem_filter.mp (List.mem_of_mem_drop hc)).2

/-- A string that begins with "+" is not empty. -/
theorem plus_append_ne_empty (pre t : String) (h : pre.data ≠ []) : pre ++ t ≠ "" := by
  intro he
  have hd : (pre ++ t).data = [] := by rw [he]
  rw [String.data_append] at hd
  exact h (List.append_eq_nil.mp hd).1

/-- A string that begins with "254" starts with "254". -/
theorem startsWith_254_append (t : String) : startsWith ("254" ++ t) "254" = true := by
  show "254".data.isPrefixOf ("254" ++ t).data = true
  rw [String.data_append]
  simp [List.isPrefixOf]

/-- C30: `formatPhoneNumber` is idempotent, on every string and on a missing phone. -/
theorem formatPhoneNumber_idempotent (phone : Option String) :
    Helpers.formatPhoneNumber (some (Helpers.formatPhoneNumber phone))
      = Helpers.formatPhoneNumber phone := by
  cases phone with
  | none => rfl
  | some s =>
    by_cases he : s = ""
    · rw [he]; rfl
    · by_cases h254 : startsWith (stripNonDigits s) "254" = true
      · have hf : Helpers.formatPhoneNumber (some s) = "+" ++ stripNonDigits s := by
          simp only [Helpers.formatPhoneNumber, if_neg he, if_pos h254]
        have hs : stripNonDigits ("+" ++ stripNonDigits s) = stripNonDigits s := by
          rw [stripNonDigits_append, stripNonDigits_idem]
          rfl
        rw [hf]
        simp only [Helpers.formatPhoneNumber,
          if_neg (plus_append_ne_empty "+" (stripNonDigits s) (by decide)), hs, if_pos h254]
      · by_cases h0 : startsWith (stripNonDigits s) "0" = true
        · have hf : Helpers.formatPhoneNumber (some s)
              = "+254" ++ slice1 (stripNonDigits s) := by
            simp only [Helpers.formatPhoneNumber, if_neg he, if_neg h254, if_pos h0]
          have hs : stripNonDigits ("+254" ++ slice1 (stripNonDigits s))
              = "254" ++ slice1 (stripNonDigits s) := by
            rw [stripNonDigits_append, stripNonDigits_slice1]
            rfl
          rw [hf]
          simp only [Helpers.formatPhoneNumber,
            if_neg (plus_append_ne_empty "+254" (slice1 (stripNonDigits s)) (by decide)), hs,
            if_pos (startsWith_254_append (slice1 (stripNonDigits s)))]
          rw [← String.append_assoc]
          rfl
        · by_cases h9 : (stripNonDigits s).length = 9
          · have hf : Helpers.formatPhoneNumber (some s) = "+254" ++ stripNonDigits s := by
              simp only [Helpers.formatPhoneNumber, if_neg he, if_neg h254, if_neg h0,
                if_pos h9]
            have hs : stripNonDigits ("+254" ++ stripNonDigits s)
                = "254" ++ stripNonDigits s := by
              rw [stripNonDigits_append, stripNonDigits_idem]
              rfl
            rw [hf]
            simp only [Helpers.formatPhoneNumber,
              if_neg (plus_append_ne_empty "+254" (stripNonDigits s) (by decide)), hs,
              if_pos (startsWith_254_append (stripNonDigits s))]
            rw [← String.append_assoc]
            rfl
          · have hf : Helpers.formatPhoneNumber (some s) = s := by
              simp only [Helpers.formatPhoneNumber, if_neg he, if_neg h254, if_neg h0,
                if_neg h9]
            rw [hf, hf]


/-! ### Texts outside ASCII -/

/-- Three texts outside ASCII, with the table `sampleCase`, which holds the mappings
they need: the promo code "platypuſ15", written with U+017F (long s), upper-cases to
PLATYPUS15 and is applied; the search "école" finds the name "École"; the names "éa" and
"Éz" are sorted in this order for 'asc', by their lower-cased texts. -/
theorem sampleCase_examples :
    toUpperCase sampleCase "platypuſ15" = "PLATYPUS15"
      ∧ (Cart.applyPromo sampleCase ⟨"platypuſ15", none, false⟩).1.appliedPromo
          = some ⟨15, "15% off for loyal customers", "PLATYPUS15"⟩
      ∧ (Wishlist.filterWishlist sampleCase
          [⟨"p1", "École", 10, none, "", "wine", "", true, "2025-01-01T00:00:00.000Z"⟩]
          ⟨none, none, none, some "école"⟩).map (fun item => item.name) = ["École"]
      ∧ (Wishlist.sortWishlist sampleCase (fun _ => 0)
          [⟨"p1", "Éz", 10, none, "", "gin", "", true, "2025-01-01T00:00:00.000Z"⟩,
            ⟨"p2", "éa", 20, none, "", "wine", "", true, "2025-01-02T00:00:00.000Z"⟩]
          (some "name") (some "asc")).map (fun item => item.name) = ["éa", "Éz"] := by
  decide

/-! ### The promotion at checkout, the age gate and the unconfirmed payment -/

/-- C2 (failing input): a cart of one Beefeater gin (subtotal 1850) with WELCOME10
applied on the cart page, and standard delivery. The cart page shows the discount 185
and the total 1865 (also in double precision). The checkout charges 2050: the order data carry totalAmount 2050
and payment amount 2050, the M-Pesa request is for 2050, `orderTotal` is stored as
2050, and nothing is stored under `orderDiscount`, the key from which the receipt page
reads the discount. -/
theorem checkout_drops_cart_promotion :
    (Cart.applyPromo sampleCase ⟨"WELCOME10", none, false⟩).1.appliedPromo
        = some ⟨10, "10% off your first order", "WELCOME10"⟩
      ∧ Cart.promoDiscount (some ⟨10, "10% off your first order", "WELCOME10"⟩) 1850 = 185
      ∧ Cart.totalPrice (some ⟨10, "10% off your first order", "WELCOME10"⟩) 1850 = 1865
      ∧ Cart.Binary64.totalPrice (some ⟨10, "10% off your first order", "WELCOME10"⟩)
          (.finite 1850) = .finite 1865
      ∧ (Checkout.orderDataOf
          (⟨["gin-beefeater"], 1850, 0, fun _ => .resolved (some ⟨"PL1"⟩),
            fun _ _ _ => .resolved (some ⟨some "ws_CO_1"⟩),
            fun _ => .resolved (some ⟨"completed"⟩)⟩ : Checkout.Env String)
          ⟨4, false, "mpesa",
            ⟨"Jane", "Doe", "jane@example.com", "0712345678", "1 Moi Avenue", "Nairobi",
              "Nairobi", "", "0712345678", true, "standard"⟩, [], false⟩).totalAmount = 2050
      ∧ (Checkout.orderDataOf
          (⟨["gin-beefeater"], 1850, 0, fun _ => .resolved (some ⟨"PL1"⟩),
            fun _ _ _ => .resolved (some ⟨some "ws_CO_1"⟩),
            fun _ => .resolved (some ⟨"completed"⟩)⟩ : Checkout.Env String)
          ⟨4, false, "mpesa",
            ⟨"Jane", "Doe", "jane@example.com", "0712345678", "1 Moi Avenue", "Nairobi",
              "Nairobi", "", "0712345678", true, "standard"⟩, [], false⟩).payment.amount
          = 2050
      ∧ Checkout.Effect.initiateMpesa "PL1" "0712345678" 2050
          ∈ (Checkout.handlePlaceOrder
            (⟨["gin-beefeater"], 1850, 0, fun _ => .resolved (some ⟨"PL1"⟩),
              fun _ _ _ => .resolved (some ⟨some "ws_CO_1"⟩),
              fun _ => .resolved (some ⟨"completed"⟩)⟩ : Checkout.Env String)
            ⟨4, false, "mpesa",
              ⟨"Jane", "Doe", "jane@example.com", "0712345678", "1 Moi Avenue", "Nairobi",
                "Nairobi", "", "0712345678", true, "standard"⟩, [], false⟩).2
      ∧ Checkout.Effect.setItem "orderTotal" (.amount 2050)
          ∈ (Checkout.handlePlaceOrder
            (⟨["gin-beefeater"], 1850, 0, fun _ => .resolved (some ⟨"PL1"⟩),
              fun _ _ _ => .resolved (some ⟨some "ws_CO_1"⟩),
              fun _ => .resolved (some ⟨"completed"⟩)⟩ : Checkout.Env String)
            ⟨4, false, "mpesa",
              ⟨"Jane", "Doe", "jane@example.com", "0712345678", "1 Moi Avenue", "Nairobi",
                "Nairobi", "", "0712345678", true, "standard"⟩, [], false⟩).2
      ∧ (∀ value, Checkout.Effect.setItem "orderDiscount" value
          ∉ (Checkout.handlePlaceOrder
            (⟨["gin-beefeater"], 1850, 0, fun _ => .resolved (some ⟨"PL1"⟩),
              fun _ _ _ => .resolved (some ⟨some "ws_CO_1"⟩),
              fun _ => .resolved (some ⟨"completed"⟩)⟩ : Checkout.Env String)
            ⟨4, false, "mpesa",
              ⟨"Jane", "Doe", "jane@example.com", "0712345678", "1 Moi Avenue", "Nairobi",
                "Nairobi", "", "0712345678", true, "standard"⟩, [], false⟩).2) := by
  have h1 : jsTrim "0712345678" ≠ "" := by decide
  have h2 : Helpers.validateKenyanPhone (some "0712345678") = true := by decide
  have h3 : ("ws_CO_1" : String) ≠ "" := by decide
  have hfee : Checkout.deliveryFee 1850 "standard" = 200 := by
    simp [Checkout.deliveryFee, Checkout.selectedDelivery, Checkout.deliveryOptions,
      Checkout.priceOrZero]
    norm_num
  have htotal : Checkout.totalAmount 1850 "standard" = 2050 := by
    rw [Checkout.totalAmount, hfee]; norm_num
  have hcartfee : Cart.finalDeliveryFee 1850 = 200 := by
    simp [Cart.finalDeliveryFee, Cart.isEligibleForFreeDelivery, Cart.deliveryThreshold,
      Cart.deliveryFee]
    norm_num
  refine ⟨by decide, ?_, ?_, by decide!, ?_, ?_, ?_, ?_, ?_⟩
  · simp only [Cart.promoDiscount]; norm_num
  · simp only [Cart.totalPrice, Cart.promoDiscount, hcartfee]; norm_num
  · simp only [Checkout.orderDataOf, htotal]
  · simp only [Checkout.orderDataOf, htotal]
  · simp [Checkout.handlePlaceOrder, Checkout.stepIsValid, Checkout.validateStep,
      Checkout.validateStep3, Checkout.submitOrder, Checkout.processPayment,
      Checkout.completeOrder, h1, h2, h3, htotal]
  · simp [Checkout.handlePlaceOrder, Checkout.stepIsValid, Checkout.validateStep,
      Checkout.validateStep3, Checkout.submitOrder, Checkout.processPayment,
      Checkout.completeOrder, h1, h2, h3, htotal]
  · intro value
    simp [Checkout.handlePlaceOrder, Checkout.stepIsValid, Checkout.validateStep,
      Checkout.validateStep3, Checkout.submitOrder, Checkout.processPayment,
      Checkout.completeOrder, h1, h2, h3, htotal]

/-- C23 (failing input): a cart whose one line was added from the product page, which
passes id, name, price, image and quantity and no alcoholContent (ProductDetail.jsx,
lines 123-129). The test `alcoholContent > 0` is false for the line, so the page does
not open the age-verification step and `ageVerified` stays false; the step-3 payment
fields are valid; placing the order then returns at the guard: no order is created with
the Order Service, and nothing else is done. -/
theorem handlePlaceOrder_blocked_without_alcohol :
    Checkout.requiresAgeVerification
        [⟨"gin-beefeater", "Beefeater London Dry Gin", 1850, 1,
          "/images/products/beefeater-gin.jpg", "", .undefined⟩] = false
      ∧ Checkout.ageVerificationEffect
          [⟨"gin-beefeater", "Beefeater London Dry Gin", 1850, 1,
            "/images/products/beefeater-gin.jpg", "", .undefined⟩]
          ⟨4, false, "mpesa",
            ⟨"Jane", "Doe", "jane@example.com", "0712345678", "1 Moi Avenue", "Nairobi",
              "Nairobi", "", "0712345678", false, "standard"⟩, [], false⟩
        = ⟨4, false, "mpesa",
            ⟨"Jane", "Doe", "jane@example.com", "0712345678", "1 Moi Avenue", "Nairobi",
              "Nairobi", "", "0712345678", false, "standard"⟩, [], false⟩
      ∧ Checkout.stepIsValid
          ⟨"Jane", "Doe", "jane@example.com", "0712345678", "1 Moi Avenue", "Nairobi",
            "Nairobi", "", "0712345678", false, "standard"⟩ "mpesa" 3 = true
      ∧ (Checkout.handlePlaceOrder
          (⟨[⟨"gin-beefeater", "Beefeater London Dry Gin", 1850, 1,
              "/images/products/beefeater-gin.jpg", "", .undefined⟩], 1850, 0,
            fun _ => .resolved (some ⟨"PL1"⟩),
            fun _ _ _ => .resolved (some ⟨some "ws_CO_1"⟩),
            fun _ => .resolved (some ⟨"completed"⟩)⟩ : Checkout.Env Checkout.CartItem)
          ⟨4, false, "mpesa",
            ⟨"Jane", "Doe", "jane@example.com", "0712345678", "1 Moi Avenue", "Nairobi",
              "Nairobi", "", "0712345678", false, "standard"⟩, [], false⟩).2 = []
      ∧ (Checkout.handlePlaceOrder
          (⟨[⟨"gin-beefeater", "Beefeater London Dry Gin", 1850, 1,
              "/images/products/beefeater-gin.jpg", "", .undefined⟩], 1850, 0,
            fun _ => .resolved (some ⟨"PL1"⟩),
            fun _ _ _ => .resolved (some ⟨some "ws_CO_1"⟩),
            fun _ => .resolved (some ⟨"completed"⟩)⟩ : Checkout.Env Checkout.CartItem)
          ⟨4, false, "mpesa",
            ⟨"Jane", "Doe", "jane@example.com", "0712345678", "1 Moi Avenue", "Nairobi",
              "Nairobi", "", "0712345678", false, "standard"⟩, [], false⟩).1.formData.ageVerified
          = false := by
  refine ⟨by decide, by decide, by decide, ?_, ?_⟩
  · simp [Checkout.handlePlaceOrder]
  · simp [Checkout.handlePlaceOrder]

/-- C25 (failing input): an M-Pesa order for which the initiate call answers with the
empty text as checkoutId, while the payment service reports the status 'pending' for
every checkout id, so that the payment status is not 'completed'. The status is never
asked for; the cart is cleared, the page navigates to the receipt and no error toast is
shown. -/
theorem unconfirmed_payment_clears_cart :
    (∀ checkoutId,
        (⟨["gin-beefeater"], 1850, 0, fun _ => .resolved (some ⟨"PL1"⟩),
          fun _ _ _ => .resolved (some ⟨some ""⟩),
          fun _ => .resolved (some ⟨"pending"⟩)⟩ : Checkout.Env String).checkMpesaStatus
            checkoutId
          = .resolved (some ⟨"pending"⟩))
      ∧ Checkout.Effect.clearCart
        ∈ (Checkout.handlePlaceOrder
            (⟨["gin-beefeater"], 1850, 0, fun _ => .resolved (some ⟨"PL1"⟩),
              fun _ _ _ => .resolved (some ⟨some ""⟩),
              fun _ => .resolved (some ⟨"pending"⟩)⟩ : Checkout.Env String)
            ⟨4, false, "mpesa",
              ⟨"Jane", "Doe", "jane@example.com", "0712345678", "1 Moi Avenue", "Nairobi",
                "Nairobi", "", "0712345678", true, "standard"⟩, [], false⟩).2
      ∧ Checkout.Effect.navigate
          "/order-success?orderId=PL1&paymentId=MP0&email=jane@example.com&phone=0712345678"
        ∈ (Checkout.handlePlaceOrder
            (⟨["gin-beefeater"], 1850, 0, fun _ => .resolved (some ⟨"PL1"⟩),
              fun _ _ _ => .resolved (some ⟨some ""⟩),
              fun _ => .resolved (some ⟨"pending"⟩)⟩ : Checkout.Env String)
            ⟨4, false, "mpesa",
              ⟨"Jane", "Doe", "jane@example.com", "0712345678", "1 Moi Avenue", "Nairobi",
                "Nairobi", "", "0712345678", true, "standard"⟩, [], false⟩).2
      ∧ (∀ message, Checkout.Effect.toast (Toast.error message)
          ∉ (Checkout.handlePlaceOrder
            (⟨["gin-beefeater"], 1850, 0, fun _ => .resolved (some ⟨"PL1"⟩),
              fun _ _ _ => .resolved (some ⟨some ""⟩),
              fun _ => .resolved (some ⟨"pending"⟩)⟩ : Checkout.Env String)
            ⟨4, false, "mpesa",
              ⟨"Jane", "Doe", "jane@example.com", "0712345678", "1 Moi Avenue", "Nairobi",
                "Nairobi", "", "0712345678", true, "standard"⟩, [], false⟩).2) := by
  have h1 : jsTrim "0712345678" ≠ "" := by decide
  have h2 : Helpers.validateKenyanPhone (some "0712345678") = true := by decide
  refine ⟨fun _ => rfl, ?_, ?_, ?_⟩
  · simp [Checkout.handlePlaceOrder, Checkout.stepIsValid, Checkout.validateStep,
      Checkout.validateStep3, Checkout.submitOrder, Checkout.processPayment,
      Checkout.completeOrder, h1, h2]
  · simp [Checkout.handlePlaceOrder, Checkout.stepIsValid, Checkout.validateStep,
      Checkout.validateStep3, Checkout.submitOrder, Checkout.processPayment,
      Checkout.completeOrder, h1, h2]
    decide
  · intro message
    simp [Checkout.handlePlaceOrder, Checkout.stepIsValid, Checkout.validateStep,
      Checkout.validateStep3, Checkout.submitOrder, Checkout.processPayment,
      Checkout.completeOrder, h1, h2]


end Platypus
